import Mathlib

/-!
# OSKAR beam-pattern core: a verification development

The repository's `BeamPatternTest.cpp` drives three library components
(`beamPattern2dHorizontalGeometric`, `SphericalPositions`, `GridPositions`)
whose bodies are not part of the source tree at hand; they are modelled from
the written specification and marked as such.  The code that is present (the
regular-grid loop, the buffer allocations, the frequency sweeps and the output
loops of the tests, their hard-coded arrays, the settings loader, the log-file
reader, the device log and the settings view) is embedded directly, with the
functions it calls as parameters.

Conventions: for the components modelled from the specification,
single-precision values are exact numbers (`ℚ` where only field arithmetic is
needed, `ℝ`/`ℂ` where trigonometry is needed) and counts are natural numbers.
For the code that is present and whose claims depend on it, the machine
arithmetic is followed: the buffer sizes and indices of the tests are formed
in 32-bit `unsigned` arithmetic (modulo `2^32`) or 32-bit `int` arithmetic
(undefined on overflow), and the coordinates of the regular grid are `float`
values, every operation rounding to the nearest binary32 number.
-/

namespace OSKAR

/-! ## Error kinds -/

/-- Error kinds returned by the core (specification, section 7). -/
inductive Error where
  | InvalidParameter
  | BufferTooSmall
  | NonFiniteInput
  | ConstraintUnsatisfiable
  deriving DecidableEq, Repr

deriving instance DecidableEq for Except

/-! ## Array-factor kernel -/

/-- Modelled from the spec: the direction-cosine projection of a horizontal
direction (azimuth, elevation) onto the local tangent plane.  The body of
`beamPattern2dHorizontalGeometric` is missing from the sources and the
specification leaves the exact projection open, so the kernel below takes the
projection as a parameter; this is the customary choice, used for concrete
evaluations. -/
noncomputable def horizontalDirectionCosines (az el : ℝ) : ℝ × ℝ :=
  (Real.cos el * Real.sin az, Real.cos el * Real.cos az)

/-- Modelled from the spec: the contribution of one antenna at `a = (x, y)`,
the complex exponential of `k` times the dot product of the direction-cosine
difference `(dl, dm)` with the antenna position. -/
noncomputable def phaseTerm (k dl dm : ℝ) (a : ℝ × ℝ) : ℂ :=
  Complex.exp (Complex.I * (((k * (dl * a.1 + dm * a.2) : ℝ)) : ℂ))

/-- Modelled from the spec: the discrete array factor of one sky sample `s`,
the sum of the antennas' phase terms relative to the boresight `bore`
(the kernel body is missing from the sources). -/
noncomputable def arrayFactor (proj : ℝ → ℝ → ℝ × ℝ) (ants : List (ℝ × ℝ))
    (bore : ℝ × ℝ) (k : ℝ) (s : ℝ × ℝ) : ℂ :=
  let ps := proj s.1 s.2
  let pb := proj bore.1 bore.2
  (ants.map (phaseTerm k (ps.1 - pb.1) (ps.2 - pb.2))).sum

/-- Modelled from the spec: the array-factor kernel
`beamPattern2dHorizontalGeometric(na, ax, ay, ns, slon, slat, beamAz, beamEl,
k, image)`, whose body is missing from the sources.  It rejects an empty
antenna set and a non-positive wavenumber with `InvalidParameter`, and
otherwise returns the interleaved image: the real and imaginary parts of
sample `s` at indices `2s` and `2s+1`.  Over `ℝ` every input is finite, so
`NonFiniteInput` cannot arise; the image is returned, so `BufferTooSmall`
cannot arise either. -/
noncomputable def beamPattern2dHorizontalGeometric (proj : ℝ → ℝ → ℝ × ℝ)
    (ants : List (ℝ × ℝ)) (skies : List (ℝ × ℝ)) (bore : ℝ × ℝ) (k : ℝ) :
    Except Error (List ℝ) :=
  if ants.length = 0 then Except.error Error.InvalidParameter
  else if k ≤ 0 then Except.error Error.InvalidParameter
  else Except.ok (skies.flatMap fun s =>
    [(arrayFactor proj ants bore k s).re, (arrayFactor proj ants bore k s).im])

/-! ## Machine arithmetic of the tests -/

/-- Largest value of the 32-bit `int` type of the tests' target. -/
def INT_MAX : Nat := 2147483647

/-- Number of values of the 32-bit `unsigned` type; `unsigned` arithmetic is
carried out modulo this number. -/
def UINT_MODULUS : Nat := 4294967296

/-- The power `2^k` of an integer exponent `k`, as a rational number. -/
def pow2 (k : Int) : ℚ :=
  if 0 ≤ k then ((2 ^ k.toNat : Nat) : ℚ) else 1 / ((2 ^ (-k).toNat : Nat) : ℚ)

/-- Position of the leading binary digit of `n` (0 for `n < 2`), by repeated
halving; the first argument bounds the number of halvings. -/
def floorLog2 : Nat → Nat → Nat
  | 0, _ => 0
  | fuel + 1, n => if n < 2 then 0 else floorLog2 fuel (n / 2) + 1

/-- The binary exponent of a positive rational `a`: the integer `e` with
`2^e ≤ a < 2^(e+1)`.  The quotient of the leading digit positions of numerator
and denominator is either `e` or `e + 1`; the comparison settles which. -/
def binaryExponent (a : ℚ) : Int :=
  let e : Int := (floorLog2 a.num.natAbs a.num.natAbs : Int) - (floorLog2 a.den a.den : Int)
  if pow2 e ≤ a then e else e - 1

/-- Nearest natural number to a non-negative rational, ties to the even one. -/
def roundHalfEven (m : ℚ) : Nat :=
  let fl : Nat := (Int.floor m).toNat
  if m - fl < 1 / 2 then fl
  else if 1 / 2 < m - fl then fl + 1
  else if fl % 2 = 0 then fl else fl + 1

/-- A value of the type `float` (IEEE 754 binary32): a finite value is the
rational number it denotes; `none` stands for an infinity or a NaN. -/
abbrev F32 : Type := Option ℚ

/-- Rounding of an exact result to `float`, to nearest with ties to even: the
significand has 24 binary digits, the exponent of a normal number is at least
`-126` (below that the spacing stays `2^(-149)`, the subnormal numbers), and a
result that rounds to `2^128` or more in magnitude is an infinity. -/
def F32.round (q : ℚ) : F32 :=
  if q = 0 then some 0
  else
    let quantum : ℚ := pow2 (max (binaryExponent |q|) (-126) - 23)
    let r : ℚ := (roundHalfEven (|q| / quantum) : ℚ) * quantum
    if r < pow2 128 then some (if q < 0 then -r else r) else none

/-- Conversion of an `int` to `float`. -/
def F32.ofInt (n : Int) : F32 := F32.round n

/-- The `float` product `a * b`, rounded once. -/
def F32.mul (a b : F32) : F32 :=
  match a, b with
  | some x, some y => F32.round (x * y)
  | _, _ => none

/-- The `float` difference `a - b`, rounded once. -/
def F32.sub (a b : F32) : F32 :=
  match a, b with
  | some x, some y => F32.round (x - y)
  | _, _ => none

/-- The rational `v` is a `float` value: rounding leaves it unchanged. -/
def F32.exact (v : ℚ) : Bool := F32.round v == some v

/-! ## Buffers and output loops of the tests -/

/-- Length of the image buffer allocated by the tests,
`std::vector<float> image(ns * 2)`.  In `test_regular` and `test_random` the
count is an `unsigned ns` and the product is formed in 32-bit `unsigned`
arithmetic, which is what this definition follows; the `int` variant of
`test_perturbed` and `test_scattered` is `imageLengthInt`. -/
def imageLength (ns : Nat) : Nat := (ns * 2) % UINT_MODULUS

/-- The index `2*s` of the real part of sample `s`, formed in 32-bit `unsigned`
arithmetic (`unsigned s`). -/
def imageIndexRe (s : Nat) : Nat := (2 * s) % UINT_MODULUS

/-- The index `2*s+1` of the imaginary part of sample `s`, formed in 32-bit
`unsigned` arithmetic. -/
def imageIndexIm (s : Nat) : Nat := (2 * s + 1) % UINT_MODULUS

/-- Indices of `image` read by the output loop of the tests, in program order:
`for (unsigned s = 0; s < ns; ++s)` reads `image[2*s]` and then `image[2*s+1]`. -/
def outputLoopReads (ns : Nat) : List Nat :=
  (List.range ns).flatMap fun s => [imageIndexRe s, imageIndexIm s]

/-- A value formed in 32-bit `int` arithmetic from non-negative operands:
`none` when it does not fit the type (signed overflow, which is undefined
behaviour). -/
def intResult (v : Nat) : Option Nat := if v ≤ INT_MAX then some v else none

/-- Length of the image buffer in `test_perturbed` and `test_scattered`, where
`ns` is an `int` and `ns * 2` is formed in `int` arithmetic. -/
def imageLengthInt (ns : Nat) : Option Nat := intResult (ns * 2)

/-- Indices read by the output loop of `test_perturbed` and `test_scattered`,
`for (int s = 0; s < ns; ++s)`, with `2*s` and `2*s+1` formed in `int`
arithmetic. -/
def outputLoopReadsInt (ns : Nat) : List (Option Nat) :=
  (List.range ns).flatMap fun s => [intResult (2 * s), intResult (2 * s + 1)]

/-! ## Regular grid of `test_regular` -/

/-- Half the side of the array, `const float halfArraySize = (na - 1) * sep /
2.0`: the `int` difference is converted to `float`, the product is a `float`,
the halving is done in `double` (where it is exact) and the quotient is stored
as a `float`. -/
def halfArraySize (na : Nat) (sep : ℚ) : F32 :=
  match F32.mul (F32.ofInt ((na : Int) - 1)) (some sep) with
  | some v => F32.round (v / 2)
  | none => none

/-- Flat buffer index of grid element `(x, y)`: `int i = y + x * na`, formed in
32-bit `int` arithmetic; `none` when the value does not fit (signed overflow,
which is undefined behaviour). -/
def gridIndex (na x y : Nat) : Option Nat := intResult (y + x * na)

/-- The coordinate `x * sep - halfArraySize` stored for index `x` along an
axis: `x` is converted to `float`, and the product and the difference are each
rounded to `float` (strict single-precision evaluation: no extended
intermediate precision and no fused multiply-add). -/
def gridCoordinate (na : Nat) (sep : ℚ) (x : Nat) : F32 :=
  F32.sub (F32.mul (F32.ofInt x) (some sep)) (halfArraySize na sep)

/-- The stores executed by the two nested loops of `test_regular`, in program
order; iteration `(x, y)` stores `x * sep - halfArraySize` to `ax[i]` and
`y * sep - halfArraySize` to `ay[i]` with `i = y + x * na`.  Each entry is
`(i, value for ax, value for ay)`. -/
def regularGridStores (na : Nat) (sep : ℚ) : List (Option Nat × F32 × F32) :=
  (List.range na).flatMap fun (x : Nat) => (List.range na).map fun (y : Nat) =>
    (gridIndex na x y, gridCoordinate na sep x, gridCoordinate na sep y)

/-- Executes a sequence of stores `(i, vx, vy)` on a pair of buffers:
`ax[i] = vx; ay[i] = vy`.  The result is `none` (undefined behaviour) when an
index is undefined or lies outside a buffer. -/
def runStores (stores : List (Option Nat × F32 × F32)) (bufs : List F32 × List F32) :
    Option (List F32 × List F32) :=
  stores.foldl (fun b st =>
    match b, st.1 with
    | some b, some i =>
      if i < b.1.length ∧ i < b.2.length then some (b.1.set i st.2.1, b.2.set i st.2.2)
      else none
    | _, _ => none) (some bufs)

/-- The antenna buffers `(ax, ay)` of `test_regular` after the generation loop:
both are allocated with `na * na` zero-initialised entries, the size being
formed in 32-bit `int` arithmetic, and then written by the loop.  The result is
`none` when the behaviour is undefined (signed overflow of `na * na` or of an
index, or a store outside a buffer). -/
def regularGrid (na : Nat) (sep : ℚ) : Option (List F32 × List F32) :=
  match intResult (na * na) with
  | some size =>
    runStores (regularGridStores na sep)
      (List.replicate size (some 0), List.replicate size (some 0))
  | none => none

/-- The antenna positions of the regular grid with finite coordinates, in
buffer order; element `i` is `(ax[i], ay[i])` when all coordinates are finite.
The list is empty when the generation is undefined. -/
def regularGridPositions (na : Nat) (sep : ℚ) : List (ℚ × ℚ) :=
  match regularGrid na sep with
  | some b => (b.1.zip b.2).filterMap fun p =>
      match p.1, p.2 with
      | some x, some y => some (x, y)
      | _, _ => none
  | none => []

/-- The separation of `test_regular`, `const float sep = 0.15`: the `float`
nearest to 0.15. -/
def test_regular.sep : ℚ := 5033165 / 33554432

/-- No operation of the coordinate computation of an `na x na` grid rounds:
`na - 1`, the product `(na - 1) * sep`, its half, and for every index `x < na`
the value `x`, the product `x * sep` and the difference
`x * sep - (na - 1) * sep / 2` are all `float` values. -/
def exactGrid (na : Nat) (sep : ℚ) : Bool :=
  F32.exact ((na : ℚ) - 1) && F32.exact (((na : ℚ) - 1) * sep) &&
  F32.exact (((na : ℚ) - 1) * sep / 2) &&
  (List.range na).all fun (x : Nat) =>
    F32.exact x && F32.exact ((x : ℚ) * sep) &&
      F32.exact ((x : ℚ) * sep - ((na : ℚ) - 1) * sep / 2)

/-! ## Count-then-fill buffers -/

/-- Modelled from the spec: the generators' shared output idiom (their bodies
are missing from the sources).  Every produced point increments the counter;
when output buffers are present the point is first stored at the counter's
index, when they are absent nothing is stored. -/
def emitPoints (pts : List (ℚ × ℚ)) (bufs : Option (List ℚ × List ℚ)) :
    Nat × Option (List ℚ × List ℚ) :=
  pts.foldl (fun st p =>
    (st.1 + 1, st.2.map fun b => (b.1.set st.1 p.1, b.2.set st.1 p.2))) (0, bufs)

/-- Modelled from the spec: a fill call is refused with `BufferTooSmall` when
a supplied buffer is shorter than the number of points to store; a count-only
call (absent buffers) is never refused. -/
def buffersTooSmall (count : Nat) (bufs : Option (List ℚ × List ℚ)) : Bool :=
  match bufs with
  | none => false
  | some b => decide (b.1.length < count) || decide (b.2.length < count)

/-! ## Sky-position generator -/

/-- Modelled from the spec: the configuration of `SphericalPositions` (the
class is missing from the sources): centre, half-widths and spacings on the two
axes, the hemisphere options and the enumerated projection mode. -/
structure SkyConfig where
  centreLon : ℚ
  centreLat : ℚ
  sizeLon : ℚ
  sizeLat : ℚ
  sepLon : ℚ
  sepLat : ℚ
  aboveHorizon : Bool
  mirror : Bool
  projectionType : Nat

/-- The projection mode that applies no distortion. -/
def PROJECTION_NONE : Nat := 0

/-- Modelled from the spec: the rectangular-sector configuration built by the
six-argument constructor: no horizon restriction, no mirroring, no projection. -/
def SkyConfig.rectangular (centreLon centreLat sizeLon sizeLat sepLon sepLat : ℚ) :
    SkyConfig :=
  ⟨centreLon, centreLat, sizeLon, sizeLat, sepLon, sepLat, false, false, PROJECTION_NONE⟩

/-- Modelled from the spec: the forward map of a projection mode.  Mode `NONE`
is the identity; the maps of the other modes are not specified and are looked
up in the table `fwd`, where `none` marks an unrecognised mode. -/
def projectionMap (fwd : Nat → Option (ℚ × ℚ → ℚ × ℚ)) (mode : Nat) :
    Option (ℚ × ℚ → ℚ × ℚ) :=
  if mode = PROJECTION_NONE then some id else fwd mode

/-- Modelled from the spec: the spacing actually used on an axis, clipped so
that it never exceeds the half-width. -/
def clippedSpacing (size sep : ℚ) : ℚ := if sep > size then size else sep

/-- Modelled from the spec: the number of lattice points on an axis,
`floor(2 * half-width / spacing) + 1` with the clipped spacing. -/
def axisCount (size sep : ℚ) : Nat :=
  (⌊2 * size / clippedSpacing size sep⌋).toNat + 1

/-- Modelled from the spec: the sky directions of a configuration in traversal
order, outer loop over longitude and inner loop over latitude.  A lattice
offset is mirrored in longitude when requested, moved to the centre, mapped by
the projection, and dropped when the horizon restriction is on and its latitude
is negative. -/
def skyPoints (cfg : SkyConfig) (proj : ℚ × ℚ → ℚ × ℚ) : List (ℚ × ℚ) :=
  let dLon := clippedSpacing cfg.sizeLon cfg.sepLon
  let dLat := clippedSpacing cfg.sizeLat cfg.sepLat
  (List.range (axisCount cfg.sizeLon cfg.sepLon)).flatMap fun (i : Nat) =>
    (List.range (axisCount cfg.sizeLat cfg.sepLat)).filterMap fun (j : Nat) =>
      let x := (i : ℚ) * dLon - cfg.sizeLon
      let y := (j : ℚ) * dLat - cfg.sizeLat
      let p := proj (cfg.centreLon + (if cfg.mirror then -x else x), cfg.centreLat + y)
      if cfg.aboveHorizon && decide (p.2 < 0) then none else some p

/-- Modelled from the spec: `SphericalPositions::generate(lon, lat)` (missing
from the sources).  It fails with `InvalidParameter` on a non-positive
half-width or spacing or an unrecognised projection mode; otherwise it returns
the number of samples and, when buffers are given, the filled buffers. -/
def SphericalPositions.generate (fwd : Nat → Option (ℚ × ℚ → ℚ × ℚ)) (cfg : SkyConfig)
    (bufs : Option (List ℚ × List ℚ)) : Except Error (Nat × Option (List ℚ × List ℚ)) :=
  if cfg.sizeLon ≤ 0 ∨ cfg.sizeLat ≤ 0 then Except.error Error.InvalidParameter
  else if cfg.sepLon ≤ 0 ∨ cfg.sepLat ≤ 0 then Except.error Error.InvalidParameter
  else match projectionMap fwd cfg.projectionType with
    | none => Except.error Error.InvalidParameter
    | some proj =>
      if buffersTooSmall (skyPoints cfg proj).length bufs then
        Except.error Error.BufferTooSmall
      else Except.ok (emitPoints (skyPoints cfg proj) bufs)

/-! ## Perturbed circular layout -/

/-- Modelled from the spec: the parameters of `GridPositions::circular`. -/
structure CircularParams where
  seed : Int
  radius : ℚ
  xs : ℚ
  ys : ℚ
  xe : ℚ
  ye : ℚ

/-- Modelled from the spec: the parts of the perturbed-layout generator that
the specification leaves open (`GridPositions` is missing from the sources):
the pseudo-random generator with ambient state `σ` (`srand` seeds it, `rand`
draws a number in `[-1, 1]`), the bound on placement attempts per element, and
the test that two positions violate the minimum separation. -/
structure Placement (σ : Type) where
  srand : Int → σ
  rand : σ → ℚ × σ
  maxAttempts : Nat
  violates : CircularParams → ℚ × ℚ → ℚ × ℚ → Bool

/-- Modelled from the spec: the nominal grid positions inside the circular
aperture, row by row and column by column. -/
def nominalSites (prm : CircularParams) : List (ℚ × ℚ) :=
  let nx := (⌊2 * prm.radius / prm.xs⌋).toNat + 1
  let ny := (⌊2 * prm.radius / prm.ys⌋).toNat + 1
  (List.range ny).flatMap fun (iy : Nat) =>
    (List.range nx).filterMap fun (ix : Nat) =>
      let x := (ix : ℚ) * prm.xs - ((nx : ℚ) - 1) * prm.xs / 2
      let y := (iy : ℚ) * prm.ys - ((ny : ℚ) - 1) * prm.ys / 2
      if x * x + y * y ≤ prm.radius * prm.radius then some (x, y) else none

/-- Modelled from the spec: places one element.  Each attempt draws two random
numbers, perturbs the nominal position by at most `(xe, ye)` and accepts the
candidate when it violates the minimum separation with no element placed so
far; after `attempts` failures the placement gives up. -/
def placeElement {σ : Type} (P : Placement σ) (prm : CircularParams)
    (placed : List (ℚ × ℚ)) (nominal : ℚ × ℚ) : Nat → σ → Option (ℚ × ℚ) × σ
  | 0, g => (none, g)
  | attempts + 1, g =>
    let c : ℚ × ℚ := (nominal.1 + prm.xe * (P.rand g).1,
      nominal.2 + prm.ye * (P.rand (P.rand g).2).1)
    if placed.all (fun q => !P.violates prm c q) then (some c, (P.rand (P.rand g).2).2)
    else placeElement P prm placed nominal attempts (P.rand (P.rand g).2).2

/-- Modelled from the spec: places the elements of all sites in order,
threading the random state; `none` when some element cannot be placed. -/
def layoutLoop {σ : Type} (P : Placement σ) (prm : CircularParams) :
    List (ℚ × ℚ) → σ → List (ℚ × ℚ) → Option (List (ℚ × ℚ)) × σ
  | [], g, placed => (some placed, g)
  | site :: rest, g, placed =>
    match placeElement P prm placed site P.maxAttempts g with
    | (some c, g1) => layoutLoop P prm rest g1 (placed ++ [c])
    | (none, g1) => (none, g1)

/-- Modelled from the spec: `GridPositions::circular(seed, radius, xs, ys, xe,
ye, gx, gy)` (missing from the sources), run in ambient random state `g`.  It
returns its result and the random state it leaves behind.  Non-positive seed,
radius or separations give `InvalidParameter`; otherwise the generator is
seeded once, the elements are placed, and the count (and the filled buffers,
when given) is returned. -/
def GridPositions.circular {σ : Type} (P : Placement σ) (g : σ) (prm : CircularParams)
    (bufs : Option (List ℚ × List ℚ)) :
    Except Error (Nat × Option (List ℚ × List ℚ)) × σ :=
  if prm.seed ≤ 0 ∨ prm.radius ≤ 0 ∨ prm.xs ≤ 0 ∨ prm.ys ≤ 0 then
    (Except.error Error.InvalidParameter, g)
  else
    match layoutLoop P prm (nominalSites prm) (P.srand prm.seed) [] with
    | (none, g1) => (Except.error Error.ConstraintUnsatisfiable, g1)
    | (some placed, g1) =>
      if buffersTooSmall placed.length bufs then (Except.error Error.BufferTooSmall, g1)
      else (Except.ok (emitPoints placed bufs), g1)

/-- A small linear congruential generator, used for concrete evaluations. -/
def lcgPlacement : Placement Nat where
  srand := fun s => s.toNat
  rand := fun g =>
    ((((1103515245 * g + 12345) % 2001 : Nat) : ℚ) / 1000 - 1, (1103515245 * g + 12345) % 2147483648)
  maxAttempts := 8
  violates := fun prm p q =>
    decide ((p.1 - q.1) * (p.1 - q.1) + (p.2 - q.2) * (p.2 - q.2) <
      (min prm.xs prm.ys - 2 * max prm.xe prm.ye) * (min prm.xs prm.ys - 2 * max prm.xe prm.ye))

/-! ## Rotation about the Z axis -/

/-- Modelled from the spec: the 3x3 matrix `float matrix[9]` of the tests, in
row-major order (`Matrix3` is missing from the sources). -/
structure Matrix3 where
  a11 : ℝ
  a12 : ℝ
  a13 : ℝ
  a21 : ℝ
  a22 : ℝ
  a23 : ℝ
  a31 : ℝ
  a32 : ℝ
  a33 : ℝ

/-- Modelled from the spec: `Matrix3::rotationZ(matrix, angle)`, the rigid
rotation by `angle` radians about the Z axis (missing from the sources). -/
noncomputable def Matrix3.rotationZ (angle : ℝ) : Matrix3 :=
  ⟨Real.cos angle, -Real.sin angle, 0, Real.sin angle, Real.cos angle, 0, 0, 0, 1⟩

/-- Modelled from the spec: the image of one point under a matrix. -/
noncomputable def Matrix3.transformPoint (m : Matrix3) (p : ℝ × ℝ × ℝ) : ℝ × ℝ × ℝ :=
  (m.a11 * p.1 + m.a12 * p.2.1 + m.a13 * p.2.2,
   m.a21 * p.1 + m.a22 * p.2.1 + m.a23 * p.2.2,
   m.a31 * p.1 + m.a32 * p.2.1 + m.a33 * p.2.2)

/-- Modelled from the spec: `Matrix3::transformPoints(matrix, n, x, y, z)`
(missing from the sources), which replaces every point `(x[i], y[i], z[i])` by
its image; the three coordinate buffers are modelled as one list of triples,
`n` being its length. -/
noncomputable def Matrix3.transformPoints (m : Matrix3) (pts : List (ℝ × ℝ × ℝ)) :
    List (ℝ × ℝ × ℝ) :=
  pts.map m.transformPoint

/-- Modelled from the spec: the rotation step of the tests.  The `N` points
`(ax[i], ay[i])` are joined with the zero-initialised buffer `az` and rotated
about the Z axis, giving `N` points `(x, y, z)`. -/
noncomputable def rotatePointsZ (angle : ℝ) (pts : List (ℝ × ℝ)) : List (ℝ × ℝ × ℝ) :=
  (Matrix3.rotationZ angle).transformPoints (pts.map fun p => (p.1, p.2, 0))

/-! ## Wavenumber and frequency sweep of the tests -/

/-- Number of frequencies of the sweeps, `int nf = 7`. -/
def nf : Nat := 7

/-- Frequencies of the sweeps in MHz,
`float freq[] = {70, 115, 150, 200, 240, 300, 450}`. -/
def freq : List ℚ := [70, 115, 150, 200, 240, 300, 450]

/-- The text printed by the conversion `%.0f` of the C library for the rational
`x`: the nearest integer (ties to even) in decimal, with a minus sign for a
negative value. -/
def formatF0 (x : ℚ) : List Char :=
  let a := |x|
  let fl := (⌊a⌋).toNat
  let r := if a - fl < 1 / 2 then fl
    else if a - fl > 1 / 2 then fl + 1
    else if fl % 2 = 0 then fl else fl + 1
  (if x < 0 then ['-'] else []) ++ Nat.toDigits 10 r

/-- The characters stored by `snprintf(fname, size, ...)` before the
terminating NUL: at most `size - 1` characters of the formatted text. -/
def snprintf (size : Nat) (text : List Char) : List Char := text.take (size - 1)

/-- The formatted text of the file name of one frequency, for the patterns
`"beamPattern_%.0f.dat"` and `"beamPatternScattered_%.0f.dat"`; `stem` is the
part of the pattern before the conversion. -/
def fileNameText (stem : List Char) (f : ℚ) : List Char :=
  stem ++ formatF0 f ++ ".dat".toList

/-- The file names opened by a frequency sweep, in loop order: iteration `f`
opens `fname` after `snprintf(fname, 200, pattern, freq[f])`. -/
def sweepFileNames (stem : List Char) : List (List Char) :=
  (List.range nf).map fun f => snprintf 200 (fileNameText stem (freq.getD f 0))

/-- The stem of the file names of `test_perturbed`. -/
def perturbedStem : List Char := "beamPattern_".toList

/-- The stem of the file names of `test_scattered`. -/
def scatteredStem : List Char := "beamPatternScattered_".toList

/-! ## Settings loader (`oskar_settings_load`) -/

/-- The terminating character of a C string. -/
def NUL : Char := Char.ofNat 0

/-- The length `strlen(s)` of the C string stored in the memory `s`: the number
of characters before the first NUL. -/
def strlen (s : List Char) : Nat := (s.takeWhile fun c => c != NUL).length

/-- The calls `oskar_settings_load` makes, with the arguments that matter:
`filename` is the memory the pointer refers to; `mem_append_raw src n` stands
for `oskar_mem_append_raw(&settings->settings_path, src, OSKAR_CHAR,
OSKAR_LOCATION_CPU, n)`. -/
inductive LoadCall where
  | settings_init
  | load_observation (filename : List Char)
  | load_simulator (filename : List Char)
  | load_sky (filename : List Char)
  | load_telescope (filename : List Char)
  | load_image (filename : List Char)
  | load_beam_pattern (filename : List Char)
  | mem_append_raw (src : List Char) (num_elements : Nat)
  deriving DecidableEq

/-- The function `oskar_settings_load(settings, log, filename)`.  The called
functions are missing from the sources and are the parameter `call`: each maps
the state of the world (settings and log included) to its error code and the
new state.  The constant `OSKAR_SUCCESS` is declared in a header missing from
the sources and is a parameter too.  The result is the returned code, the final
state, and the calls made with the code each returned, in order. -/
def oskar_settings_load {σ : Type} (OSKAR_SUCCESS : Int) (call : LoadCall → σ → Int × σ)
    (w : σ) (filename : List Char) : Int × σ × List (LoadCall × Int) :=
  let r1 := call LoadCall.settings_init w
  let t1 := [(LoadCall.settings_init, r1.1)]
  if r1.1 ≠ 0 then (r1.1, r1.2, t1) else
  let r2 := call (LoadCall.load_observation filename) r1.2
  let t2 := t1 ++ [(LoadCall.load_observation filename, r2.1)]
  if r2.1 ≠ 0 then (r2.1, r2.2, t2) else
  let r3 := call (LoadCall.load_simulator filename) r2.2
  let t3 := t2 ++ [(LoadCall.load_simulator filename, r3.1)]
  if r3.1 ≠ 0 then (r3.1, r3.2, t3) else
  let r4 := call (LoadCall.load_sky filename) r3.2
  let t4 := t3 ++ [(LoadCall.load_sky filename, r4.1)]
  if r4.1 ≠ 0 then (r4.1, r4.2, t4) else
  let r5 := call (LoadCall.load_telescope filename) r4.2
  let t5 := t4 ++ [(LoadCall.load_telescope filename, r5.1)]
  if r5.1 ≠ 0 then (r5.1, r5.2, t5) else
  let r6 := call (LoadCall.load_image filename) r5.2
  let t6 := t5 ++ [(LoadCall.load_image filename, r6.1)]
  if r6.1 ≠ 0 then (r6.1, r6.2, t6) else
  let r7 := call (LoadCall.load_beam_pattern filename) r6.2
  let t7 := t6 ++ [(LoadCall.load_beam_pattern filename, r7.1)]
  if r7.1 ≠ 0 then (r7.1, r7.2, t7) else
  let r8 := call (LoadCall.mem_append_raw filename (1 + strlen filename)) r7.2
  let t8 := t7 ++ [(LoadCall.mem_append_raw filename (1 + strlen filename), r8.1)]
  if r8.1 ≠ 0 then (r8.1, r8.2, t8) else
  (OSKAR_SUCCESS, r8.2, t8)

/-- The open file of a log, `log->file`: the bytes already in the file, the
bytes still buffered by the stream, the file position, and the largest number
of bytes a read delivers (a smaller value than requested models a short read). -/
structure LogStream where
  contents : List Char
  pending : List Char
  pos : Nat
  readLimit : Nat

/-- The call `fflush(file)`: buffered bytes reach the file. -/
def LogStream.fflush (f : LogStream) : LogStream :=
  { f with contents := f.contents ++ f.pending, pending := [] }

/-- The call `fseek(file, 0, SEEK_END)`. -/
def LogStream.fseekEnd (f : LogStream) : LogStream := { f with pos := f.contents.length }

/-- The call `ftell(file)`; like `fflush` and `fseek` it is taken to succeed. -/
def LogStream.ftell (f : LogStream) : Int := f.pos

/-- The call `rewind(file)`. -/
def LogStream.rewind (f : LogStream) : LogStream := { f with pos := 0 }

/-- The call `fread(data, 1, n, file)`: the bytes delivered and the stream
afterwards; the return value of `fread` is the number of bytes delivered. -/
def LogStream.fread (f : LogStream) (n : Nat) : List Char × LogStream :=
  (((f.contents.drop f.pos).take n).take f.readLimit,
   { f with pos := f.pos + (((f.contents.drop f.pos).take n).take f.readLimit).length })

/-- The log structure, as far as `oskar_log_file_data` uses it: the optional
open file (the mutex is traced separately). -/
structure Log where
  file : Option LogStream

/-- Operations on `log->mutex`. -/
inductive MutexOp where
  | lock
  | unlock
  deriving DecidableEq, Repr

/-- The outcome of `oskar_log_file_data`: the returned buffer (`none` for a null
pointer), the value of `*size` afterwards (`none` when `size` is null), the
operations performed on the mutex in order, and the log afterwards. -/
structure LogFileData where
  data : Option (List Char)
  size : Option Int
  mutex : List MutexOp
  log : Option Log

/-- The block of `oskar_log_file_data` guarded by `if (log->file)`: it returns
the buffer, the value stored to `*size` and the stream afterwards.  `malloc n`
tells whether an allocation of `n` bytes succeeds. -/
def readLogFile (malloc : Nat → Bool) (f : LogStream) : Option (List Char) × Int × LogStream :=
  let f1 := f.fflush.fseekEnd
  let size : Int := f1.ftell
  if size ≠ 0 then
    if malloc size.toNat then
      let r := f1.rewind.fread size.toNat
      if r.1.length ≠ size.toNat then (none, size, r.2) else (some r.1, size, r.2)
    else (none, size, f1)
  else (none, size, f1)

/-- The function `oskar_log_file_data(log, size)`.  `openmp` tells whether the
code is compiled with `_OPENMP`, which enables the two mutex operations;
`size` is `none` for a null pointer and otherwise holds the value of `*size`
before the call. -/
def oskar_log_file_data (openmp : Bool) (malloc : Nat → Bool) (log : Option Log)
    (size : Option Int) : LogFileData :=
  match size with
  | none => ⟨none, none, [], log⟩
  | some size0 =>
    match log with
    | none => ⟨none, some size0, [], none⟩
    | some lg =>
      let locked : List MutexOp := if openmp then [MutexOp.lock] else []
      let body : Option (List Char) × Int × Option LogStream :=
        match lg.file with
        | none => (none, size0, none)
        | some f => ((readLogFile malloc f).1, (readLogFile malloc f).2.1,
            some (readLogFile malloc f).2.2)
      let unlocked : List MutexOp := locked ++ (if openmp then [MutexOp.unlock] else [])
      ⟨body.1, some body.2.1, unlocked, some ⟨body.2.2⟩⟩

/-- The number of times the mutex is held after a sequence of operations,
starting from a free mutex. -/
def heldAfter (ops : List MutexOp) : Int :=
  ops.foldl (fun h op => match op with
    | MutexOp.lock => h + 1
    | MutexOp.unlock => h - 1) 0

/-! ## Device log (`oskar_device_log.c`) -/

/-- An argument passed to a log call after the format string.  A value of type
`double` is `none` when it is not a finite number (the result of a division by
zero). -/
inductive LogArg where
  | int (n : Int)
  | str (s : String)
  | real (x : Option ℚ)
  deriving DecidableEq

/-- The calls made to the log (the log functions themselves are missing from
the sources): `oskar_log_message(log, priority, depth, format, ...)` and
`oskar_log_value(log, priority, depth, label, format, ...)`. -/
inductive LogCall where
  | message (priority : Char) (depth : Int) (format : String) (args : List LogArg)
  | value (priority : Char) (depth : Int) (label : String) (format : String)
      (args : List LogArg)
  deriving DecidableEq

/-- The label of a value line; a message has none. -/
def LogCall.label : LogCall → Option String
  | LogCall.message _ _ _ _ => none
  | LogCall.value _ _ label _ _ => some label

/-- The fields of `oskar_Device` read by the log functions.  The structure is
declared in `utility/private_device.h`, which is missing from the sources; the
field types follow their use (`%d` and `%s` conversions, divisions by
floating-point constants). -/
structure Device where
  index : Int
  name : String
  vendor : String
  platform_type : Char
  cuda_runtime_version : Int
  cuda_driver_version : Int
  cl_version : String
  cl_driver_version : String
  compute_capability : Int × Int
  supports_double : Int
  supports_atomic32 : Int
  supports_atomic64 : Int
  global_mem_free_size : Nat
  global_mem_size : Nat
  max_mem_alloc_size : Nat
  global_mem_cache_size : Nat
  local_mem_size : Nat
  max_compute_units : Int
  num_cores : Int
  max_clock_freq_kHz : Int
  memory_clock_freq_kHz : Int
  memory_bus_width : Int
  num_registers : Int
  warp_size : Int
  max_work_group_size : Int
  max_local_size : Int × Int × Int

/-- The function `oskar_device_log_details(device, log)`: the log calls it
makes, in order.  Integer `/` and `%` are the truncating C operators. -/
def oskar_device_log_details (device : Device) : List LogCall :=
  [LogCall.message 'M' 0 "Device %d (%s):" [LogArg.int device.index, LogArg.str device.name],
   LogCall.value 'M' 1 "Vendor" "%s" [LogArg.str device.vendor],
   LogCall.value 'M' 1 "Compute platform" "%s"
     [LogArg.str (if device.platform_type = 'C' then "CUDA" else "OpenCL")]] ++
  (if device.platform_type = 'C' then
    [LogCall.value 'M' 1 "CUDA runtime version" "%d.%d"
       [LogArg.int (device.cuda_runtime_version.tdiv 1000),
        LogArg.int ((device.cuda_runtime_version.tmod 100).tdiv 10)],
     LogCall.value 'M' 1 "CUDA driver version" "%d.%d"
       [LogArg.int (device.cuda_driver_version.tdiv 1000),
        LogArg.int ((device.cuda_driver_version.tmod 100).tdiv 10)]]
  else if device.platform_type = 'O' then
    [LogCall.value 'M' 1 "OpenCL version" "%s" [LogArg.str device.cl_version],
     LogCall.value 'M' 1 "OpenCL driver version" "%s" [LogArg.str device.cl_driver_version]]
  else []) ++
  (if device.compute_capability.1 > 0 then
    [LogCall.value 'M' 1 "CUDA compute capability" "%d.%d"
       [LogArg.int device.compute_capability.1, LogArg.int device.compute_capability.2]]
  else []) ++
  [LogCall.value 'M' 1 "Supports double precision" "%s"
     [LogArg.str (if device.supports_double ≠ 0 then "true" else "false")]] ++
  (if device.platform_type = 'O' then
    [LogCall.value 'M' 1 "Supports 32-bit atomics" "%s"
       [LogArg.str (if device.supports_atomic32 ≠ 0 then "true" else "false")],
     LogCall.value 'M' 1 "Supports 64-bit atomics" "%s"
       [LogArg.str (if device.supports_atomic64 ≠ 0 then "true" else "false")]]
  else []) ++
  (if device.global_mem_free_size > 0 then
    [LogCall.value 'M' 1 "Free global memory (MiB)" "%.1f"
       [LogArg.real (some ((device.global_mem_free_size : ℚ) / (1024 * 1024)))]]
  else []) ++
  [LogCall.value 'M' 1 "Global memory size (MiB)" "%.0f"
     [LogArg.real (some ((device.global_mem_size : ℚ) / (1024 * 1024)))]] ++
  (if device.max_mem_alloc_size > 0 then
    [LogCall.value 'M' 1 "Max allocation size (MiB)" "%.0f"
       [LogArg.real (some ((device.max_mem_alloc_size : ℚ) / (1024 * 1024)))]]
  else []) ++
  (if device.global_mem_cache_size > 0 then
    [LogCall.value 'M' 1 "Global memory cache size (kiB)" "%.0f"
       [LogArg.real (some ((device.global_mem_cache_size : ℚ) / 1024))]]
  else []) ++
  [LogCall.value 'M' 1 "Local/shared memory size (kiB)" "%.0f"
     [LogArg.real (some ((device.local_mem_size : ℚ) / 1024))],
   LogCall.value 'M' 1 "Number of compute units" "%d" [LogArg.int device.max_compute_units]] ++
  (if device.num_cores > 0 then
    [LogCall.value 'M' 1 "Number of cores" "%d" [LogArg.int device.num_cores]]
  else []) ++
  [LogCall.value 'M' 1 "Clock speed (MHz)" "%.0f"
     [LogArg.real (some ((device.max_clock_freq_kHz : ℚ) / 1000))]] ++
  (if device.memory_clock_freq_kHz > 0 then
    [LogCall.value 'M' 1 "Memory clock speed (MHz)" "%.0f"
       [LogArg.real (some ((device.memory_clock_freq_kHz : ℚ) / 1000))]]
  else []) ++
  (if device.memory_bus_width > 0 then
    [LogCall.value 'M' 1 "Memory bus width" "%d-bit" [LogArg.int device.memory_bus_width]]
  else []) ++
  (if device.num_registers > 0 then
    [LogCall.value 'M' 1 "Registers per block" "%d" [LogArg.int device.num_registers]]
  else []) ++
  (if device.warp_size > 0 then
    [LogCall.value 'M' 1 "Warp size" "%d" [LogArg.int device.warp_size]]
  else []) ++
  [LogCall.value 'M' 1 "Max work group size" "%d" [LogArg.int device.max_work_group_size],
   LogCall.value 'M' 1 "Max work item sizes" "(%d x %d x %d)"
     [LogArg.int device.max_local_size.1, LogArg.int device.max_local_size.2.1,
      LogArg.int device.max_local_size.2.2]]

/-- A CUDA device (runtime 11.2, driver 11.4, 16 GiB of which 4 GiB are free),
used for concrete evaluations. -/
def exampleCudaDevice : Device where
  index := 0
  name := "GPU"
  vendor := "NVIDIA"
  platform_type := 'C'
  cuda_runtime_version := 11020
  cuda_driver_version := 11040
  cl_version := ""
  cl_driver_version := ""
  compute_capability := (7, 0)
  supports_double := 1
  supports_atomic32 := 1
  supports_atomic64 := 1
  global_mem_free_size := 4294967296
  global_mem_size := 17179869184
  max_mem_alloc_size := 0
  global_mem_cache_size := 0
  local_mem_size := 49152
  max_compute_units := 80
  num_cores := 5120
  max_clock_freq_kHz := 1530000
  memory_clock_freq_kHz := 877000
  memory_bus_width := 4096
  num_registers := 65536
  warp_size := 32
  max_work_group_size := 1024
  max_local_size := (1024, 1024, 64)

/-! ## Settings view (`oskar_SettingsView.cpp`) -/

/-- An item of the settings tree as the view presents it: its key (the data of
`KeyRole`), whether the view shows it expanded, and its child rows in order. -/
inductive SettingsItem where
  | mk (key : String) (expanded : Bool) (children : List SettingsItem)

/-- The outcome of a pass of `saveRestoreExpanded`: the rows under `parent`
with their expansion state afterwards, the string list afterwards, and the
keys of the items visited, in the order of the visits. -/
structure ExpandedPass where
  items : List SettingsItem
  list : List String
  visited : List String

/-- The method `saveRestoreExpanded(parent, list, restore)`, on the rows under
`parent`.  For each row in order: in restore mode the item is expanded when the
list contains its key, in save mode the key is appended when the item is
expanded; then the method recurses into the item when it has rows.  The calls
`expand(idx)` and `isExpanded(idx)` of the tree view are taken to set and to
read the expansion state of the item. -/
def saveRestoreExpanded (restore : Bool) : List SettingsItem → List String → ExpandedPass
  | [], list => ⟨[], list, []⟩
  | SettingsItem.mk key expanded children :: rest, list =>
    let expanded1 := if restore then (if list.contains key then true else expanded) else expanded
    let list1 := if restore then list else (if expanded then list ++ [key] else list)
    let sub : ExpandedPass :=
      if children.length > 0 then saveRestoreExpanded restore children list1
      else ⟨children, list1, []⟩
    let next := saveRestoreExpanded restore rest sub.list
    ⟨SettingsItem.mk key expanded1 sub.items :: next.items, next.list,
      key :: sub.visited ++ next.visited⟩

/-- The method `saveExpanded()`: a save pass over the top-level rows starting
from an empty list; the result is the tree afterwards and the list stored
under `settings_view/expanded_items`. -/
def saveExpanded (tree : List SettingsItem) : List SettingsItem × List String :=
  ((saveRestoreExpanded false tree []).items, (saveRestoreExpanded false tree []).list)

/-- The method `restoreExpanded()`: a restore pass over the top-level rows
with the list read from `settings_view/expanded_items`, which is taken to be
the list stored there. -/
def restoreExpanded (tree : List SettingsItem) (stored : List String) : List SettingsItem :=
  (saveRestoreExpanded true tree stored).items

/-- The items of a tree in depth-first pre-order (an item before its children,
siblings in row order), each with its key and expansion state. -/
def allItems : List SettingsItem → List (String × Bool)
  | [] => []
  | SettingsItem.mk key expanded children :: rest =>
    (key, expanded) :: allItems children ++ allItems rest

/-- The tree with every item whose key is in `list` expanded and every other
item left as it is. -/
def expandListed (list : List String) : List SettingsItem → List SettingsItem
  | [] => []
  | SettingsItem.mk key expanded children :: rest =>
    SettingsItem.mk key (expanded || list.contains key) (expandListed list children) ::
      expandListed list rest

/-! ## Hard-coded arrays of `test_random` and `test_scattered` -/

/-- The value of a decimal literal, given as its sign (`true` for a minus
sign), its digits read as a natural number and the number of digits after the
point: `-19.412` is `(true, 19412, 3)`. -/
def decimal (p : Bool × Nat × Nat) : ℚ :=
  (if p.1 then -1 else 1) * (p.2.1 : ℚ) / 10 ^ p.2.2

/-- The number of antennas passed to the kernel in `test_random`,
`const int na = 1000`. -/
def test_random.na : Nat := 1000

/-- The initialiser of `float ax[]` in `test_random`, one entry per literal in
source order. -/
def test_random.axLiterals : List (Bool × Nat × Nat) :=
  [(false, 13108, 3), (false, 17494, 3), (false, 11439, 3), (false, 45236, 6), (false, 31559, 4),
   (false, 85675, 4), (true, 19412, 3), (false, 30974, 4), (false, 43002, 4), (true, 39595, 4),
   (false, 40163, 4), (true, 14938, 3), (true, 12636, 3), (true, 17871, 3), (false, 12924, 3),
   (false, 17174, 3), (true, 18455, 3), (true, 20459, 3), (true, 18943, 3), (true, 18994, 3),
   (false, 51591, 4), (true, 18886, 3), (false, 27326, 4), (true, 68578, 5), (true, 52299, 4),
   (true, 13875, 3), (true, 63902, 4), (true, 10571, 4), (true, 81681, 4), (true, 45398, 4),
   (false, 23639, 3), (false, 10079, 3), (true, 18196, 3), (false, 19846, 3), (false, 15362, 4),
   (false, 13309, 3), (true, 19414, 3), (true, 86324, 4), (false, 10004, 3), (false, 24363, 3),
   (false, 13876, 4), (false, 10889, 3), (false, 12182, 3), (true, 18697, 4), (false, 2908, 2),
   (false, 73266, 4), (false, 13549, 3), (true, 29534, 5), (false, 11199, 3), (true, 29109, 3),
   (true, 68505, 4), (true, 12703, 3), (false, 25731, 3), (true, 41342, 4), (false, 21234, 3),
   (false, 12624, 3), (true, 16345, 4), (true, 54595, 4), (false, 12306, 3), (true, 30126, 3),
   (true, 11942, 3), (false, 96346, 4), (true, 12827, 3), (true, 10421, 4), (true, 17158, 3),
   (true, 23917, 3), (true, 37213, 4), (true, 11152, 3), (false, 22581, 3), (false, 20217, 3),
   (false, 20707, 3), (false, 2717, 2), (false, 69184, 5), (true, 48173, 4), (false, 2174, 2),
   (false, 14945, 3), (true, 17868, 3), (true, 16103, 3), (false, 15318, 4), (true, 15637, 4),
   (true, 23191, 3), (true, 23075, 3), (true, 28319, 3), (false, 29756, 3), (false, 40069, 4),
   (true, 16533, 3), (false, 22065, 4), (false, 13389, 3), (true, 14586, 3), (true, 20334, 3),
   (true, 18976, 3), (false, 62746, 4), (true, 19493, 3), (false, 12675, 3), (true, 2787, 3),
   (false, 47093, 4), (true, 57182, 4), (false, 14512, 3), (true, 2385, 3), (true, 52762, 4),
   (false, 9831, 3), (true, 40804, 4), (false, 16057, 4), (true, 24437, 3), (true, 16814, 3),
   (true, 10653, 3), (false, 20262, 3), (true, 24681, 3), (false, 10636, 3), (true, 19972, 3),
   (false, 10522, 3), (false, 18033, 3), (false, 93174, 4), (true, 92694, 4), (true, 34759, 5),
   (true, 91782, 4), (true, 18452, 3), (true, 86579, 4), (false, 25563, 3), (true, 19501, 3),
   (true, 25289, 3), (false, 21926, 3), (true, 69708, 4), (true, 24275, 4), (false, 11484, 3),
   (false, 18635, 4), (true, 77361, 4), (false, 9807, 3), (true, 10641, 3), (false, 68508, 4),
   (false, 36013, 5), (false, 25176, 3), (false, 29751, 4), (false, 18897, 3), (true, 16264, 3),
   (true, 95607, 4), (true, 16362, 3), (false, 1699, 2), (false, 29189, 4), (false, 25297, 4),
   (false, 12975, 4), (true, 12685, 3), (false, 16505, 3), (true, 10681, 3), (true, 15251, 3),
   (false, 30122, 3), (false, 93571, 4), (false, 16246, 4), (true, 23115, 3), (false, 18648, 3),
   (true, 79549, 4), (true, 35373, 4), (true, 16087, 4), (true, 17785, 3), (false, 7915, 3),
   (true, 49557, 4), (false, 46452, 4), (true, 67423, 4), (false, 88011, 4), (true, 16076, 3),
   (true, 16776, 3), (false, 15903, 3), (true, 13266, 3), (false, 1166, 2), (true, 50133, 4),
   (false, 15179, 3), (true, 10575, 3), (false, 10244, 4), (true, 21857, 3), (false, 11139, 3),
   (false, 63417, 4), (true, 72734, 4), (true, 14761, 3), (true, 22259, 3), (true, 12499, 3),
   (false, 30496, 4), (true, 2448, 2), (false, 71322, 4), (true, 17949, 3), (true, 20207, 3),
   (false, 88793, 4), (true, 22624, 3), (false, 92697, 4), (false, 27861, 3), (true, 24964, 3),
   (true, 11645, 3), (true, 50482, 4), (false, 17106, 3), (false, 22697, 3), (false, 14615, 3),
   (false, 15834, 4), (false, 54982, 4), (false, 24016, 3), (false, 18679, 3), (false, 2223, 2),
   (true, 16375, 3), (false, 70268, 4), (true, 26716, 3), (false, 8325, 3), (false, 61947, 4),
   (false, 16112, 3), (true, 25442, 3), (false, 1639, 2), (false, 20551, 3), (false, 36707, 4),
   (true, 44698, 5), (false, 19625, 3), (false, 13572, 3), (true, 10457, 3), (false, 21724, 3),
   (false, 93623, 5), (true, 76223, 4), (true, 88549, 4), (false, 11388, 3), (false, 12822, 3),
   (true, 13844, 3), (false, 27444, 3), (true, 57453, 4), (true, 30236, 3), (false, 65793, 4),
   (false, 29878, 3), (true, 93347, 5), (false, 16933, 4), (false, 70512, 4), (true, 29401, 3),
   (false, 17274, 3), (true, 17302, 4), (true, 89968, 4), (false, 65303, 4), (false, 59513, 4),
   (false, 10255, 3), (false, 46376, 4), (true, 86336, 4), (true, 2972, 2), (true, 86845, 4),
   (false, 38079, 4), (true, 26416, 3), (true, 12957, 3), (false, 24044, 3), (true, 14389, 3),
   (false, 48435, 4), (false, 2197, 2), (true, 22124, 5), (true, 16337, 3), (false, 18765, 3),
   (true, 19508, 3), (true, 12926, 3), (false, 16263, 3), (false, 34985, 4), (true, 19068, 3),
   (true, 21819, 3), (true, 36772, 4), (false, 11334, 3), (true, 2265, 3), (true, 13082, 3),
   (false, 55519, 4), (false, 22724, 3), (false, 20681, 3), (false, 13036, 3), (true, 33874, 4),
   (false, 90086, 4), (true, 22187, 3), (false, 11247, 3), (true, 22066, 3), (false, 18218, 3),
   (false, 24919, 3), (true, 79931, 5), (true, 74455, 4), (false, 67908, 4), (false, 26726, 3),
   (true, 70493, 4), (false, 12235, 3), (false, 10447, 3), (true, 18128, 3), (true, 39062, 5),
   (false, 10162, 3), (false, 6138, 3), (false, 24067, 3), (true, 17349, 3), (false, 13633, 3),
   (true, 63685, 4), (false, 21714, 3), (false, 90837, 4), (false, 13083, 5), (false, 18369, 3),
   (false, 26647, 3), (false, 64701, 4), (false, 43847, 4), (false, 28409, 3), (true, 24586, 3),
   (true, 15353, 3), (true, 11231, 3), (true, 12127, 3), (true, 23083, 3), (true, 25603, 3),
   (false, 20529, 3), (false, 18022, 3), (true, 11877, 4), (false, 28951, 3), (true, 10236, 3),
   (true, 40037, 4), (false, 98001, 4), (true, 61027, 4), (false, 52548, 4), (false, 18946, 3),
   (false, 12977, 3), (true, 67395, 4), (false, 82169, 4), (true, 40338, 4), (true, 23576, 3),
   (false, 36372, 4), (true, 18012, 3), (false, 35259, 4), (false, 1137, 2), (false, 17376, 3),
   (true, 23429, 3), (false, 81147, 4), (true, 21751, 3), (false, 79547, 4), (true, 15423, 3),
   (true, 15318, 3), (false, 18016, 3), (false, 23078, 4), (true, 25025, 4), (true, 2426, 2),
   (true, 15724, 3), (true, 23273, 3), (true, 20643, 4), (true, 14096, 3), (true, 16465, 3),
   (true, 13965, 3), (false, 27327, 3), (false, 55578, 4), (true, 65539, 4), (true, 94858, 4),
   (false, 20371, 3), (false, 22624, 3), (true, 18987, 3), (false, 20133, 3), (false, 19588, 4),
   (false, 70325, 5), (true, 8214, 3), (false, 12691, 3), (false, 66837, 4), (true, 54709, 5),
   (false, 40904, 4), (false, 45086, 4), (false, 17492, 4), (false, 12889, 3), (false, 13013, 3),
   (false, 72469, 4), (true, 27605, 3), (false, 28553, 3), (false, 18398, 3), (true, 15181, 3),
   (true, 71849, 4), (true, 27407, 3), (false, 152, 1), (false, 18912, 5), (false, 61706, 4),
   (false, 13165, 3), (false, 62674, 4), (true, 26339, 3), (false, 28545, 3), (false, 19436, 3),
   (true, 30364, 3), (false, 83022, 4), (true, 10307, 3), (true, 49257, 4), (false, 44101, 4),
   (true, 87508, 4), (true, 12781, 3), (true, 18134, 4), (true, 17765, 3), (true, 18925, 4),
   (true, 10049, 3), (true, 57675, 4), (false, 15321, 3), (true, 21626, 3), (false, 11778, 3),
   (true, 38186, 4), (true, 11472, 3), (false, 2406, 2), (true, 15177, 3), (true, 12445, 3),
   (false, 15614, 3), (true, 10142, 3), (true, 62095, 4), (false, 28528, 3), (true, 10372, 3),
   (false, 13695, 3), (true, 48431, 5), (true, 15441, 4), (true, 15974, 3), (true, 22043, 3),
   (false, 2084, 2), (false, 24867, 3), (false, 28678, 3), (false, 151, 1), (false, 26193, 3),
   (true, 20166, 3), (true, 29035, 4), (false, 25353, 4), (true, 27342, 3), (true, 78547, 5),
   (true, 30536, 4), (true, 19269, 3), (true, 1088, 2), (false, 17002, 3), (false, 14014, 3),
   (true, 22793, 3), (true, 14858, 4), (false, 20363, 3), (true, 16764, 3), (false, 64684, 4),
   (true, 16857, 3), (true, 11508, 3), (true, 21437, 3), (false, 35769, 4), (false, 24965, 4),
   (true, 14962, 3), (true, 75148, 4), (true, 15049, 3), (false, 27524, 3), (true, 42154, 4),
   (true, 50419, 4), (false, 19051, 3), (false, 1251, 2), (true, 56214, 4), (true, 17468, 3),
   (true, 10178, 3), (false, 22589, 3), (false, 29566, 3), (true, 91384, 4), (true, 1117, 2),
   (true, 10977, 3), (true, 16151, 3), (true, 12354, 3), (false, 35914, 5), (false, 15282, 3),
   (false, 53614, 5), (true, 64482, 4), (false, 50545, 4), (true, 18512, 3), (false, 18056, 4),
   (true, 34921, 4), (true, 15746, 3), (true, 20133, 3), (true, 10779, 3), (false, 28723, 4),
   (false, 22767, 3), (true, 93555, 4), (true, 36453, 4), (false, 17765, 3), (false, 26039, 3),
   (false, 18974, 4), (true, 13097, 3), (false, 17378, 3), (true, 25373, 3), (true, 17086, 3),
   (false, 11397, 3), (false, 95251, 4), (false, 28271, 3), (false, 30397, 3), (true, 83233, 4),
   (false, 17203, 3), (true, 44884, 4), (false, 17297, 3), (true, 92103, 4), (false, 8011, 3),
   (false, 48758, 4), (true, 73195, 4), (false, 10781, 3), (true, 49999, 4), (true, 14373, 3),
   (true, 95479, 4), (true, 12682, 3), (false, 16987, 3), (false, 2377, 3), (false, 11654, 3),
   (false, 41822, 4), (true, 16679, 3), (true, 64059, 4), (true, 21131, 3), (false, 24106, 3),
   (true, 29503, 4), (true, 7391, 3), (true, 3079, 3), (true, 27008, 3), (false, 21149, 3),
   (true, 27539, 3), (true, 88649, 4), (true, 29573, 3), (true, 20748, 3), (false, 49365, 4),
   (false, 1082, 2), (false, 16915, 3), (false, 19984, 4), (true, 78024, 4), (true, 14226, 3),
   (false, 27949, 3), (true, 11325, 3), (true, 24697, 3), (true, 22441, 3), (false, 23795, 3),
   (true, 25735, 4), (true, 17242, 3), (false, 25742, 3), (false, 23096, 3), (false, 2424, 2),
   (true, 89987, 5), (true, 29241, 3), (true, 11079, 3), (true, 28795, 3), (false, 44364, 4),
   (true, 56378, 4), (true, 23965, 3), (true, 11863, 3), (false, 74577, 4), (false, 83188, 4),
   (true, 28173, 3), (false, 12326, 3), (false, 94009, 5), (false, 10734, 4), (false, 1591, 2),
   (true, 21915, 3), (false, 16037, 3), (false, 19617, 4), (true, 23626, 3), (false, 23405, 3),
   (false, 73621, 4), (false, 1692, 2), (false, 22664, 3), (true, 22809, 3), (true, 11267, 3),
   (true, 13133, 3), (false, 22464, 3), (true, 14098, 3), (true, 18611, 3), (true, 20038, 3),
   (true, 17695, 3), (false, 95318, 5), (false, 13704, 3), (true, 27378, 3), (true, 21834, 3),
   (false, 14449, 3), (true, 22727, 4), (false, 49857, 4), (true, 98942, 4), (true, 18098, 3),
   (false, 19334, 3), (false, 19462, 3), (true, 1764, 2), (false, 15572, 3), (true, 54358, 4),
   (false, 17261, 3), (false, 17816, 4), (true, 10562, 3), (true, 20326, 3), (false, 25333, 3),
   (false, 19572, 3), (true, 11549, 3), (false, 11275, 3), (true, 27386, 3), (false, 2002, 2),
   (false, 14154, 3), (false, 26229, 3), (true, 27938, 3), (false, 14564, 3), (false, 35777, 4),
   (false, 19007, 3), (false, 33197, 4), (false, 85543, 4), (false, 14905, 3), (true, 2616, 2),
   (true, 26075, 4), (true, 52749, 4), (true, 73014, 4), (true, 48659, 4), (true, 32928, 4),
   (true, 83597, 4), (false, 21128, 4), (true, 74388, 4), (true, 13173, 3), (true, 26843, 3),
   (true, 35411, 5), (true, 145, 1), (false, 94291, 4), (false, 16989, 3), (true, 23792, 3),
   (true, 21109, 3), (true, 55338, 4), (false, 54035, 4), (true, 1471, 2), (true, 19622, 3),
   (false, 14528, 3), (true, 18836, 4), (false, 18822, 3), (true, 20205, 3), (false, 24381, 3),
   (false, 21498, 3), (true, 2582, 2), (false, 71083, 4), (false, 38021, 4), (false, 21696, 3),
   (true, 14927, 3), (false, 86443, 4), (false, 28531, 3), (false, 18007, 3), (true, 1672, 2),
   (false, 73163, 4), (false, 26605, 3), (true, 13103, 3), (false, 17875, 4), (false, 15294, 3),
   (true, 2437, 2), (true, 27542, 3), (false, 90517, 4), (true, 68166, 4), (true, 10117, 3),
   (false, 15018, 3), (true, 16329, 4), (true, 25379, 3), (true, 14138, 3), (false, 50343, 4),
   (true, 65733, 4), (true, 14688, 3), (false, 25706, 3), (false, 13476, 3), (true, 96419, 5),
   (false, 63346, 5), (true, 68077, 4), (true, 25168, 3), (false, 86056, 4), (false, 1419, 2),
   (false, 65561, 4), (false, 21955, 3), (false, 97443, 4), (false, 23613, 6), (false, 11081, 3),
   (true, 25882, 3), (false, 10086, 3), (true, 23957, 3), (false, 62583, 7), (true, 14655, 3),
   (true, 17246, 4), (false, 249, 1), (false, 23247, 3), (true, 63182, 4), (false, 19596, 3),
   (false, 69035, 5), (false, 31592, 4), (true, 55326, 4), (false, 26507, 3), (false, 69482, 4),
   (true, 20457, 3), (true, 28721, 3), (false, 41633, 4), (true, 104, 1), (true, 13158, 3),
   (false, 57674, 4), (false, 18274, 3), (true, 54832, 4), (false, 14777, 3), (false, 20075, 3),
   (true, 21944, 4), (true, 12229, 3), (true, 11233, 3), (true, 89535, 4), (false, 91794, 4),
   (false, 14132, 3), (true, 14083, 3), (true, 24669, 4), (false, 11575, 3), (false, 13135, 3),
   (true, 15085, 3), (true, 22387, 3), (true, 10176, 3), (false, 87708, 6), (true, 21844, 3),
   (true, 13203, 3), (true, 54296, 4), (false, 12964, 3), (false, 14937, 3), (false, 6207, 3),
   (true, 23167, 4), (false, 15657, 3), (true, 1873, 4), (false, 85845, 4), (false, 77324, 4),
   (true, 23942, 3), (true, 72328, 4), (false, 20857, 3), (false, 45767, 4), (true, 19574, 3),
   (true, 17115, 3), (true, 20575, 3), (false, 1999, 2), (true, 971, 2), (false, 9911, 3),
   (false, 16497, 3), (true, 2271, 4), (true, 2198, 2), (false, 35615, 4), (true, 36499, 4),
   (false, 2021, 2), (true, 34435, 4), (true, 14104, 3), (false, 16506, 3), (false, 10336, 3),
   (false, 22079, 3), (true, 12608, 3), (false, 36169, 4), (false, 11589, 3), (true, 85259, 4),
   (false, 60106, 4), (false, 69391, 4), (false, 2444, 3), (false, 23825, 3), (false, 67434, 4),
   (false, 21578, 3), (true, 36147, 4), (true, 10352, 3), (false, 10055, 4), (true, 72824, 4),
   (false, 26801, 3), (true, 14107, 3), (true, 1669, 2), (false, 15715, 4), (true, 12328, 3),
   (false, 85688, 4), (true, 2175, 2), (false, 11348, 3), (false, 88118, 4), (false, 84808, 4),
   (true, 13218, 3), (true, 12667, 3), (false, 46249, 5), (true, 46954, 4), (false, 75084, 4),
   (true, 14168, 3), (false, 25663, 3), (true, 939, 2), (true, 19013, 3), (true, 11327, 3),
   (false, 82377, 4), (false, 24447, 3), (true, 50358, 4), (false, 28146, 4), (true, 73031, 6),
   (false, 69014, 5), (false, 15834, 3), (true, 12638, 4), (true, 57243, 4), (false, 31316, 4),
   (false, 48138, 4), (true, 34639, 4), (true, 14502, 3), (true, 16472, 3), (true, 16036, 3),
   (true, 42474, 4), (true, 81484, 4), (false, 10148, 3), (true, 2117, 2), (true, 17787, 3),
   (false, 43649, 4), (false, 13287, 5), (false, 54449, 4), (false, 93467, 4), (true, 12546, 4),
   (false, 18638, 3), (true, 10367, 3), (false, 48638, 4), (true, 1912, 2), (false, 93093, 4),
   (false, 13603, 3), (false, 20482, 3), (false, 10502, 3), (false, 10483, 3), (false, 20457, 4),
   (false, 23583, 3), (true, 80246, 4), (false, 13181, 3), (true, 18788, 4), (false, 27924, 4),
   (false, 26808, 4), (false, 10423, 3), (true, 26943, 3), (true, 34983, 4), (true, 26021, 3),
   (true, 30155, 3), (true, 26233, 3), (false, 84594, 4), (true, 25906, 3), (true, 19991, 3),
   (false, 15437, 3), (true, 23433, 3), (true, 11527, 3), (true, 33603, 4), (false, 24618, 3),
   (false, 26583, 3), (true, 12295, 3), (false, 16752, 3), (true, 83683, 4), (false, 14862, 3),
   (false, 20692, 3), (true, 14169, 4), (false, 24366, 3), (false, 12411, 3), (true, 40553, 4),
   (false, 44033, 4), (false, 5741, 3), (false, 2504, 2), (false, 18488, 3), (false, 15997, 3),
   (true, 19267, 4), (false, 98203, 4), (true, 86444, 4), (true, 11104, 3), (true, 21942, 3),
   (false, 1138, 2), (true, 40408, 4), (false, 14186, 3), (true, 16002, 3), (false, 24865, 3),
   (true, 4861, 3), (true, 23577, 3), (true, 20169, 3), (false, 13908, 3), (false, 17126, 3),
   (false, 93817, 4), (false, 66203, 4), (true, 12634, 4), (false, 19954, 3), (true, 20469, 3),
   (true, 17688, 3), (false, 27316, 3), (true, 21767, 3), (false, 37934, 4), (false, 21901, 3),
   (true, 13312, 3), (true, 18973, 3), (true, 66497, 4), (true, 21384, 3), (true, 20397, 3),
   (false, 14868, 3), (true, 24795, 3), (false, 11594, 3), (true, 41199, 4), (false, 11011, 3),
   (false, 17973, 3), (true, 27846, 3), (true, 20547, 3), (true, 16199, 3), (false, 20844, 3),
   (true, 16199, 3), (true, 21882, 3), (true, 96521, 4), (false, 33977, 4), (true, 25816, 3),
   (true, 24981, 3), (false, 19726, 3), (true, 21152, 4), (false, 86703, 4), (true, 14935, 3),
   (false, 65794, 4), (false, 1826, 2), (false, 23382, 3), (false, 15172, 3), (false, 17139, 3),
   (false, 1161, 2), (false, 14337, 3), (true, 26155, 3), (true, 59017, 4), (true, 14993, 3),
   (true, 14245, 3), (false, 96406, 4), (false, 17334, 3), (false, 1217, 2), (false, 22054, 3),
   (true, 27985, 4), (false, 23493, 3), (false, 21971, 3), (true, 98148, 4), (false, 87599, 4),
   (true, 19605, 3), (true, 19042, 3), (true, 42326, 4), (true, 13298, 3), (false, 22258, 3),
   (true, 83434, 4), (false, 258, 1), (false, 20918, 4), (true, 18062, 3), (true, 25575, 4),
   (false, 15423, 3), (true, 37156, 4), (false, 27155, 3), (true, 86706, 4), (true, 11775, 3),
   (false, 5273, 3), (true, 15791, 3), (false, 7471, 3), (false, 26636, 3), (true, 12217, 3),
   (true, 2886, 2), (false, 12319, 3), (false, 83502, 4), (false, 18218, 3), (false, 21306, 3),
   (false, 21688, 3), (false, 16715, 3), (false, 10195, 3), (false, 11868, 3), (true, 72163, 4),
   (false, 23127, 3), (true, 17455, 3), (false, 34575, 4), (true, 23981, 4), (true, 77589, 4),
   (true, 92027, 4), (false, 31589, 4), (true, 28355, 3), (true, 35433, 5), (false, 49682, 4),
   (false, 27841, 4), (false, 31387, 4), (false, 25251, 3), (false, 17842, 6), (false, 18954, 3),
   (false, 14987, 3), (true, 14418, 3), (true, 63241, 4), (false, 22929, 3), (true, 28634, 3),
   (true, 15263, 3), (false, 12689, 3), (false, 81253, 4), (true, 15676, 3), (false, 15854, 3),
   (true, 11592, 3), (true, 22895, 3), (true, 21849, 3), (false, 10291, 4), (true, 26035, 3),
   (true, 23749, 3), (true, 28952, 4), (true, 15626, 3), (false, 81002, 4), (false, 71529, 4),
   (false, 24904, 3), (true, 89311, 4), (true, 14288, 3), (false, 20122, 3), (false, 18929, 3),
   (false, 73783, 4), (false, 24451, 3), (false, 60265, 4), (false, 13711, 4), (false, 27671, 3),
   (false, 16127, 3), (false, 57223, 4), (true, 35682, 4), (true, 1219, 2), (false, 13114, 3),
   (true, 80129, 4), (false, 23553, 3), (true, 65719, 4), (true, 13284, 3), (false, 13873, 3),
   (true, 78314, 4), (false, 13801, 4), (true, 20876, 3), (false, 17986, 3), (true, 20765, 3),
   (true, 26588, 3), (true, 28059, 3), (true, 27316, 3), (true, 9254, 3), (false, 10492, 3),
   (true, 10466, 4), (true, 63671, 4), (false, 20879, 3), (false, 26419, 3), (true, 23215, 3),
   (false, 11844, 3), (false, 20889, 3), (true, 18655, 3), (true, 86346, 4), (true, 88656, 4),
   (false, 22355, 5), (true, 20803, 3), (true, 49385, 4), (false, 16276, 3), (true, 40271, 4),
   (false, 27906, 3), (false, 7501, 4), (true, 10497, 3), (false, 27227, 3), (false, 29139, 3)]

/-- The initialiser of `float ay[]` in `test_random`, one entry per literal in
source order. -/
def test_random.ayLiterals : List (Bool × Nat × Nat) :=
  [(false, 10024, 3), (true, 13319, 3), (false, 13565, 3), (false, 22288, 3), (false, 27986, 3),
   (false, 22775, 3), (false, 45243, 4), (false, 29567, 3), (false, 10459, 3), (true, 49821, 4),
   (true, 24313, 3), (true, 2238, 2), (true, 20057, 3), (false, 11117, 3), (false, 21907, 4),
   (false, 18026, 3), (true, 22008, 3), (true, 39055, 4), (false, 16634, 3), (false, 19061, 3),
   (true, 65986, 4), (true, 11243, 3), (true, 1333, 2), (true, 25388, 3), (true, 1609, 2),
   (false, 13462, 3), (true, 20543, 3), (false, 71935, 4), (true, 14022, 3), (false, 21517, 3),
   (false, 76922, 4), (false, 23143, 3), (false, 23061, 3), (true, 17743, 3), (true, 10374, 3),
   (false, 15071, 3), (false, 21691, 3), (true, 62786, 4), (true, 68376, 4), (false, 19431, 4),
   (false, 12929, 3), (true, 18872, 3), (false, 11384, 3), (false, 2973, 3), (false, 31144, 4),
   (false, 1571, 2), (true, 12163, 3), (false, 1765, 2), (true, 23175, 3), (false, 22573, 4),
   (true, 77683, 4), (false, 26439, 3), (true, 45596, 4), (false, 11619, 3), (true, 68529, 4),
   (true, 53059, 4), (false, 19697, 3), (true, 6073, 4), (true, 22266, 4), (true, 42685, 4),
   (true, 26932, 3), (true, 80816, 7), (true, 22871, 3), (false, 1248, 2), (true, 41949, 4),
   (true, 79407, 4), (false, 22863, 4), (false, 24968, 3), (true, 67086, 5), (true, 48362, 4),
   (true, 1039, 2), (false, 50135, 5), (false, 43139, 4), (true, 30044, 3), (false, 10431, 3),
   (false, 2243, 2), (false, 43754, 4), (false, 14188, 3), (true, 22786, 3), (true, 20592, 3),
   (false, 15111, 3), (false, 1645, 3), (true, 50845, 4), (true, 39736, 4), (false, 11873, 4),
   (true, 98614, 4), (false, 14716, 5), (false, 52498, 4), (true, 10452, 3), (true, 13404, 4),
   (false, 15482, 4), (true, 15816, 3), (true, 27583, 4), (false, 74123, 5), (false, 21999, 3),
   (true, 1786, 3), (false, 19105, 3), (true, 10809, 3), (false, 13802, 3), (false, 5217, 3),
   (true, 21306, 3), (true, 66987, 4), (true, 11967, 3), (true, 15345, 3), (true, 16553, 4),
   (true, 2124, 2), (false, 21547, 3), (false, 82627, 4), (true, 13763, 3), (true, 52649, 4),
   (true, 25269, 3), (false, 10466, 3), (false, 18211, 3), (true, 12064, 3), (false, 47821, 5),
   (true, 15728, 3), (false, 20498, 3), (true, 44533, 4), (true, 77114, 4), (true, 16717, 3),
   (true, 10544, 3), (false, 28867, 4), (true, 84908, 5), (true, 24073, 3), (false, 27285, 3),
   (false, 16568, 3), (true, 90916, 4), (false, 60672, 4), (true, 80827, 4), (false, 12888, 3),
   (false, 25623, 3), (false, 50696, 4), (false, 24308, 4), (false, 14372, 3), (false, 18307, 3),
   (false, 1206, 2), (false, 25647, 3), (false, 43562, 5), (true, 18426, 3), (false, 20837, 3),
   (true, 26212, 3), (false, 21226, 3), (true, 20856, 3), (false, 29221, 4), (false, 68708, 4),
   (true, 91286, 5), (false, 95908, 4), (true, 17907, 4), (false, 99982, 4), (false, 58286, 4),
   (false, 21714, 4), (false, 19476, 3), (false, 23301, 3), (true, 20012, 3), (false, 31625, 4),
   (true, 19697, 3), (false, 27548, 3), (false, 26464, 3), (false, 118, 1), (true, 11625, 3),
   (false, 16932, 3), (true, 15498, 4), (true, 18559, 3), (true, 27777, 3), (true, 27716, 4),
   (false, 14274, 3), (false, 97908, 5), (true, 31482, 4), (true, 30731, 4), (false, 48699, 4),
   (false, 58067, 4), (false, 18109, 3), (true, 17923, 4), (true, 59309, 4), (false, 14674, 3),
   (false, 24874, 3), (false, 25911, 4), (false, 80711, 4), (true, 16779, 3), (true, 77852, 4),
   (true, 26197, 3), (false, 12125, 3), (false, 16093, 3), (true, 50506, 4), (true, 13245, 3),
   (true, 24231, 3), (false, 25667, 3), (true, 10724, 3), (true, 17068, 3), (false, 9993, 3),
   (true, 16932, 3), (true, 25735, 3), (false, 14396, 3), (true, 11813, 3), (false, 13627, 3),
   (false, 19039, 4), (false, 19114, 3), (true, 25199, 5), (false, 59283, 4), (true, 55305, 4),
   (false, 84402, 4), (false, 44781, 4), (false, 11659, 3), (false, 15705, 3), (false, 87857, 4),
   (true, 93251, 4), (false, 9039, 3), (true, 40953, 4), (false, 15498, 3), (true, 11563, 3),
   (true, 88557, 4), (true, 32157, 4), (false, 61454, 4), (false, 79998, 4), (false, 73066, 4),
   (true, 13557, 3), (false, 37942, 4), (true, 60587, 4), (true, 33991, 5), (false, 94585, 5),
   (false, 44338, 4), (true, 62791, 4), (true, 14922, 3), (true, 13273, 4), (false, 77663, 4),
   (true, 15842, 3), (false, 10783, 3), (false, 20038, 3), (true, 22334, 3), (false, 23929, 3),
   (false, 24789, 3), (false, 23349, 3), (true, 26008, 3), (true, 62158, 4), (true, 21161, 3),
   (true, 22301, 3), (false, 2947, 3), (false, 27421, 4), (true, 45833, 4), (true, 24072, 3),
   (true, 20966, 3), (true, 24464, 4), (true, 28309, 3), (false, 21451, 3), (false, 16535, 3),
   (true, 14886, 3), (false, 24382, 3), (false, 26067, 3), (false, 5491, 3), (false, 82021, 4),
   (false, 57026, 4), (false, 4008, 3), (false, 22149, 3), (true, 52007, 6), (true, 51445, 4),
   (false, 15692, 3), (false, 41142, 4), (true, 14593, 3), (false, 26219, 3), (false, 17034, 3),
   (true, 55304, 4), (true, 1874, 2), (true, 20484, 3), (true, 14881, 3), (true, 17476, 3),
   (true, 18943, 4), (true, 26923, 3), (false, 15764, 3), (true, 11668, 3), (true, 93862, 4),
   (true, 28343, 3), (true, 14548, 3), (true, 30931, 4), (true, 14029, 3), (false, 15375, 3),
   (false, 15931, 4), (false, 25897, 3), (false, 16381, 3), (true, 86631, 4), (true, 22212, 3),
   (true, 252, 1), (false, 88607, 4), (false, 26491, 3), (true, 15148, 3), (false, 1151, 3),
   (false, 79167, 4), (false, 11121, 3), (false, 16604, 3), (true, 86179, 4), (false, 97801, 4),
   (false, 16491, 3), (true, 18681, 3), (true, 14604, 3), (true, 10734, 3), (false, 65109, 4),
   (false, 78614, 4), (false, 12213, 3), (false, 25305, 3), (true, 6475, 3), (true, 23145, 3),
   (true, 98921, 4), (false, 13989, 3), (false, 14331, 3), (false, 34093, 4), (true, 22198, 3),
   (false, 23296, 3), (false, 1184, 2), (true, 27982, 3), (true, 23024, 3), (false, 45984, 4),
   (true, 33415, 5), (true, 23705, 3), (true, 26111, 3), (false, 16456, 3), (true, 22999, 3),
   (false, 16607, 3), (true, 23615, 3), (true, 13079, 3), (true, 7129, 3), (false, 99315, 4),
   (true, 42838, 4), (true, 24399, 3), (true, 19799, 3), (false, 67601, 4), (false, 13207, 3),
   (true, 13756, 3), (true, 47243, 4), (true, 85999, 4), (true, 21052, 3), (false, 2393, 2),
   (true, 2734, 2), (true, 19434, 4), (true, 92398, 4), (true, 46459, 4), (true, 19925, 3),
   (false, 12765, 3), (true, 14261, 3), (false, 66067, 4), (false, 84278, 6), (false, 18984, 3),
   (false, 11522, 3), (false, 14096, 3), (false, 21266, 3), (true, 27491, 3), (false, 30111, 3),
   (true, 1031, 2), (false, 73169, 4), (false, 16316, 4), (false, 17016, 3), (false, 19003, 3),
   (false, 28313, 3), (true, 21816, 4), (false, 14684, 4), (true, 74547, 4), (false, 20131, 3),
   (false, 28637, 3), (false, 11996, 3), (true, 77731, 4), (true, 19445, 3), (false, 20796, 3),
   (true, 89832, 4), (true, 1338, 2), (true, 5435, 3), (true, 10212, 3), (true, 19264, 3),
   (true, 26431, 4), (true, 91843, 4), (false, 96124, 4), (true, 79035, 4), (false, 13862, 3),
   (true, 28569, 3), (false, 16496, 3), (false, 26922, 3), (false, 1344, 2), (true, 11581, 3),
   (true, 10433, 3), (true, 99126, 4), (false, 56339, 4), (true, 10547, 3), (true, 11025, 3),
   (false, 27336, 3), (true, 68576, 4), (false, 10875, 3), (false, 22285, 3), (false, 13556, 4),
   (false, 14793, 4), (false, 26485, 3), (false, 32455, 4), (false, 81411, 4), (false, 22628, 3),
   (true, 24359, 3), (true, 21754, 3), (false, 1374, 3), (true, 19448, 3), (true, 82941, 4),
   (false, 20131, 3), (true, 14825, 3), (false, 10574, 3), (true, 26392, 3), (false, 12702, 3),
   (false, 27793, 5), (true, 29433, 3), (true, 80335, 4), (true, 11862, 3), (false, 21058, 3),
   (false, 29818, 3), (false, 12678, 3), (true, 15502, 3), (false, 21872, 3), (true, 15248, 3),
   (false, 82477, 4), (true, 22059, 4), (true, 88022, 4), (true, 17703, 3), (true, 17345, 3),
   (false, 2003, 2), (false, 85922, 4), (true, 16938, 3), (true, 29927, 3), (false, 14877, 3),
   (false, 1238, 2), (false, 20057, 3), (false, 23722, 3), (true, 6722, 3), (false, 20162, 5),
   (false, 76367, 4), (false, 18118, 3), (true, 75651, 4), (true, 14395, 3), (false, 89545, 4),
   (true, 27432, 3), (false, 16647, 3), (true, 25057, 4), (true, 24177, 3), (false, 21275, 3),
   (false, 13045, 3), (false, 44562, 4), (true, 1221, 2), (false, 90715, 4), (false, 24275, 3),
   (true, 29543, 3), (true, 12638, 3), (false, 19343, 3), (true, 72799, 4), (false, 26994, 3),
   (true, 21199, 3), (true, 77721, 4), (true, 99908, 4), (false, 18583, 3), (true, 259, 2),
   (true, 1055, 2), (false, 17394, 3), (true, 12579, 3), (true, 47582, 4), (false, 64241, 4),
   (true, 28092, 3), (true, 9528, 3), (false, 13504, 3), (true, 86568, 4), (true, 12806, 3),
   (true, 15973, 3), (false, 31841, 4), (false, 56213, 4), (false, 14328, 4), (false, 22977, 3),
   (false, 20241, 3), (false, 2432, 2), (true, 30911, 4), (true, 19473, 4), (false, 17122, 3),
   (false, 29135, 3), (true, 19009, 3), (false, 12089, 3), (true, 24154, 3), (false, 11616, 4),
   (true, 17697, 3), (false, 97753, 4), (false, 24208, 3), (true, 25242, 3), (true, 42112, 5),
   (true, 40221, 4), (true, 65596, 4), (false, 22846, 3), (false, 11935, 3), (true, 76772, 4),
   (true, 15923, 3), (false, 98321, 4), (true, 26563, 3), (false, 82205, 4), (true, 1971, 2),
   (false, 66901, 4), (false, 21619, 3), (false, 37256, 4), (false, 1626, 3), (false, 49296, 4),
   (true, 85432, 4), (true, 18508, 3), (false, 87732, 4), (true, 16999, 3), (false, 81004, 4),
   (true, 35956, 4), (false, 11173, 3), (true, 18012, 3), (false, 19571, 3), (true, 13156, 3),
   (true, 175, 1), (false, 68553, 4), (false, 43965, 5), (true, 88975, 4), (false, 17799, 3),
   (false, 48089, 4), (true, 16505, 4), (false, 16938, 3), (true, 90949, 4), (false, 25365, 3),
   (false, 167, 1), (true, 12121, 3), (true, 35057, 4), (false, 47904, 4), (false, 25137, 3),
   (true, 75237, 4), (true, 25427, 3), (true, 53325, 4), (false, 21211, 3), (true, 95996, 4),
   (false, 41505, 4), (true, 24863, 3), (false, 56575, 4), (false, 18127, 3), (false, 12636, 3),
   (true, 29062, 4), (false, 53072, 4), (true, 18621, 3), (true, 16192, 3), (true, 93862, 4),
   (true, 66123, 4), (true, 39696, 4), (false, 18996, 3), (true, 43561, 4), (true, 12169, 3),
   (false, 18235, 3), (false, 30057, 3), (false, 12701, 3), (false, 51959, 4), (false, 14623, 3),
   (true, 17941, 3), (true, 52564, 4), (true, 29506, 3), (false, 44358, 4), (true, 49957, 5),
   (true, 13457, 3), (true, 20846, 3), (false, 15118, 3), (true, 19535, 3), (false, 29324, 3),
   (false, 38369, 4), (true, 66426, 4), (true, 25861, 3), (false, 17719, 3), (false, 97166, 4),
   (true, 15825, 3), (true, 1683, 2), (false, 17918, 3), (true, 98313, 4), (false, 31957, 4),
   (false, 98036, 5), (true, 98287, 5), (false, 70216, 5), (false, 78956, 4), (true, 1654, 2),
   (false, 20093, 3), (false, 12911, 3), (true, 14986, 3), (false, 20034, 3), (true, 14653, 3),
   (false, 25006, 3), (false, 27177, 3), (true, 21694, 3), (false, 13582, 3), (false, 81302, 4),
   (false, 26478, 3), (false, 23709, 3), (false, 5663, 3), (false, 58312, 4), (false, 14794, 3),
   (false, 13898, 3), (false, 1497, 2), (true, 10121, 3), (true, 66003, 4), (false, 6013, 3),
   (false, 82368, 4), (true, 18339, 3), (true, 18662, 3), (false, 52969, 4), (true, 1962, 2),
   (false, 17238, 3), (false, 15478, 3), (true, 10152, 3), (false, 15487, 3), (true, 10109, 3),
   (false, 58366, 4), (true, 1201, 2), (true, 25281, 3), (false, 36273, 4), (false, 18983, 3),
   (true, 1537, 2), (false, 21111, 3), (true, 99786, 5), (false, 79058, 4), (true, 22391, 3),
   (false, 26752, 3), (true, 12111, 3), (false, 41888, 4), (true, 30387, 3), (true, 22682, 3),
   (true, 33932, 4), (false, 10149, 3), (true, 18274, 3), (false, 73964, 4), (false, 71987, 4),
   (false, 41832, 4), (true, 15091, 3), (false, 15333, 3), (false, 21121, 3), (true, 12068, 3),
   (true, 23375, 3), (false, 29649, 4), (false, 26743, 4), (true, 19804, 3), (true, 30627, 3),
   (false, 71309, 4), (true, 26926, 3), (true, 66803, 5), (true, 13248, 3), (true, 13566, 3),
   (true, 19829, 3), (true, 5476, 3), (true, 16874, 4), (false, 2786, 2), (false, 19437, 3),
   (true, 38308, 4), (false, 28176, 3), (true, 17692, 4), (true, 17817, 3), (true, 64342, 4),
   (true, 18928, 3), (true, 64313, 4), (false, 56871, 4), (false, 21068, 3), (false, 23152, 3),
   (true, 20868, 3), (false, 22316, 3), (false, 1529, 3), (true, 31189, 4), (true, 97828, 4),
   (false, 19757, 3), (true, 33163, 4), (true, 13609, 3), (true, 13021, 3), (false, 12221, 3),
   (false, 85269, 4), (true, 13021, 4), (true, 2855, 2), (false, 26256, 3), (false, 10713, 3),
   (false, 18005, 3), (false, 72783, 4), (false, 59566, 4), (false, 82438, 4), (true, 24667, 3),
   (true, 90497, 5), (false, 17284, 3), (true, 1018, 2), (false, 10068, 3), (true, 26882, 3),
   (false, 26401, 3), (true, 10104, 4), (true, 68792, 5), (true, 18938, 4), (false, 21222, 3),
   (true, 29566, 4), (false, 1059, 2), (true, 16433, 3), (true, 36399, 4), (false, 17751, 3),
   (true, 70334, 4), (true, 54748, 4), (true, 1151, 2), (false, 13788, 4), (false, 97265, 4),
   (true, 62381, 4), (false, 24191, 3), (true, 11471, 4), (true, 15354, 3), (true, 21077, 3),
   (true, 15529, 3), (false, 6833, 3), (true, 2389, 3), (false, 24797, 3), (true, 28997, 3),
   (false, 14969, 3), (true, 39497, 4), (false, 1621, 2), (false, 19058, 3), (true, 27903, 3),
   (false, 49045, 4), (true, 28589, 4), (true, 16708, 3), (true, 12028, 3), (true, 12323, 3),
   (true, 15735, 3), (false, 22864, 3), (false, 26543, 3), (false, 29804, 4), (true, 62492, 5),
   (true, 23974, 3), (false, 22145, 3), (true, 52138, 4), (false, 10052, 5), (true, 79122, 4),
   (false, 10919, 4), (false, 98017, 4), (true, 54611, 4), (true, 13508, 3), (true, 10721, 3),
   (false, 10822, 3), (true, 79158, 4), (false, 5093, 4), (false, 28539, 3), (true, 42838, 5),
   (true, 16599, 3), (false, 27411, 5), (false, 63579, 4), (false, 81633, 4), (true, 20232, 3),
   (true, 24956, 3), (false, 19361, 3), (false, 24069, 3), (true, 11521, 3), (true, 46778, 4),
   (false, 11049, 3), (false, 14072, 3), (true, 89783, 4), (false, 10154, 3), (true, 2828, 2),
   (false, 14208, 3), (false, 37111, 4), (true, 12924, 3), (false, 11, 0), (false, 25683, 4),
   (true, 24398, 3), (false, 18792, 3), (true, 23189, 3), (true, 22071, 3), (true, 11402, 3),
   (true, 27942, 3), (false, 2326, 2), (true, 11958, 3), (true, 2546, 2), (true, 20882, 3),
   (false, 1502, 2), (false, 11181, 3), (false, 21254, 3), (true, 19887, 3), (true, 2787, 3),
   (true, 80356, 4), (false, 19138, 3), (true, 24142, 5), (false, 1974, 2), (false, 91877, 4),
   (false, 21711, 3), (true, 3188, 3), (false, 11987, 3), (true, 18176, 3), (false, 45977, 4),
   (false, 24874, 3), (false, 17933, 3), (true, 50162, 4), (true, 17443, 3), (false, 35407, 4),
   (true, 27676, 4), (false, 7261, 4), (false, 36276, 4), (true, 28233, 3), (false, 70493, 4),
   (true, 23707, 3), (true, 26851, 3), (true, 83115, 4), (true, 13815, 4), (true, 19987, 4),
   (false, 11451, 4), (true, 68611, 4), (true, 11613, 3), (false, 10842, 3), (true, 22508, 3),
   (true, 16168, 3), (false, 10161, 5), (true, 10834, 3), (true, 19558, 3), (true, 16686, 3),
   (true, 13808, 3), (true, 80441, 4), (false, 6842, 3), (false, 43066, 4), (true, 20932, 3),
   (true, 1263, 2), (true, 13533, 3), (true, 11774, 3), (true, 18506, 3), (true, 14834, 3),
   (false, 21365, 3), (true, 41477, 4), (false, 83104, 4), (false, 24435, 3), (true, 14271, 3),
   (false, 28736, 3), (true, 15879, 3), (true, 2274, 2), (false, 27567, 3), (true, 21456, 3),
   (true, 63613, 4), (true, 18028, 3), (true, 6567, 3), (true, 29128, 4), (false, 12108, 3),
   (true, 26721, 3), (true, 13877, 3), (false, 29614, 4), (true, 23988, 4), (false, 16341, 3),
   (true, 81513, 4), (false, 14339, 3), (true, 16618, 3), (false, 15688, 4), (false, 1398, 2),
   (false, 28933, 4), (false, 94021, 4), (false, 17812, 3), (true, 19924, 3), (false, 12042, 3),
   (true, 14895, 4), (true, 87974, 4), (true, 15402, 3), (false, 97143, 4), (true, 13719, 3),
   (false, 15678, 3), (true, 48922, 4), (false, 23774, 3), (false, 65342, 4), (false, 14931, 3),
   (true, 20272, 3), (false, 31765, 4), (true, 18454, 3), (false, 11544, 3), (false, 14253, 3),
   (false, 79815, 4), (false, 27149, 4), (false, 14221, 3), (true, 28381, 3), (false, 10757, 4),
   (false, 11963, 3), (true, 62794, 4), (true, 35964, 4), (false, 27984, 3), (true, 25651, 3),
   (false, 25737, 4), (false, 27866, 4), (true, 6349, 3), (false, 12593, 3), (true, 85213, 4),
   (true, 40849, 4), (false, 26263, 4), (false, 12972, 3), (false, 90169, 4), (true, 18176, 3),
   (true, 36609, 5), (true, 23022, 3), (false, 92025, 4), (true, 12867, 3), (false, 73933, 4),
   (false, 12364, 3), (false, 91274, 4), (false, 15339, 3), (true, 14401, 3), (true, 36347, 4),
   (false, 23482, 3), (false, 14366, 3), (false, 182, 1), (true, 15444, 3), (true, 20712, 3),
   (true, 77896, 4), (true, 10723, 3), (true, 21462, 3), (true, 5755, 3), (false, 50594, 4),
   (true, 16112, 5), (true, 24794, 3), (false, 21666, 4), (false, 28285, 3), (true, 19626, 4),
   (false, 19125, 4), (true, 23684, 3), (true, 18384, 3), (false, 51228, 4), (false, 17922, 3),
   (false, 60071, 4), (true, 21523, 3), (true, 65968, 5), (true, 14668, 3), (true, 17535, 3),
   (true, 82583, 4), (false, 24984, 4), (false, 10765, 3), (false, 25387, 3), (true, 60251, 4),
   (false, 19079, 3), (true, 11154, 3), (true, 65084, 4), (true, 22217, 3), (true, 24623, 3),
   (false, 30799, 4), (false, 17368, 3), (false, 87562, 4), (false, 10332, 3), (true, 17105, 3),
   (true, 95518, 4), (true, 1476, 2), (true, 13032, 3), (true, 7632, 3), (true, 38802, 4),
   (true, 12249, 3), (true, 19515, 3), (true, 17049, 3), (false, 17959, 4), (true, 11078, 3),
   (true, 9157, 3), (true, 2331, 2), (true, 29602, 3), (true, 63276, 5), (true, 17549, 3),
   (false, 42241, 4), (false, 13658, 3), (true, 45302, 4), (false, 15146, 3), (false, 93136, 4),
   (true, 94543, 4), (true, 1391, 2), (true, 16772, 3), (true, 21747, 3), (true, 145, 1),
   (true, 33249, 4), (false, 15969, 3), (false, 25131, 3), (false, 6334, 3), (false, 41464, 4),
   (false, 23844, 3), (false, 64916, 4), (true, 23736, 4), (true, 18532, 3), (false, 69178, 4),
   (false, 10135, 3), (true, 10661, 3), (true, 84597, 4), (true, 21516, 3), (true, 10418, 3),
   (false, 12621, 3), (true, 15498, 3), (false, 5225, 4), (true, 11066, 3), (false, 11273, 3),
   (true, 12281, 3), (false, 10145, 3), (true, 64771, 4), (false, 22995, 3), (false, 2221, 2),
   (true, 13218, 3), (true, 768, 3), (true, 36878, 4), (false, 15302, 4), (false, 2623, 2),
   (true, 83762, 5), (true, 22906, 4), (true, 35513, 4), (true, 58143, 4), (true, 17589, 3),
   (true, 95392, 4), (true, 21139, 3), (true, 12661, 3), (false, 18646, 3), (false, 98076, 4),
   (false, 57163, 4), (true, 15577, 3), (false, 22901, 3), (true, 41755, 4), (false, 28766, 3),
   (false, 11846, 3), (true, 49244, 5), (false, 20005, 3), (true, 10785, 3), (false, 68169, 4)]

/-- The array `float ax[]` of `test_random`. -/
def test_random.ax : List ℚ := test_random.axLiterals.map decimal

/-- The array `float ay[]` of `test_random`. -/
def test_random.ay : List ℚ := test_random.ayLiterals.map decimal

/-- The array `float slat[]` of `test_scattered`. -/
def test_scattered.slat : List ℚ :=
  List.map decimal
    [(false, 1, 0), (false, 75, 2), (false, 13, 1), (false, 8, 1), (false, 15708, 4),
     (false, 15621, 4), (false, 15533, 4), (false, 15446, 4), (false, 15359, 4),
     (false, 15272, 4), (false, 15184, 4), (false, 15097, 4), (false, 15010, 4)]

/-- The array `float slon[]` of `test_scattered`. -/
def test_scattered.slon : List ℚ :=
  List.map decimal
    [(true, 28304, 4), (true, 655, 4), (true, 19320, 4), (true, 23682, 4), (false, 0, 0),
     (false, 0, 0), (false, 0, 0), (false, 0, 0), (false, 0, 0), (false, 0, 0), (false, 0, 0),
     (false, 0, 0), (false, 0, 0)]

/-- The number of sky samples of `test_scattered`,
`int ns = sizeof(slon) / sizeof(float)`. -/
def test_scattered.ns : Nat := test_scattered.slon.length

/-! ## Single-precision rounding: properties -/

/-- The rational `pow2 k` is the power `2^k`. -/
theorem pow2_eq_zpow (k : Int) : pow2 k = (2 : ℚ) ^ k := by
  unfold pow2
  split
  · rename_i h
    lift k to Nat using h
    simp
  · rename_i h
    have hk : k = -((-k).toNat : Int) := by
      rw [Int.toNat_of_nonneg (by omega)]; ring
    rw [hk]
    simp only [neg_neg, Int.toNat_ofNat, zpow_neg, zpow_natCast]
    simp

/-- With enough halvings `floorLog2` finds the position of the leading binary
digit. -/
theorem floorLog2_spec (fuel n : Nat) (hf : n ≤ fuel) (hn : 0 < n) :
    2 ^ floorLog2 fuel n ≤ n ∧ n < 2 ^ (floorLog2 fuel n + 1) := by
  induction fuel generalizing n with
  | zero => omega
  | succ fuel ih =>
    unfold floorLog2
    by_cases h : n < 2
    · rw [if_pos h]
      simp only [pow_zero, zero_add, pow_one]
      omega
    · rw [if_neg h]
      obtain ⟨h1, h2⟩ := ih (n / 2) (by omega) (by omega)
      simp only [pow_succ] at h2 ⊢
      generalize 2 ^ floorLog2 fuel (n / 2) = t at h1 h2 ⊢
      omega

/-- The binary exponent brackets a positive rational between consecutive
powers of two. -/
theorem binaryExponent_spec (a : ℚ) (ha : 0 < a) :
    pow2 (binaryExponent a) ≤ a ∧ a < pow2 (binaryExponent a + 1) := by
  have hnum : 0 < a.num := Rat.num_pos.mpr ha
  have hp0 : 0 < a.num.natAbs := Int.natAbs_pos.mpr (by omega)
  obtain ⟨p1, p2⟩ := floorLog2_spec a.num.natAbs a.num.natAbs (Nat.le_refl _) hp0
  obtain ⟨d1, d2⟩ := floorLog2_spec a.den a.den (Nat.le_refl _) a.den_pos
  generalize hlp : floorLog2 a.num.natAbs a.num.natAbs = lp at p1 p2
  generalize hld : floorLog2 a.den a.den = ld at d1 d2
  have hden : (0 : ℚ) < a.den := by exact_mod_cast a.den_pos
  have hval : a = (a.num.natAbs : ℚ) / (a.den : ℚ) := by
    have h2 : ((a.num.natAbs : ℚ)) = (a.num : ℚ) := by
      rw [Nat.cast_natAbs, abs_of_pos hnum]
    rw [h2]; exact (Rat.num_div_den a).symm
  have q1 : ((2 : ℚ) ^ lp) ≤ (a.num.natAbs : ℚ) := by exact_mod_cast p1
  have q2 : (a.num.natAbs : ℚ) < (2 : ℚ) ^ (lp + 1) := by exact_mod_cast p2
  have q3 : ((2 : ℚ) ^ ld) ≤ (a.den : ℚ) := by exact_mod_cast d1
  have q4 : (a.den : ℚ) < (2 : ℚ) ^ (ld + 1) := by exact_mod_cast d2
  have two_pos : ∀ k : Int, (0 : ℚ) < (2 : ℚ) ^ k := fun k => zpow_pos (by norm_num) k
  -- the estimate is at most one too large
  have lo : (2 : ℚ) ^ ((lp : Int) - ld - 1) ≤ a := by
    have e : (2 : ℚ) ^ ((lp : Int) - ld - 1) = (2 : ℚ) ^ lp / (2 : ℚ) ^ (ld + 1) := by
      have : ((lp : Int) - ld - 1) = (lp : Int) - ((ld + 1 : Nat) : Int) := by push_cast; ring
      rw [this, zpow_sub₀ (by norm_num), zpow_natCast, zpow_natCast]
    rw [e, hval]
    rw [div_le_div_iff₀ (by positivity) hden]
    calc (2 : ℚ) ^ lp * (a.den : ℚ) ≤ (a.num.natAbs : ℚ) * (a.den : ℚ) := by
            apply mul_le_mul_of_nonneg_right q1 (le_of_lt hden)
      _ ≤ (a.num.natAbs : ℚ) * (2 : ℚ) ^ (ld + 1) := by
            apply mul_le_mul_of_nonneg_left (le_of_lt q4) (by positivity)
  have hi : a < (2 : ℚ) ^ ((lp : Int) - ld + 1) := by
    have e : (2 : ℚ) ^ ((lp : Int) - ld + 1) = (2 : ℚ) ^ (lp + 1) / (2 : ℚ) ^ ld := by
      have : ((lp : Int) - ld + 1) = ((lp + 1 : Nat) : Int) - (ld : Int) := by push_cast; ring
      rw [this, zpow_sub₀ (by norm_num), zpow_natCast, zpow_natCast]
    rw [e, hval]
    rw [div_lt_div_iff₀ hden (by positivity)]
    calc (a.num.natAbs : ℚ) * (2 : ℚ) ^ ld ≤ (a.num.natAbs : ℚ) * (a.den : ℚ) := by
            apply mul_le_mul_of_nonneg_left q3 (by positivity)
      _ < (2 : ℚ) ^ (lp + 1) * (a.den : ℚ) := by
            apply mul_lt_mul_of_pos_right q2 hden
  unfold binaryExponent
  simp only [hlp, hld]
  by_cases hc : pow2 ((lp : Int) - ld) ≤ a
  · rw [if_pos hc]
    exact ⟨hc, by rw [pow2_eq_zpow]; exact hi⟩
  · rw [if_neg hc]
    refine ⟨by rw [pow2_eq_zpow]; exact lo, ?_⟩
    have : ((lp : Int) - ld - 1 + 1) = (lp : Int) - ld := by ring
    rw [this]
    exact not_le.mp hc

/-- Rounding to the nearest natural number moves a non-negative rational by at
most one half. -/
theorem roundHalfEven_spec (m : ℚ) (hm : 0 ≤ m) : |(roundHalfEven m : ℚ) - m| ≤ 1 / 2 := by
  have hfl : 0 ≤ Int.floor m := Int.floor_nonneg.mpr hm
  have hc : (((Int.floor m).toNat : Nat) : ℚ) = (Int.floor m : ℚ) := by
    have : (((Int.floor m).toNat : Nat) : Int) = Int.floor m := Int.toNat_of_nonneg hfl
    exact_mod_cast congrArg (fun z : Int => (z : ℚ)) this
  have h1 : (Int.floor m : ℚ) ≤ m := Int.floor_le m
  have h2 : m < (Int.floor m : ℚ) + 1 := Int.lt_floor_add_one m
  unfold roundHalfEven
  simp only
  rw [hc]
  split_ifs with a b c
  · rw [hc, abs_le]; constructor <;> linarith
  · push_cast; rw [hc, abs_le]; constructor <;> linarith
  · rw [hc, abs_le]; constructor <;> linarith
  · push_cast; rw [hc, abs_le]; constructor <;> linarith

/-- Rounding to `float` is correct to half a unit in the last place: a finite
result differs from the exact value by at most half the spacing `2^(e-23)` of
the `float` numbers at the binary exponent `e` of the value (at least `-126`). -/
theorem F32_round_error (q r : ℚ) (h : F32.round q = some r) :
    |r - q| ≤ pow2 (max (binaryExponent |q|) (-126) - 23) / 2 := by
  unfold F32.round at h
  by_cases h0 : q = 0
  · rw [if_pos h0] at h
    injection h with h
    subst h0 h
    simp only [sub_self, abs_zero]
    rw [pow2_eq_zpow]
    positivity
  · rw [if_neg h0] at h
    simp only at h
    generalize hquant : pow2 (max (binaryExponent |q|) (-126) - 23) = quantum at h ⊢
    have hqpos : 0 < quantum := by rw [← hquant, pow2_eq_zpow]; positivity
    split at h
    · injection h with h
      have hr := roundHalfEven_spec (|q| / quantum) (by positivity)
      have key : abs ((roundHalfEven (|q| / quantum) : ℚ) * quantum - abs q) ≤ quantum / 2 := by
        have e : (roundHalfEven (|q| / quantum) : ℚ) * quantum - |q| =
            ((roundHalfEven (|q| / quantum) : ℚ) - |q| / quantum) * quantum := by
          field_simp
        rw [e, abs_mul, abs_of_pos hqpos]
        calc abs ((roundHalfEven (|q| / quantum) : ℚ) - abs q / quantum) * quantum
            ≤ 1 / 2 * quantum := mul_le_mul_of_nonneg_right hr (le_of_lt hqpos)
          _ = quantum / 2 := by ring
      subst h
      by_cases hneg : q < 0
      · rw [if_pos hneg]
        rw [abs_of_neg hneg] at key ⊢
        have : -((roundHalfEven (-q / quantum) : ℚ) * quantum) - q =
            -((roundHalfEven (-q / quantum) : ℚ) * quantum - -q) := by ring
        rw [this, abs_neg]
        exact key
      · rw [if_neg hneg]
        rw [abs_of_nonneg (not_lt.mp hneg)] at key ⊢
        exact key
    · cases h

/-- A finite result of the rounding is a `float`: its magnitude is a
significand of at most 24 binary digits (`k ≤ 2^24`) times the spacing
`2^(e-23)` at a binary exponent `e ≥ -126`, and it is below `2^128`. -/
theorem F32_round_significand (q r : ℚ) (h : F32.round q = some r) :
    ∃ k : Nat, k ≤ 2 ^ 24 ∧
      |r| = (k : ℚ) * pow2 (max (binaryExponent |q|) (-126) - 23) ∧ |r| < pow2 128 := by
  unfold F32.round at h
  by_cases h0 : q = 0
  · rw [if_pos h0] at h
    injection h with h
    subst h
    exact ⟨0, by norm_num, by simp, by rw [pow2_eq_zpow]; simp; positivity⟩
  · rw [if_neg h0] at h
    simp only at h
    have hq : 0 < |q| := abs_pos.mpr h0
    obtain ⟨-, hlt⟩ := binaryExponent_spec |q| hq
    generalize binaryExponent |q| = e at h hlt ⊢
    have hquant : pow2 (max e (-126) + 1) = pow2 (max e (-126) - 23) * 2 ^ 24 := by
      rw [pow2_eq_zpow, pow2_eq_zpow]
      have : max e (-126) + 1 = (max e (-126) - 23) + ((24 : Nat) : Int) := by push_cast; ring
      rw [this, zpow_add₀ (by norm_num), zpow_natCast]
    have hmono : pow2 (e + 1) ≤ pow2 (max e (-126) + 1) := by
      rw [pow2_eq_zpow, pow2_eq_zpow]
      exact zpow_le_zpow_right₀ (by norm_num) (by have := le_max_left e (-126); omega)
    generalize hqu : pow2 (max e (-126) - 23) = quantum at h hquant ⊢
    have hqpos : 0 < quantum := by rw [← hqu, pow2_eq_zpow]; positivity
    have hm : |q| / quantum < 2 ^ 24 := by
      rw [div_lt_iff₀ hqpos]
      calc |q| < pow2 (e + 1) := hlt
        _ ≤ pow2 (max e (-126) + 1) := hmono
        _ = 2 ^ 24 * quantum := by rw [hquant]; ring
    have hr := roundHalfEven_spec (|q| / quantum) (by positivity)
    have hk : roundHalfEven (|q| / quantum) ≤ 2 ^ 24 := by
      have h1 : (roundHalfEven (|q| / quantum) : ℚ) < 2 ^ 24 + 1 := by
        have := (abs_le.mp hr).2
        linarith
      have h2 : roundHalfEven (|q| / quantum) < 2 ^ 24 + 1 := by exact_mod_cast h1
      omega
    split at h
    · rename_i hfin
      injection h with h
      have habs : |r| = (roundHalfEven (|q| / quantum) : ℚ) * quantum := by
        have hnn : 0 ≤ (roundHalfEven (|q| / quantum) : ℚ) * quantum := by positivity
        rw [← h]
        split
        · rw [abs_neg, abs_of_nonneg hnn]
        · rw [abs_of_nonneg hnn]
      exact ⟨roundHalfEven (|q| / quantum), hk, habs, by rw [habs]; exact hfin⟩
    · cases h

/-! ## Test buffers and regular grid: properties -/

/-- Below `2^31` samples the `unsigned` index arithmetic of the output loop does
not wrap: the loop reads the image indices in increasing order, each once. -/
theorem outputLoopReads_eq_range (ns : Nat) (h : ns < 2 ^ 31) :
    outputLoopReads ns = List.range (2 * ns) := by
  unfold outputLoopReads
  induction ns with
  | zero => rfl
  | succ n ih =>
    rw [List.range_succ, List.flatMap_append, ih (by omega)]
    have h2 : 2 * (n + 1) = 2 * n + 1 + 1 := by ring
    have e1 : imageIndexRe n = 2 * n := by unfold imageIndexRe UINT_MODULUS; omega
    have e2 : imageIndexIm n = 2 * n + 1 := by unfold imageIndexIm UINT_MODULUS; omega
    rw [h2, List.range_succ, List.range_succ]
    simp [e1, e2]

/-- Below `2^31` samples the `unsigned` product `ns * 2` does not wrap. -/
theorem imageLength_no_wrap (ns : Nat) (h : ns < 2 ^ 31) : imageLength ns = 2 * ns := by
  unfold imageLength UINT_MODULUS; omega

/-- Below `2^30` samples the `int` variant of the image length is defined and
agrees with the `unsigned` one. -/
theorem imageLengthInt_eq (ns : Nat) (h : ns < 2 ^ 30) :
    imageLengthInt ns = some (imageLength ns) := by
  rw [imageLength_no_wrap ns (by omega)]
  unfold imageLengthInt intResult INT_MAX
  rw [if_pos (by omega)]
  congr 1
  omega

/-- Below `2^30` samples the `int` index arithmetic of the output loop does not
overflow, and the loop reads the image indices in increasing order. -/
theorem outputLoopReadsInt_eq_range (ns : Nat) (h : ns < 2 ^ 30) :
    outputLoopReadsInt ns = (List.range (2 * ns)).map some := by
  unfold outputLoopReadsInt
  induction ns with
  | zero => rfl
  | succ n ih =>
    rw [List.range_succ, List.flatMap_append, ih (by omega)]
    have h2 : 2 * (n + 1) = 2 * n + 1 + 1 := by ring
    have e1 : intResult (2 * n) = some (2 * n) := by
      unfold intResult INT_MAX; rw [if_pos (by omega)]
    have e2 : intResult (2 * n + 1) = some (2 * n + 1) := by
      unfold intResult INT_MAX; rw [if_pos (by omega)]
    rw [h2, List.range_succ, List.range_succ]
    simp [e1, e2]

/-- C4, amended: for every sky-sample count `ns` below `2^31` (so that the
`unsigned` product `ns * 2` does not wrap) the image buffer has length `2 * ns`;
the output loop reads, in order, exactly the indices `0, 1, ..., 2*ns - 1`,
sample `s` reading `2s` and `2s+1`; all of them lie inside the buffer, and
every buffer index belongs to exactly one sample.  Below `2^30` samples the
same holds of the `int` arithmetic of `test_perturbed` and `test_scattered`. -/
theorem image_buffer_layout (ns : Nat) (hns : ns < 2 ^ 31) :
    imageLength ns = 2 * ns ∧
    outputLoopReads ns = List.range (imageLength ns) ∧
    (∀ s, s < ns → imageIndexRe s = 2 * s ∧ imageIndexIm s = 2 * s + 1 ∧
      imageIndexRe s < imageLength ns ∧ imageIndexIm s < imageLength ns) ∧
    (∀ j, j < imageLength ns →
      ∃! s, s < ns ∧ (j = imageIndexRe s ∨ j = imageIndexIm s)) ∧
    (ns < 2 ^ 30 → imageLengthInt ns = some (2 * ns) ∧
      outputLoopReadsInt ns = (List.range (2 * ns)).map some) := by
  have hl := imageLength_no_wrap ns hns
  have e1 : ∀ s, s < ns → imageIndexRe s = 2 * s := by
    intro s hs; unfold imageIndexRe UINT_MODULUS; omega
  have e2 : ∀ s, s < ns → imageIndexIm s = 2 * s + 1 := by
    intro s hs; unfold imageIndexIm UINT_MODULUS; omega
  refine ⟨hl, ?_, ?_, ?_, ?_⟩
  · rw [hl]; exact outputLoopReads_eq_range ns hns
  · intro s hs
    rw [e1 s hs, e2 s hs, hl]
    exact ⟨rfl, rfl, by omega, by omega⟩
  · intro j hj
    rw [hl] at hj
    refine ⟨j / 2, ⟨by omega, ?_⟩, ?_⟩
    · rw [e1 _ (by omega), e2 _ (by omega)]; omega
    · rintro t ⟨ht, hjt⟩
      rw [e1 t ht, e2 t ht] at hjt
      omega
  · intro h30
    refine ⟨?_, outputLoopReadsInt_eq_range ns h30⟩
    rw [imageLengthInt_eq ns h30, hl]

/-- An instance of C4: the 90601 samples of `test_regular` (301 per axis). -/
theorem image_buffer_layout_witness :
    90601 < 2 ^ 31 ∧
    imageLength 90601 = 2 * 90601 ∧
    outputLoopReads 90601 = List.range (imageLength 90601) ∧
    (∀ s, s < 90601 → imageIndexRe s = 2 * s ∧ imageIndexIm s = 2 * s + 1 ∧
      imageIndexRe s < imageLength 90601 ∧ imageIndexIm s < imageLength 90601) ∧
    (∀ j, j < imageLength 90601 →
      ∃! s, s < 90601 ∧ (j = imageIndexRe s ∨ j = imageIndexIm s)) ∧
    (90601 < 2 ^ 30 → imageLengthInt 90601 = some (2 * 90601) ∧
      outputLoopReadsInt 90601 = (List.range (2 * 90601)).map some) :=
  ⟨by decide, image_buffer_layout 90601 (by decide)⟩

/-- C4 as stated fails for `ns = 2^31`: the `unsigned` product `ns * 2` wraps to
0, so the image buffer is empty, not of length `2 * ns`, and the index `0` read
for sample 0 lies outside it. -/
theorem image_buffer_wraps :
    imageLength 2147483648 = 0 ∧ imageLength 2147483648 ≠ 2 * 2147483648 ∧
    (0 < 2147483648 ∧ ¬ (imageIndexRe 0 < imageLength 2147483648)) ∧
    imageLengthInt 1073741824 = none := by
  decide

/-- Up to 46340 elements per side the `int` values `na * na` and `y + x * na`
of the grid loop fit the type. -/
theorem gridIndex_no_wrap (na x y : Nat) (h : na ≤ 46340) (hx : x < na) (hy : y < na) :
    y + x * na < na * na ∧ na * na ≤ INT_MAX := by
  have h1 : (x + 1) * na ≤ na * na := Nat.mul_le_mul_right na hx
  have h2 : na * na ≤ 46340 * na := Nat.mul_le_mul_right na h
  rw [Nat.succ_mul] at h1
  unfold INT_MAX
  omega

/-- Up to 46340 elements per side every index of the grid loop is defined. -/
theorem gridIndex_eq (na x y : Nat) (h : na ≤ 46340) (hx : x < na) (hy : y < na) :
    gridIndex na x y = some (y + x * na) := by
  have := gridIndex_no_wrap na x y h hx hy
  unfold gridIndex intResult
  rw [if_pos (by omega)]

/-- Row-major enumeration: the indices `y + x * n` for `x < m`, `y < n`, in loop
order, are `0, 1, ..., m*n - 1`. -/
theorem flatMap_range_index (n : Nat) (m : Nat) :
    ((List.range m).flatMap fun x => (List.range n).map fun y => y + x * n)
      = List.range (m * n) := by
  induction m with
  | zero => simp
  | succ m ih =>
    rw [List.range_succ, List.flatMap_append, ih, Nat.succ_mul, List.range_add]
    simp [Nat.add_comm]

/-- Two loop bodies that agree on every iteration produce the same items. -/
theorem flatMap_range_congr {α : Type} (f g : Nat → Nat → α) (n m : Nat)
    (h : ∀ x y, x < m → y < n → f x y = g x y) :
    ((List.range m).flatMap fun x => (List.range n).map (f x)) =
      (List.range m).flatMap fun x => (List.range n).map (g x) := by
  induction m with
  | zero => simp
  | succ m ih =>
    rw [List.range_succ, List.flatMap_append, List.flatMap_append,
      ih (fun x y hx hy => h x y (by omega) hy)]
    congr 1
    simp only [List.flatMap_cons, List.flatMap_nil, List.append_nil]
    apply List.map_congr_left
    intro y hy
    exact h m y (by omega) (List.mem_range.mp hy)

/-- The store indices of the regular-grid loop, in program order. -/
theorem regularGridStores_index (na : Nat) (sep : ℚ) (h : na ≤ 46340) :
    (regularGridStores na sep).map (fun st => st.1) = (List.range (na * na)).map some := by
  rw [← flatMap_range_index na na]
  simp only [regularGridStores, List.map_flatMap, List.map_map, Function.comp_def]
  exact flatMap_range_congr _ _ na na (fun x y hx hy => gridIndex_eq na x y h hx hy)

/-- Stores to consecutive indices `0, 1, ...` inside the buffers are all
defined; they overwrite a prefix of the buffers with the stored values and
leave the rest untouched. -/
theorem runStores_sequential (stores : List (Option Nat × F32 × F32)) :
    ∀ bufs : List F32 × List F32,
    stores.map (fun st => st.1) = (List.range stores.length).map some →
    stores.length ≤ bufs.1.length → stores.length ≤ bufs.2.length →
    runStores stores bufs =
      some (stores.map (fun st => st.2.1) ++ bufs.1.drop stores.length,
       stores.map (fun st => st.2.2) ++ bufs.2.drop stores.length) := by
  induction stores using List.reverseRecOn with
  | nil => intro bufs _ _ _; simp [runStores]
  | append_singleton l a ih =>
    intro bufs hidx h1 h2
    simp only [List.map_append, List.length_append, List.length_cons, List.length_nil,
      List.map_cons, List.map_nil, List.range_succ] at hidx h1 h2
    have hl : (l.map fun st => st.1).length = ((List.range l.length).map some).length := by simp
    obtain ⟨hidx1, hidx2⟩ := List.append_inj hidx hl
    have ha : a.1 = some l.length := by simpa using hidx2
    have ih' := ih bufs hidx1 (by omega) (by omega)
    unfold runStores at ih' ⊢
    rw [List.foldl_append, ih']
    simp only [List.foldl_cons, List.foldl_nil, ha, List.map_append, List.map_cons, List.map_nil,
      List.length_append, List.length_cons, List.length_nil]
    have e1 : ∀ (b : List F32) (f : Option Nat × F32 × F32 → F32) (v : F32),
        l.length + 1 ≤ b.length →
        (l.map f ++ b.drop l.length).set l.length v = l.map f ++ [v] ++ b.drop (l.length + 1) := by
      intro b f v hb
      rw [List.set_append_right _ _ (by simp)]
      simp only [List.length_map, Nat.sub_self, List.append_assoc]
      congr 1
      rw [List.drop_eq_getElem_cons (by omega : l.length < b.length)]
      rfl
    rw [if_pos (by simp; omega), e1 _ _ _ (by omega), e1 _ _ _ (by omega)]

/-- A doubly nested loop with `m` outer and `n` inner iterations produces `m * n`
items. -/
theorem flatMap_range_length {α : Type} (f : Nat → Nat → α) (n m : Nat) :
    ((List.range m).flatMap fun x => (List.range n).map (f x)).length = m * n := by
  induction m with
  | zero => simp
  | succ m ih =>
    rw [List.range_succ, List.flatMap_append, List.length_append, ih]
    simp [Nat.succ_mul]

/-- The item produced by iteration `(x, y)` of a doubly nested loop sits at
position `y + x * n`. -/
theorem flatMap_range_getElem {α : Type} (f : Nat → Nat → α) (n m x y : Nat)
    (hx : x < m) (hy : y < n) :
    ((List.range m).flatMap fun x => (List.range n).map (f x))[y + x * n]? = some (f x y) := by
  induction m with
  | zero => omega
  | succ m ih =>
    rw [List.range_succ, List.flatMap_append]
    rcases Nat.lt_succ_iff_lt_or_eq.mp hx with h | h
    · have hb : y + x * n < m * n := by
        have := Nat.mul_le_mul_right n (Nat.succ_le_of_lt h)
        rw [Nat.succ_mul] at this
        omega
      rw [List.getElem?_append_left (by rw [flatMap_range_length]; exact hb)]
      exact ih h
    · subst h
      rw [List.getElem?_append_right (by rw [flatMap_range_length]; omega), flatMap_range_length]
      simp [hy]

/-- The regular-grid loop executes `na * na` stores. -/
theorem regularGridStores_length (na : Nat) (sep : ℚ) :
    (regularGridStores na sep).length = na * na := by
  unfold regularGridStores
  exact flatMap_range_length _ na na

/-- Up to 46340 elements per side the generation is defined, and after the loop
the buffers hold exactly the stored values, in store order. -/
theorem regularGrid_eq (na : Nat) (sep : ℚ) (h : na ≤ 46340) :
    regularGrid na sep =
      some ((List.range na).flatMap fun (x : Nat) =>
          (List.range na).map fun (_ : Nat) => gridCoordinate na sep x,
        (List.range na).flatMap fun (_ : Nat) =>
          (List.range na).map fun (y : Nat) => gridCoordinate na sep y) := by
  have hsize : intResult (na * na) = some (na * na) := by
    unfold intResult INT_MAX
    have h2 : na * na ≤ 46340 * na := Nat.mul_le_mul_right na h
    rw [if_pos (by omega)]
  unfold regularGrid
  rw [hsize]
  simp only
  rw [runStores_sequential _ _
    (by rw [regularGridStores_index na sep h, regularGridStores_length])
    (by simp [regularGridStores_length]) (by simp [regularGridStores_length])]
  simp [regularGridStores_length, regularGridStores, List.map_flatMap, Function.comp_def]

/-- Zipping the items of two doubly nested loops of the same shape pairs the
items of equal iterations. -/
theorem zip_flatMap_range {α β : Type} (f : Nat → Nat → α) (g : Nat → Nat → β) (n m : Nat) :
    ((List.range m).flatMap fun x => (List.range n).map (f x)).zip
        ((List.range m).flatMap fun x => (List.range n).map (g x)) =
      (List.range m).flatMap fun x => (List.range n).map fun y => (f x y, g x y) := by
  induction m with
  | zero => simp
  | succ m ih =>
    rw [List.range_succ, List.flatMap_append, List.flatMap_append, List.flatMap_append,
      List.zip_append (by rw [flatMap_range_length, flatMap_range_length]), ih]
    congr 1
    simp [List.zip_map']

/-- Closed form of the regular-grid positions when every coordinate is finite. -/
theorem regularGridPositions_eq (na : Nat) (sep : ℚ) (c : Nat → ℚ) (h : na ≤ 46340)
    (hc : ∀ x, x < na → gridCoordinate na sep x = some (c x)) :
    regularGridPositions na sep =
      (List.range na).flatMap fun (x : Nat) => (List.range na).map fun (y : Nat) =>
        (c x, c y) := by
  unfold regularGridPositions
  rw [regularGrid_eq na sep h]
  simp only
  rw [flatMap_range_congr (fun x _ => gridCoordinate na sep x) (fun x _ => some (c x)) na na
      (fun x _ hx _ => hc x hx),
    flatMap_range_congr (fun _ y => gridCoordinate na sep y) (fun _ y => some (c y)) na na
      (fun _ y _ hy => hc y hy),
    zip_flatMap_range]
  have e : ((List.range na).flatMap fun x => (List.range na).map fun y =>
      ((some (c x) : F32), (some (c y) : F32))) =
      ((List.range na).flatMap fun (x : Nat) => (List.range na).map fun (y : Nat) =>
        (c x, c y)).map fun p => ((some p.1 : F32), (some p.2 : F32)) := by
    simp [List.map_flatMap, Function.comp_def]
  rw [e, List.filterMap_map]
  simp only [Function.comp_def]
  exact List.filterMap_some _

/-- The model of `float` rounding on sample values: 0.15 rounds to the `float`
`0x3E19999A`, integers up to `2^24` are exact, `2^24 + 1` is a tie and goes to
the even neighbour, the largest `float` is exact, `2^128` overflows, and the
smallest subnormal is `2^(-149)`. -/
theorem F32_round_examples :
    F32.round (3 / 20) = some test_regular.sep ∧
    F32.round 99 = some 99 ∧
    F32.round 16777217 = some 16777216 ∧
    F32.round 16777219 = some 16777220 ∧
    F32.round (-(1 / 3)) = some (-(11184811 / 33554432)) ∧
    F32.round (pow2 128 - pow2 104) = some (pow2 128 - pow2 104) ∧
    F32.round (pow2 128 - pow2 103) = none ∧
    F32.round (pow2 (-149)) = some (pow2 (-149)) ∧
    F32.round (pow2 (-150)) = some 0 ∧
    F32.round (3 * pow2 (-150)) = some (pow2 (-148)) := by
  decide!

/-- The buffers of the 2 x 2 grid with the separation of `test_regular`. -/
theorem regularGrid_two :
    regularGrid 2 test_regular.sep =
      some ([some (-(5033165 / 67108864)), some (-(5033165 / 67108864)),
          some (5033165 / 67108864), some (5033165 / 67108864)],
        [some (-(5033165 / 67108864)), some (5033165 / 67108864),
          some (-(5033165 / 67108864)), some (5033165 / 67108864)]) := by
  decide!

/-- C5, amended: for every number `n ≤ 46340` of elements per side (so that
`n * n` fits the 32-bit `int`) and every separation, the regular-grid loop is
defined and fills buffers of exactly `n^2` entries; the indices it stores to
are, in program order, exactly `0, 1, ..., n^2 - 1`, so every slot is written
exactly once and no index is out of range; slot `y + x*n` receives the
coordinates computed for element `(x, y)`; and the index map
`(x, y) ↦ y + x*n` is a bijection from `[0,n) x [0,n)` onto `[0, n^2)`. -/
theorem regular_grid_count (n : Nat) (sep : ℚ) (hn : n ≤ 46340) :
    ∃ ax ay, regularGrid n sep = some (ax, ay) ∧
      ax.length = n ^ 2 ∧ ay.length = n ^ 2 ∧
      (regularGridStores n sep).map (fun st => st.1) = (List.range (n ^ 2)).map some ∧
      (∀ x y, x < n → y < n →
        gridIndex n x y = some (y + x * n) ∧ y + x * n < n ^ 2 ∧
        ax[y + x * n]? = some (gridCoordinate n sep x) ∧
        ay[y + x * n]? = some (gridCoordinate n sep y)) ∧
      (∀ i, i < n ^ 2 →
        ∃! p : Nat × Nat, p.1 < n ∧ p.2 < n ∧ gridIndex n p.1 p.2 = some i) := by
  have hsq : n ^ 2 = n * n := by ring
  rw [hsq]
  refine ⟨_, _, regularGrid_eq n sep hn, flatMap_range_length _ n n, flatMap_range_length _ n n,
    regularGridStores_index n sep hn, ?_, ?_⟩
  · intro x y hx hy
    exact ⟨gridIndex_eq n x y hn hx hy, (gridIndex_no_wrap n x y hn hx hy).1,
      flatMap_range_getElem (fun x _ => gridCoordinate n sep x) n n x y hx hy,
      flatMap_range_getElem (fun _ y => gridCoordinate n sep y) n n x y hx hy⟩
  · intro i hi
    have h0 : 0 < n := by
      rcases Nat.eq_zero_or_pos n with h | h
      · subst h; simp at hi
      · exact h
    have hx : i / n < n := (Nat.div_lt_iff_lt_mul h0).mpr hi
    have hy : i % n < n := Nat.mod_lt _ h0
    refine ⟨(i / n, i % n), ⟨hx, hy, ?_⟩, ?_⟩
    · rw [gridIndex_eq n _ _ hn hx hy, Nat.add_comm, Nat.mul_comm, Nat.div_add_mod i n]
    · rintro ⟨x, y⟩ ⟨hx1, hy1, hxy⟩
      simp only at hx1 hy1 hxy
      rw [gridIndex_eq n x y hn hx1 hy1] at hxy
      injection hxy with hxy
      subst hxy
      have h1 : (y + x * n) / n = x := by
        rw [Nat.add_mul_div_right _ _ h0, Nat.div_eq_of_lt hy1, Nat.zero_add]
      have h2 : (y + x * n) % n = y := by
        rw [Nat.add_mul_mod_self_right, Nat.mod_eq_of_lt hy1]
      rw [h1, h2]

/-- An instance of C5: the 100 x 100 grid of `test_regular`. -/
theorem regular_grid_count_witness :
    100 ≤ 46340 ∧
    ∃ ax ay, regularGrid 100 test_regular.sep = some (ax, ay) ∧
      ax.length = 100 ^ 2 ∧ ay.length = 100 ^ 2 ∧
      (regularGridStores 100 test_regular.sep).map (fun st => st.1) =
        (List.range (100 ^ 2)).map some ∧
      (∀ x y, x < 100 → y < 100 →
        gridIndex 100 x y = some (y + x * 100) ∧ y + x * 100 < 100 ^ 2 ∧
        ax[y + x * 100]? = some (gridCoordinate 100 test_regular.sep x) ∧
        ay[y + x * 100]? = some (gridCoordinate 100 test_regular.sep y)) ∧
      (∀ i, i < 100 ^ 2 →
        ∃! p : Nat × Nat, p.1 < 100 ∧ p.2 < 100 ∧ gridIndex 100 p.1 p.2 = some i) :=
  ⟨by decide, regular_grid_count 100 test_regular.sep (by decide)⟩

/-- C5 as stated fails for `n = 46341`: the `int` product `n * n` is
2147488281, above the largest `int`, so the allocation size (and the index of
the last element) overflows and the generation is undefined. -/
theorem regular_grid_int_overflow :
    ¬ (46341 * 46341 ≤ INT_MAX) ∧
    regularGrid 46341 test_regular.sep = none ∧
    gridIndex 46341 46340 46340 = none := by
  refine ⟨by decide, ?_, by decide⟩
  unfold regularGrid
  have h : intResult (46341 * 46341) = none := by decide
  rw [h]

/-- When no operation rounds, the stored coordinate is the exact value
`x * sep - (na - 1) * sep / 2`. -/
theorem gridCoordinate_exact (na : Nat) (sep : ℚ) (h : exactGrid na sep = true)
    (x : Nat) (hx : x < na) :
    gridCoordinate na sep x = some ((x : ℚ) * sep - ((na : ℚ) - 1) * sep / 2) := by
  unfold exactGrid F32.exact at h
  simp only [Bool.and_eq_true, beq_iff_eq, List.all_eq_true, List.mem_range] at h
  obtain ⟨⟨⟨h1, h2⟩, h3⟩, h4⟩ := h
  obtain ⟨⟨h5, h6⟩, h7⟩ := h4 x hx
  have hh : halfArraySize na sep = some (((na : ℚ) - 1) * sep / 2) := by
    unfold halfArraySize F32.ofInt
    have e : (((na : Int) - 1 : Int) : ℚ) = (na : ℚ) - 1 := by push_cast; ring
    rw [e, h1]
    simp only [F32.mul]
    rw [h2]
    simp only
    rw [h3]
  unfold gridCoordinate F32.ofInt
  have e : (((x : Int)) : ℚ) = (x : ℚ) := by push_cast; ring
  rw [e, h5, hh]
  simp only [F32.mul]
  rw [h6]
  simp only [F32.sub]
  rw [h7]

/-- C6, amended: for every number `n ≤ 46340` of elements per side and every
separation for which no operation of the coordinate computation rounds, the
regular-grid positions are symmetric about the origin: the negation of a grid
position is a grid position; element `(x, y)` sits at
`(x*s - (n-1)*s/2, y*s - (n-1)*s/2)` and its mirror image is element
`(n-1-x, n-1-y)`. -/
theorem regular_grid_symmetric (n : Nat) (sep : ℚ) (hn : n ≤ 46340)
    (hexact : exactGrid n sep = true) :
    (∀ p, p ∈ regularGridPositions n sep → (-p.1, -p.2) ∈ regularGridPositions n sep) ∧
    (∀ x y, x < n → y < n →
      (regularGridPositions n sep)[y + x * n]? =
        some ((x : ℚ) * sep - (n - 1) * sep / 2, (y : ℚ) * sep - (n - 1) * sep / 2) ∧
      (regularGridPositions n sep)[(n - 1 - y) + (n - 1 - x) * n]? =
        some (-((x : ℚ) * sep - (n - 1) * sep / 2), -((y : ℚ) * sep - (n - 1) * sep / 2))) := by
  have hpos := regularGridPositions_eq n sep
    (fun x => (x : ℚ) * sep - ((n : ℚ) - 1) * sep / 2) hn (gridCoordinate_exact n sep hexact)
  beta_reduce at hpos
  have key : ∀ x, x < n → (((n - 1 - x : Nat) : ℚ)) * sep - ((n : ℚ) - 1) * sep / 2
      = -((x : ℚ) * sep - ((n : ℚ) - 1) * sep / 2) := by
    intro x hx
    have hc : ((n - 1 - x : Nat) : ℚ) = (n : ℚ) - 1 - x := by
      rw [Nat.sub_sub, Nat.cast_sub (by omega)]; push_cast; ring
    rw [hc]; ring
  constructor
  · intro p hp
    rw [hpos] at hp ⊢
    simp only [List.mem_flatMap, List.mem_map, List.mem_range] at hp ⊢
    obtain ⟨x, hx, y, hy, rfl⟩ := hp
    exact ⟨n - 1 - x, by omega, n - 1 - y, by omega, by rw [key x hx, key y hy]⟩
  · intro x y hx hy
    rw [hpos]
    rw [flatMap_range_getElem _ n n x y hx hy,
      flatMap_range_getElem _ n n (n - 1 - x) (n - 1 - y) (by omega) (by omega),
      key x hx, key y hy]
    exact ⟨rfl, rfl⟩

/-- An instance of C6: the 100 x 100 grid with separation 0.125, all of whose
coordinates are computed without rounding. -/
theorem regular_grid_symmetric_witness :
    100 ≤ 46340 ∧ exactGrid 100 (1 / 8) = true ∧
    (∀ p, p ∈ regularGridPositions 100 (1 / 8) →
      (-p.1, -p.2) ∈ regularGridPositions 100 (1 / 8)) ∧
    (∀ x y : Nat, x < 100 → y < 100 →
      (regularGridPositions 100 (1 / 8))[y + x * 100]? =
        some ((x : ℚ) * (1 / 8) - (((100 : Nat) : ℚ) - 1) * (1 / 8) / 2,
          (y : ℚ) * (1 / 8) - (((100 : Nat) : ℚ) - 1) * (1 / 8) / 2) ∧
      (regularGridPositions 100 (1 / 8))[(100 - 1 - y) + (100 - 1 - x) * 100]? =
        some ((-((x : ℚ) * (1 / 8) - (((100 : Nat) : ℚ) - 1) * (1 / 8) / 2),
          -((y : ℚ) * (1 / 8) - (((100 : Nat) : ℚ) - 1) * (1 / 8) / 2)) : ℚ × ℚ)) :=
  ⟨by decide, by decide!, regular_grid_symmetric 100 (1 / 8) (by decide) (by decide!)⟩

/-- C6 as stated fails in single precision, at the constants of `test_regular`
(100 elements per side, separation 0.15 as a `float`): element `(1, 0)` sits at
`(-15256781/2097152, -7785677/1048576)`, a grid position whose negation is not
a grid position; its mirror element `(98, 99)` sits at
`(7628391/1048576, 7785677/1048576)`, one unit in the last place away. -/
theorem regular_grid_rounding_asymmetric :
    (regularGridPositions 100 test_regular.sep)[0 + 1 * 100]? =
      some ((-(15256781 / 2097152), -(7785677 / 1048576)) : ℚ × ℚ) ∧
    (regularGridPositions 100 test_regular.sep)[99 + 98 * 100]? =
      some ((7628391 / 1048576, 7785677 / 1048576) : ℚ × ℚ) ∧
    ((-(15256781 / 2097152), -(7785677 / 1048576)) : ℚ × ℚ) ∈
      regularGridPositions 100 test_regular.sep ∧
    (-(-(15256781 / 2097152) : ℚ), -(-(7785677 / 1048576) : ℚ)) ∉
      regularGridPositions 100 test_regular.sep := by
  have hfin : ∀ x, x < 100 → gridCoordinate 100 test_regular.sep x =
      some ((gridCoordinate 100 test_regular.sep x).getD 0) := by decide!
  have hpos := regularGridPositions_eq 100 test_regular.sep
    (fun x => (gridCoordinate 100 test_regular.sep x).getD 0) (by decide) hfin
  beta_reduce at hpos
  have c0 : (gridCoordinate 100 test_regular.sep 0).getD 0 = -(7785677 / 1048576) := by decide!
  have c1 : (gridCoordinate 100 test_regular.sep 1).getD 0 = -(15256781 / 2097152) := by decide!
  have c98 : (gridCoordinate 100 test_regular.sep 98).getD 0 = 7628391 / 1048576 := by decide!
  have c99 : (gridCoordinate 100 test_regular.sep 99).getD 0 = 7785677 / 1048576 := by decide!
  have hno : ∀ x, x < 100 →
      (gridCoordinate 100 test_regular.sep x).getD 0 ≠ -(-(15256781 / 2097152)) := by decide!
  rw [hpos]
  refine ⟨?_, ?_, ?_, ?_⟩
  · have h := flatMap_range_getElem (fun x y => ((gridCoordinate 100 test_regular.sep x).getD 0,
      (gridCoordinate 100 test_regular.sep y).getD 0)) 100 100 1 0 (by decide) (by decide)
    beta_reduce at h
    rw [c0, c1] at h
    exact h
  · have h := flatMap_range_getElem (fun x y => ((gridCoordinate 100 test_regular.sep x).getD 0,
      (gridCoordinate 100 test_regular.sep y).getD 0)) 100 100 98 99 (by decide) (by decide)
    beta_reduce at h
    rw [c98, c99] at h
    exact h
  · simp only [List.mem_flatMap, List.mem_map, List.mem_range]
    exact ⟨1, by decide, 0, by decide, by rw [c0, c1]⟩
  · simp only [List.mem_flatMap, List.mem_map, List.mem_range, not_exists, not_and]
    intro x hx y _ hxy
    exact hno x hx (congrArg Prod.fst hxy)

/-! ## Array-factor kernel: properties -/

/-- An interleaved buffer has two entries per sample. -/
theorem interleave_length {α β : Type} (f g : α → β) (l : List α) :
    (l.flatMap fun s => [f s, g s]).length = 2 * l.length := by
  induction l with
  | nil => rfl
  | cons a t ih => simp only [List.flatMap_cons, List.length_append, List.length_cons, List.length_nil, ih]; omega

/-- Entry `2s` of an interleaved buffer is the first component of sample `s`. -/
theorem interleave_even {α β : Type} (f g : α → β) (l : List α) (s : Nat) :
    (l.flatMap fun s => [f s, g s])[2 * s]? = (l[s]?).map f := by
  induction l generalizing s with
  | nil => simp
  | cons a t ih =>
    cases s with
    | zero => simp
    | succ n =>
      have h : 2 * (n + 1) = (2 * n) + 1 + 1 := by ring
      simp only [List.flatMap_cons, h]
      simpa using ih n

/-- Entry `2s+1` of an interleaved buffer is the second component of sample `s`. -/
theorem interleave_odd {α β : Type} (f g : α → β) (l : List α) (s : Nat) :
    (l.flatMap fun s => [f s, g s])[2 * s + 1]? = (l[s]?).map g := by
  induction l generalizing s with
  | nil => simp
  | cons a t ih =>
    cases s with
    | zero => simp
    | succ n =>
      have h : 2 * (n + 1) + 1 = (2 * n + 1) + 1 + 1 := by ring
      simp only [List.flatMap_cons, h]
      simpa using ih n

/-- A zero direction-cosine difference gives the phase term 1. -/
theorem phaseTerm_zero_diff (k : ℝ) (a : ℝ × ℝ) : phaseTerm k 0 0 a = 1 := by
  simp [phaseTerm]

/-- On boresight all phase terms are 1 and the array factor is the antenna count. -/
theorem arrayFactor_boresight (proj : ℝ → ℝ → ℝ × ℝ) (ants : List (ℝ × ℝ))
    (bore : ℝ × ℝ) (k : ℝ) : arrayFactor proj ants bore k bore = (ants.length : ℂ) := by
  simp only [arrayFactor, sub_self]
  induction ants with
  | nil => simp
  | cons a t ih => simp only [List.map_cons, List.sum_cons, ih, phaseTerm_zero_diff, List.length_cons]; push_cast; ring

/-- A single antenna at the origin has array factor 1 in every direction. -/
theorem arrayFactor_single_origin (proj : ℝ → ℝ → ℝ × ℝ)
    (bore : ℝ × ℝ) (k : ℝ) (s : ℝ × ℝ) : arrayFactor proj [(0, 0)] bore k s = 1 := by
  simp [arrayFactor, phaseTerm]

/-- With at least one antenna and a positive wavenumber the kernel succeeds. -/
theorem kernel_ok (proj : ℝ → ℝ → ℝ × ℝ)
    (ants : List (ℝ × ℝ)) (skies : List (ℝ × ℝ)) (bore : ℝ × ℝ) (k : ℝ)
    (hna : 1 ≤ ants.length) (hk : 0 < k) :
    beamPattern2dHorizontalGeometric proj ants skies bore k =
      Except.ok (skies.flatMap fun s =>
        [(arrayFactor proj ants bore k s).re, (arrayFactor proj ants bore k s).im]) := by
  unfold beamPattern2dHorizontalGeometric
  rw [if_neg (by omega), if_neg (not_le.mpr hk)]

/-- C1: for every antenna layout with at least one element, every boresight
direction and every wavenumber `k > 0`, a sky sample equal to the boresight
direction gets the complex value `N_a + 0i` in the image (real part at index
`2s`, imaginary part at `2s+1`), of magnitude `N_a` and phase `0`.  This holds
for every direction-cosine projection. -/
theorem kernel_at_boresight (proj : ℝ → ℝ → ℝ × ℝ)
    (ants : List (ℝ × ℝ)) (skies : List (ℝ × ℝ)) (bore : ℝ × ℝ) (k : ℝ) (s : Nat)
    (hna : 1 ≤ ants.length) (hk : 0 < k) (hs : skies[s]? = some bore) :
    ∃ img, beamPattern2dHorizontalGeometric proj ants skies bore k = Except.ok img ∧
      ∃ z : ℂ, img[2 * s]? = some z.re ∧ img[2 * s + 1]? = some z.im ∧
        z = (ants.length : ℂ) ∧ z.re = ants.length ∧ z.im = 0 ∧
        Complex.abs z = ants.length ∧ Complex.arg z = 0 := by
  refine ⟨_, kernel_ok proj ants skies bore k hna hk, arrayFactor proj ants bore k bore,
    ?_, ?_, arrayFactor_boresight proj ants bore k, ?_, ?_, ?_, ?_⟩
  · rw [interleave_even, hs]; rfl
  · rw [interleave_odd, hs]; rfl
  · rw [arrayFactor_boresight]; simp
  · rw [arrayFactor_boresight]; simp
  · rw [arrayFactor_boresight]; simp
  · rw [arrayFactor_boresight]; simp

/-- The end-to-end scenario of C1: the 2x2 regular grid with 0.15 m separation,
boresight azimuth 0 and elevation 50 degrees as the only sky sample, at 1 GHz
(`k = 2 pi f / c`), gives the sample `4 + 0i`, of magnitude 4 and phase 0. -/
theorem kernel_at_boresight_witness :
    ∃ img, beamPattern2dHorizontalGeometric horizontalDirectionCosines
        ((regularGridPositions 2 (3 / 20)).map fun p => ((p.1 : ℝ), (p.2 : ℝ)))
        [(0, 50 * (Real.pi / 180))] (0, 50 * (Real.pi / 180))
        (2 * Real.pi * (1000000000 / 299792458)) = Except.ok img ∧
      ∃ z : ℂ, img[0]? = some z.re ∧ img[1]? = some z.im ∧
        z = 4 ∧ z.re = 4 ∧ z.im = 0 ∧ Complex.abs z = 4 ∧ Complex.arg z = 0 := by
  have hlen : ((regularGridPositions 2 (3 / 20)).map
      fun p => ((p.1 : ℝ), (p.2 : ℝ))).length = 4 := by
    have hc : ∀ x, x < 2 → gridCoordinate 2 (3 / 20) x =
        some ((gridCoordinate 2 (3 / 20) x).getD 0) := by decide!
    rw [List.length_map, regularGridPositions_eq 2 (3 / 20) _ (by decide) hc,
      flatMap_range_length]
  have h := kernel_at_boresight horizontalDirectionCosines
    ((regularGridPositions 2 (3 / 20)).map fun p => ((p.1 : ℝ), (p.2 : ℝ)))
    [(0, 50 * (Real.pi / 180))] (0, 50 * (Real.pi / 180))
    (2 * Real.pi * (1000000000 / 299792458)) 0 (by rw [hlen]; norm_num) (by positivity)
    (by simp)
  rw [hlen] at h
  simpa using h

/-- C2: for the layout of a single antenna at the origin, every sky direction,
every boresight direction and every wavenumber `k > 0`, the complex sample
written to the image has magnitude exactly 1. -/
theorem kernel_single_antenna_unit_magnitude (proj : ℝ → ℝ → ℝ × ℝ)
    (skies : List (ℝ × ℝ)) (bore : ℝ × ℝ) (k : ℝ) (s : Nat) (sky : ℝ × ℝ)
    (hk : 0 < k) (hs : skies[s]? = some sky) :
    ∃ img, beamPattern2dHorizontalGeometric proj [(0, 0)] skies bore k = Except.ok img ∧
      ∃ re im : ℝ, img[2 * s]? = some re ∧ img[2 * s + 1]? = some im ∧
        Real.sqrt (re ^ 2 + im ^ 2) = 1 ∧ Complex.abs ⟨re, im⟩ = 1 := by
  refine ⟨_, kernel_ok proj [(0, 0)] skies bore k (by simp) hk,
    (arrayFactor proj [(0, 0)] bore k sky).re, (arrayFactor proj [(0, 0)] bore k sky).im,
    ?_, ?_, ?_, ?_⟩
  · rw [interleave_even, hs]; rfl
  · rw [interleave_odd, hs]; rfl
  · rw [arrayFactor_single_origin]; simp
  · rw [arrayFactor_single_origin]
    have : (⟨(1 : ℂ).re, (1 : ℂ).im⟩ : ℂ) = 1 := rfl
    rw [this]; simp

/-- An instance of C2: a single antenna, two sky directions, the second sample
has magnitude 1. -/
theorem kernel_single_antenna_unit_magnitude_witness :
    ∃ img, beamPattern2dHorizontalGeometric horizontalDirectionCosines [(0, 0)]
        [(1, 1 / 2), (2, 3 / 4)] (0, 1) 3 = Except.ok img ∧
      ∃ re im : ℝ, img[2]? = some re ∧ img[3]? = some im ∧
        Real.sqrt (re ^ 2 + im ^ 2) = 1 ∧ Complex.abs ⟨re, im⟩ = 1 :=
  kernel_single_antenna_unit_magnitude horizontalDirectionCosines
    [(1, 1 / 2), (2, 3 / 4)] (0, 1) 3 1 (2, 3 / 4) (by norm_num) (by simp)

/-- C3: with no antennas (`N_a = 0`) the kernel returns the error
`InvalidParameter`, and it returns no image at all, not even an empty one. -/
theorem kernel_no_antennas_invalid (proj : ℝ → ℝ → ℝ × ℝ)
    (skies : List (ℝ × ℝ)) (bore : ℝ × ℝ) (k : ℝ) :
    beamPattern2dHorizontalGeometric proj [] skies bore k =
      Except.error Error.InvalidParameter ∧
    ∀ img, beamPattern2dHorizontalGeometric proj [] skies bore k ≠ Except.ok img := by
  constructor
  · simp [beamPattern2dHorizontalGeometric]
  · intro img h; simp [beamPattern2dHorizontalGeometric] at h

/-! ## Generators: properties -/

/-- One more point: the counter advances and the point is stored at the old
counter. -/
theorem emitPoints_append (l : List (ℚ × ℚ)) (a : ℚ × ℚ) (bufs : Option (List ℚ × List ℚ)) :
    emitPoints (l ++ [a]) bufs =
      ((emitPoints l bufs).1 + 1, (emitPoints l bufs).2.map fun b =>
        (b.1.set (emitPoints l bufs).1 a.1, b.2.set (emitPoints l bufs).1 a.2)) := by
  simp [emitPoints, List.foldl_append]

/-- A count-only pass returns the number of points and stores nothing. -/
theorem emitPoints_none (pts : List (ℚ × ℚ)) : emitPoints pts none = (pts.length, none) := by
  induction pts using List.reverseRecOn with
  | nil => rfl
  | append_singleton l a ih => rw [emitPoints_append, ih]; simp

/-- Storing right after an already written prefix extends the prefix. -/
theorem set_after_prefix (l : List ℚ) (b : List ℚ) (v : ℚ) (hb : l.length + 1 ≤ b.length) :
    (l ++ b.drop l.length).set l.length v = (l ++ [v]) ++ b.drop (l.length + 1) := by
  rw [List.set_append_right _ _ (Nat.le_refl _)]
  simp only [Nat.sub_self, List.append_assoc]
  congr 1
  rw [List.drop_eq_getElem_cons (by omega : l.length < b.length)]
  rfl

/-- A fill pass into large enough buffers returns the number of points and
overwrites the first entries with the points' coordinates. -/
theorem emitPoints_some (pts : List (ℚ × ℚ)) (bx bY : List ℚ)
    (hx : pts.length ≤ bx.length) (hy : pts.length ≤ bY.length) :
    emitPoints pts (some (bx, bY)) =
      (pts.length, some (pts.map Prod.fst ++ bx.drop pts.length,
        pts.map Prod.snd ++ bY.drop pts.length)) := by
  induction pts using List.reverseRecOn with
  | nil => simp [emitPoints]
  | append_singleton l a ih =>
    simp only [List.length_append, List.length_cons, List.length_nil] at hx hy
    rw [emitPoints_append, ih (by omega) (by omega)]
    simp only [Option.map_some', List.length_append, List.length_cons, List.length_nil,
      List.map_append, List.map_cons, List.map_nil]
    have e1 := set_after_prefix (l.map Prod.fst) bx a.1 (by simpa using hx)
    have e2 := set_after_prefix (l.map Prod.snd) bY a.2 (by simpa using hy)
    simp only [List.length_map] at e1 e2
    rw [e1, e2]

/-- The per-axis count: `floor(2W/S) + 1` when the spacing is not clipped, 3 when
it is. -/
theorem axisCount_eq (size sep : ℚ) (hw : 0 < size) :
    axisCount size sep = if sep ≤ size then (⌊2 * size / sep⌋).toNat + 1 else 3 := by
  unfold axisCount clippedSpacing
  by_cases h : sep ≤ size
  · rw [if_neg (not_lt.mpr h), if_pos h]
  · rw [if_pos (not_le.mp h), if_neg h]
    have : 2 * size / size = 2 := by field_simp
    rw [this]
    have h2 : ⌊(2 : ℚ)⌋ = 2 := by norm_num
    rw [h2]; rfl

/-- A rectangular sector keeps every lattice point. -/
theorem skyPoints_rectangular_length (cLon cLat wLon wLat sLon sLat : ℚ) :
    (skyPoints (SkyConfig.rectangular cLon cLat wLon wLat sLon sLat) id).length =
      axisCount wLon sLon * axisCount wLat sLat := by
  unfold skyPoints SkyConfig.rectangular
  simp only [Bool.false_and, Bool.false_eq_true, if_false]
  generalize axisCount wLon sLon = m
  generalize axisCount wLat sLat = n
  have hrow : ∀ (f : Nat → ℚ × ℚ) (l : List Nat),
      (l.filterMap fun j => some (f j)).length = l.length := by
    intro f l
    induction l with
    | nil => rfl
    | cons a t ih => simp [List.filterMap_cons, ih]
  induction m with
  | zero => simp
  | succ m ih =>
    rw [List.range_succ, List.flatMap_append, List.length_append, ih]
    simp only [List.flatMap_cons, List.flatMap_nil, List.append_nil, hrow, List.length_range,
      Nat.succ_mul]

/-- C7, amended: for a rectangular sector with positive half-widths and
spacings, an axis with spacing `S` not above its half-width `W` gets
`floor(2W/S) + 1` samples, an axis with `S > W` has its spacing clipped to `W`
and gets 3 samples, and the generator returns the product of the two per-axis
counts. -/
theorem sky_rectangular_count (fwd : Nat → Option (ℚ × ℚ → ℚ × ℚ))
    (cLon cLat wLon wLat sLon sLat : ℚ)
    (hw1 : 0 < wLon) (hw2 : 0 < wLat) (hs1 : 0 < sLon) (hs2 : 0 < sLat) :
    SphericalPositions.generate fwd (SkyConfig.rectangular cLon cLat wLon wLat sLon sLat) none =
      Except.ok
        ((if sLon ≤ wLon then (⌊2 * wLon / sLon⌋).toNat + 1 else 3) *
         (if sLat ≤ wLat then (⌊2 * wLat / sLat⌋).toNat + 1 else 3), none) := by
  unfold SphericalPositions.generate
  have p : projectionMap fwd (SkyConfig.rectangular cLon cLat wLon wLat sLon sLat).projectionType
      = some id := by simp [projectionMap, SkyConfig.rectangular]
  have g1 : ¬ ((SkyConfig.rectangular cLon cLat wLon wLat sLon sLat).sizeLon ≤ 0 ∨
      (SkyConfig.rectangular cLon cLat wLon wLat sLon sLat).sizeLat ≤ 0) := by
    simp only [SkyConfig.rectangular]; push_neg; exact ⟨hw1, hw2⟩
  have g2 : ¬ ((SkyConfig.rectangular cLon cLat wLon wLat sLon sLat).sepLon ≤ 0 ∨
      (SkyConfig.rectangular cLon cLat wLon wLat sLon sLat).sepLat ≤ 0) := by
    simp only [SkyConfig.rectangular]; push_neg; exact ⟨hs1, hs2⟩
  rw [if_neg g1, if_neg g2, p]
  simp only [buffersTooSmall, Bool.false_eq_true, if_false]
  rw [emitPoints_none, skyPoints_rectangular_length, axisCount_eq _ _ hw1, axisCount_eq _ _ hw2]

/-- An instance of C7: half-width 30 degrees and spacing 0.2 degrees on both
axes give 301 samples per axis. -/
theorem sky_rectangular_count_witness :
    SphericalPositions.generate (fun _ => none)
      (SkyConfig.rectangular 0 50 30 30 (1 / 5) (1 / 5)) none = Except.ok (301 * 301, none) := by
  have h := sky_rectangular_count (fun _ => none) 0 50 30 30 (1 / 5) (1 / 5)
    (by norm_num) (by norm_num) (by norm_num) (by norm_num)
  norm_num at h
  exact h

/-- C7 as stated fails: with half-width 1 and spacing 3 on both axes the
generator returns 9 samples (3 per axis, spacing clipped to the half-width),
while `floor(2W/S) + 1` is 1 per axis. -/
theorem sky_unclipped_count_fails :
    SphericalPositions.generate (fun _ => none) (SkyConfig.rectangular 0 50 1 1 3 3) none =
      Except.ok (9, none) ∧
    ((⌊(2 : ℚ) * 1 / 3⌋).toNat + 1) * ((⌊(2 : ℚ) * 1 / 3⌋).toNat + 1) = 1 ∧
    SphericalPositions.generate (fun _ => none) (SkyConfig.rectangular 0 50 1 1 3 3) none ≠
      Except.ok (((⌊(2 : ℚ) * 1 / 3⌋).toNat + 1) * ((⌊(2 : ℚ) * 1 / 3⌋).toNat + 1), none) := by
  refine ⟨?_, ?_, ?_⟩
  · decide!
  · decide!
  · decide!

/-- A successful count-only call: the configuration passed the checks and the
count is the number of sky points. -/
theorem generate_count_eq (fwd : Nat → Option (ℚ × ℚ → ℚ × ℚ)) (cfg : SkyConfig) (n : Nat)
    (h : SphericalPositions.generate fwd cfg none = Except.ok (n, none)) :
    ∃ proj, projectionMap fwd cfg.projectionType = some proj ∧
      ¬ (cfg.sizeLon ≤ 0 ∨ cfg.sizeLat ≤ 0) ∧ ¬ (cfg.sepLon ≤ 0 ∨ cfg.sepLat ≤ 0) ∧
      (skyPoints cfg proj).length = n := by
  unfold SphericalPositions.generate at h
  by_cases g1 : cfg.sizeLon ≤ 0 ∨ cfg.sizeLat ≤ 0
  · rw [if_pos g1] at h; cases h
  · rw [if_neg g1] at h
    by_cases g2 : cfg.sepLon ≤ 0 ∨ cfg.sepLat ≤ 0
    · rw [if_pos g2] at h; cases h
    · rw [if_neg g2] at h
      cases hp : projectionMap fwd cfg.projectionType with
      | none => rw [hp] at h; cases h
      | some proj =>
        rw [hp] at h
        simp only [buffersTooSmall, Bool.false_eq_true, if_false, emitPoints_none] at h
        refine ⟨proj, rfl, g1, g2, ?_⟩
        injection h with h
        exact congrArg Prod.fst h

/-- C8: when the call with absent buffers returns the count `n`, the call with
buffers of length `n` succeeds, returns the same count `n`, and fills the
buffers exactly: whatever the buffers held before, the returned longitude and
latitude buffers are the longitudes and latitudes of the `n` generated samples
in traversal order, entry `i` holding sample `i` for every `i < n`. -/
theorem sky_count_then_fill (fwd : Nat → Option (ℚ × ℚ → ℚ × ℚ)) (cfg : SkyConfig)
    (n : Nat) (lon lat : List ℚ)
    (hcount : SphericalPositions.generate fwd cfg none = Except.ok (n, none))
    (hlon : lon.length = n) (hlat : lat.length = n) :
    ∃ lon1 lat1, SphericalPositions.generate fwd cfg (some (lon, lat)) =
        Except.ok (n, some (lon1, lat1)) ∧
      lon1.length = n ∧ lat1.length = n ∧
      ∃ proj, projectionMap fwd cfg.projectionType = some proj ∧
        (skyPoints cfg proj).length = n ∧
        lon1 = (skyPoints cfg proj).map Prod.fst ∧
        lat1 = (skyPoints cfg proj).map Prod.snd ∧
        ∀ i, i < n → ∃ p, (skyPoints cfg proj)[i]? = some p ∧
          lon1[i]? = some p.1 ∧ lat1[i]? = some p.2 := by
  obtain ⟨proj, hp, g1, g2, hlen⟩ := generate_count_eq fwd cfg n hcount
  refine ⟨(skyPoints cfg proj).map Prod.fst, (skyPoints cfg proj).map Prod.snd, ?_,
    by simp [hlen], by simp [hlen], proj, hp, hlen, rfl, rfl, ?_⟩
  · unfold SphericalPositions.generate
    rw [if_neg g1, if_neg g2, hp]
    have hb : buffersTooSmall (skyPoints cfg proj).length (some (lon, lat)) = false := by
      simp [buffersTooSmall, hlen, hlon, hlat]
    simp only [hb, Bool.false_eq_true, if_false]
    rw [emitPoints_some _ _ _ (by omega) (by omega), hlen]
    have d1 : lon.drop n = [] := by rw [← hlon]; exact List.drop_length lon
    have d2 : lat.drop n = [] := by rw [← hlat]; exact List.drop_length lat
    rw [d1, d2, List.append_nil, List.append_nil]
  · intro i hi
    have hi2 : i < (skyPoints cfg proj).length := by omega
    refine ⟨(skyPoints cfg proj)[i], List.getElem?_eq_getElem hi2, ?_, ?_⟩
    · rw [List.getElem?_map, List.getElem?_eq_getElem hi2]; rfl
    · rw [List.getElem?_map, List.getElem?_eq_getElem hi2]; rfl

/-- An instance of C8: a sector restricted to the upper hemisphere with 5 x 3
lattice points; the count-only call returns 15 and the fill call overwrites
two zeroed buffers of 15 entries with the 15 sample directions. -/
theorem sky_count_then_fill_witness :
    SphericalPositions.generate (fun _ => none)
        (SkyConfig.mk 180 45 2 1 1 1 true false PROJECTION_NONE) none = Except.ok (15, none) ∧
    SphericalPositions.generate (fun _ => none)
        (SkyConfig.mk 180 45 2 1 1 1 true false PROJECTION_NONE)
        (some (List.replicate 15 0, List.replicate 15 0)) =
      Except.ok (15, some
        ([178, 178, 178, 179, 179, 179, 180, 180, 180, 181, 181, 181, 182, 182, 182],
         [44, 45, 46, 44, 45, 46, 44, 45, 46, 44, 45, 46, 44, 45, 46])) ∧
    ∃ lon1 lat1, SphericalPositions.generate (fun _ => none)
        (SkyConfig.mk 180 45 2 1 1 1 true false PROJECTION_NONE)
        (some (List.replicate 15 0, List.replicate 15 0)) =
        Except.ok (15, some (lon1, lat1)) ∧
      lon1.length = 15 ∧ lat1.length = 15 ∧
      ∃ proj, projectionMap (fun _ => none)
          (SkyConfig.mk 180 45 2 1 1 1 true false PROJECTION_NONE).projectionType = some proj ∧
        (skyPoints (SkyConfig.mk 180 45 2 1 1 1 true false PROJECTION_NONE) proj).length = 15 ∧
        lon1 = (skyPoints (SkyConfig.mk 180 45 2 1 1 1 true false PROJECTION_NONE) proj).map
          Prod.fst ∧
        lat1 = (skyPoints (SkyConfig.mk 180 45 2 1 1 1 true false PROJECTION_NONE) proj).map
          Prod.snd ∧
        ∀ i, i < 15 → ∃ p,
          (skyPoints (SkyConfig.mk 180 45 2 1 1 1 true false PROJECTION_NONE) proj)[i]? =
            some p ∧
          lon1[i]? = some p.1 ∧ lat1[i]? = some p.2 :=
  ⟨by decide!, by decide!,
    sky_count_then_fill (fun _ => none) (SkyConfig.mk 180 45 2 1 1 1 true false PROJECTION_NONE)
      15 (List.replicate 15 0) (List.replicate 15 0) (by decide!) (by simp) (by simp)⟩

/-- C9: the result of the perturbed circular layout generator (error or count
and positions) depends only on its parameters and buffers, not on the ambient
random state before the call; in particular a second run, started in the state
the first run left behind, returns the same count and the same positions. -/
theorem circular_reproducible {σ : Type} (P : Placement σ) (g1 g2 : σ)
    (prm : CircularParams) (bufs : Option (List ℚ × List ℚ)) :
    (GridPositions.circular P g1 prm bufs).1 = (GridPositions.circular P g2 prm bufs).1 ∧
    (GridPositions.circular P (GridPositions.circular P g1 prm bufs).2 prm bufs).1 =
      (GridPositions.circular P g1 prm bufs).1 := by
  have h : ∀ a b : σ, (GridPositions.circular P a prm bufs).1 =
      (GridPositions.circular P b prm bufs).1 := by
    intro a b
    unfold GridPositions.circular
    split
    · rfl
    · rfl
  exact ⟨h g1 g2, h _ _⟩

/-- A successful count-only call: the parameters passed the checks, the
placement succeeded and the count is the number of placed elements. -/
theorem circular_count_eq {σ : Type} (P : Placement σ) (g g1 : σ) (prm : CircularParams)
    (n : Nat) (h : GridPositions.circular P g prm none = (Except.ok (n, none), g1)) :
    ¬ (prm.seed ≤ 0 ∨ prm.radius ≤ 0 ∨ prm.xs ≤ 0 ∨ prm.ys ≤ 0) ∧
    ∃ placed, layoutLoop P prm (nominalSites prm) (P.srand prm.seed) [] = (some placed, g1) ∧
      placed.length = n := by
  unfold GridPositions.circular at h
  by_cases g0 : prm.seed ≤ 0 ∨ prm.radius ≤ 0 ∨ prm.xs ≤ 0 ∨ prm.ys ≤ 0
  · rw [if_pos g0] at h; cases h
  · rw [if_neg g0] at h
    refine ⟨g0, ?_⟩
    rcases hl : layoutLoop P prm (nominalSites prm) (P.srand prm.seed) [] with ⟨_ | placed, g2⟩
    · rw [hl] at h; cases h
    · rw [hl] at h
      simp only [buffersTooSmall, Bool.false_eq_true, if_false, emitPoints_none] at h
      injection h with h1 h2
      injection h1 with h1
      exact ⟨placed, by rw [h2], congrArg Prod.fst h1⟩

/-- C10: when the count-only call returns `n`, the fill call with the same
parameters and buffers of length `n`, run in the random state the count-only
call left behind, succeeds and produces `m` positions with `n ≤ m` (in fact
`m = n`), and all `n` entries of both buffers are written: whatever the buffers
held before, the returned buffers are the coordinates of the `n` elements the
generator placed, entry `i` holding element `i` for every `i < n`. -/
theorem circular_count_then_fill {σ : Type} (P : Placement σ) (g g1 : σ)
    (prm : CircularParams) (n : Nat) (gx gy : List ℚ)
    (hcount : GridPositions.circular P g prm none = (Except.ok (n, none), g1))
    (hx : gx.length = n) (hy : gy.length = n) :
    ∃ m gx1 gy1 g2, GridPositions.circular P g1 prm (some (gx, gy)) =
        (Except.ok (m, some (gx1, gy1)), g2) ∧ n ≤ m ∧ m = n ∧
      gx1.length = n ∧ gy1.length = n ∧
      ∃ placed, layoutLoop P prm (nominalSites prm) (P.srand prm.seed) [] = (some placed, g2) ∧
        placed.length = n ∧
        gx1 = placed.map Prod.fst ∧ gy1 = placed.map Prod.snd ∧
        ∀ i, i < n → ∃ p, placed[i]? = some p ∧ gx1[i]? = some p.1 ∧ gy1[i]? = some p.2 := by
  obtain ⟨g0, placed, hl, hlen⟩ := circular_count_eq P g g1 prm n hcount
  refine ⟨n, placed.map Prod.fst, placed.map Prod.snd, g1, ?_, Nat.le_refl n, rfl,
    by simp [hlen], by simp [hlen], placed, hl, hlen, rfl, rfl, ?_⟩
  · unfold GridPositions.circular
    rw [if_neg g0, hl]
    have hb : buffersTooSmall placed.length (some (gx, gy)) = false := by
      simp [buffersTooSmall, hlen, hx, hy]
    simp only [hb, Bool.false_eq_true, if_false]
    rw [emitPoints_some _ _ _ (by omega) (by omega), hlen]
    have d1 : gx.drop n = [] := by rw [← hx]; exact List.drop_length gx
    have d2 : gy.drop n = [] := by rw [← hy]; exact List.drop_length gy
    rw [d1, d2, List.append_nil, List.append_nil]
  · intro i hi
    have hi2 : i < placed.length := by omega
    refine ⟨placed[i], List.getElem?_eq_getElem hi2, ?_, ?_⟩
    · rw [List.getElem?_map, List.getElem?_eq_getElem hi2]; rfl
    · rw [List.getElem?_map, List.getElem?_eq_getElem hi2]; rfl

/-- An instance of C10: seed 10, radius 2, separations 1.4 and errors 0.3 with
the linear congruential generator give 9 elements in both calls, and the fill
call overwrites two zeroed buffers of 9 entries with the 9 placed positions. -/
theorem circular_count_then_fill_witness :
    GridPositions.circular lcgPlacement 0 ⟨10, 2, 7 / 5, 7 / 5, 3 / 10, 3 / 10⟩ none =
      (Except.ok (9, none), 557473224) ∧
    GridPositions.circular lcgPlacement 557473224 ⟨10, 2, 7 / 5, 7 / 5, 3 / 10, 3 / 10⟩
        (some (List.replicate 9 0, List.replicate 9 0)) =
      (Except.ok (9, some
        ([-(11087 / 10000), 33 / 1000, 12179 / 10000, -(6223 / 5000), 69 / 10000, 611 / 400,
          -(2071 / 1250), -(21 / 400), 16877 / 10000],
         [-(8293 / 5000), -(15101 / 10000), -(13571 / 10000), 21 / 200, 501 / 2500,
          -(1347 / 5000), 3181 / 2000, 1861 / 1250, 1753 / 1250])), 557473224) ∧
    ∃ m gx1 gy1 g2, GridPositions.circular lcgPlacement 557473224
        ⟨10, 2, 7 / 5, 7 / 5, 3 / 10, 3 / 10⟩
        (some (List.replicate 9 0, List.replicate 9 0)) =
        (Except.ok (m, some (gx1, gy1)), g2) ∧ 9 ≤ m ∧ m = 9 ∧
      gx1.length = 9 ∧ gy1.length = 9 ∧
      ∃ placed, layoutLoop lcgPlacement ⟨10, 2, 7 / 5, 7 / 5, 3 / 10, 3 / 10⟩
          (nominalSites ⟨10, 2, 7 / 5, 7 / 5, 3 / 10, 3 / 10⟩)
          (lcgPlacement.srand (CircularParams.mk 10 2 (7 / 5) (7 / 5) (3 / 10) (3 / 10)).seed) [] =
          (some placed, g2) ∧
        placed.length = 9 ∧
        gx1 = placed.map Prod.fst ∧ gy1 = placed.map Prod.snd ∧
        ∀ i, i < 9 → ∃ p, placed[i]? = some p ∧ gx1[i]? = some p.1 ∧ gy1[i]? = some p.2 :=
  ⟨by decide!, by decide!,
    circular_count_then_fill lcgPlacement 0 557473224 ⟨10, 2, 7 / 5, 7 / 5, 3 / 10, 3 / 10⟩ 9
      (List.replicate 9 0) (List.replicate 9 0) (by decide!) (by simp) (by simp)⟩

/-! ## Rotation, wavenumber and output records: properties -/

/-- Rotating a point by an angle and then by the opposite angle gives the point
back. -/
theorem transformPoint_round_trip (angle : ℝ) (p : ℝ × ℝ × ℝ) :
    (Matrix3.rotationZ (-angle)).transformPoint ((Matrix3.rotationZ angle).transformPoint p)
      = p := by
  obtain ⟨x, y, z⟩ := p
  have h := Real.sin_sq_add_cos_sq angle
  simp only [Matrix3.transformPoint, Matrix3.rotationZ, Real.cos_neg, Real.sin_neg]
  refine Prod.ext ?_ (Prod.ext ?_ ?_)
  · simp only []; linear_combination x * h
  · simp only []; linear_combination y * h
  · simp

/-- The rotation by angle 0 maps every point to itself. -/
theorem transformPoint_zero (p : ℝ × ℝ × ℝ) :
    (Matrix3.rotationZ 0).transformPoint p = p := by
  obtain ⟨x, y, z⟩ := p
  simp [Matrix3.transformPoint, Matrix3.rotationZ]

/-- C11: for every rotation angle and every sequence of points, rotating the
points about the Z axis by the angle and then by the opposite angle reproduces
the original points (with `z = 0`, their number unchanged); the same holds for
arbitrary points `(x, y, z)`. -/
theorem rotation_round_trip (angle : ℝ) (pts : List (ℝ × ℝ)) (q : List (ℝ × ℝ × ℝ)) :
    (Matrix3.rotationZ (-angle)).transformPoints (rotatePointsZ angle pts) =
      pts.map (fun p => (p.1, p.2, 0)) ∧
    (rotatePointsZ angle pts).length = pts.length ∧
    (Matrix3.rotationZ (-angle)).transformPoints ((Matrix3.rotationZ angle).transformPoints q)
      = q := by
  refine ⟨?_, ?_, ?_⟩
  · simp only [rotatePointsZ, Matrix3.transformPoints, List.map_map]
    apply List.map_congr_left
    intro p _
    exact transformPoint_round_trip angle (p.1, p.2, 0)
  · simp [rotatePointsZ, Matrix3.transformPoints]
  · simp only [Matrix3.transformPoints, List.map_map]
    conv_rhs => rw [← List.map_id q]
    apply List.map_congr_left
    intro p _
    exact transformPoint_round_trip angle p

/-- C12: the rotation about the Z axis by angle 0 is the identity: for every
sequence of `(x, y)` points the rotated points have the same `x` and `y` and
`z = 0`, point by point. -/
theorem rotation_zero_identity (pts : List (ℝ × ℝ)) :
    rotatePointsZ 0 pts = pts.map (fun p => (p.1, p.2, 0)) ∧
    (rotatePointsZ 0 pts).map (fun p => (p.1, p.2.1)) = pts ∧
    (∀ p, p ∈ rotatePointsZ 0 pts → p.2.2 = 0) := by
  have h : rotatePointsZ 0 pts = pts.map (fun p => (p.1, p.2, 0)) := by
    simp only [rotatePointsZ, Matrix3.transformPoints, List.map_map]
    apply List.map_congr_left
    intro p _
    exact transformPoint_zero (p.1, p.2, 0)
  refine ⟨h, ?_, ?_⟩
  · rw [h, List.map_map]
    conv_rhs => rw [← List.map_id pts]
    apply List.map_congr_left
    intro p _
    rfl
  · intro p hp
    rw [h] at hp
    obtain ⟨a, _, rfl⟩ := List.mem_map.mp hp
    rfl

/-- C19: in both frequency sweeps the seven file names are pairwise distinct,
every formatted name is shorter than the 200-character buffer, so `snprintf`
stores it without truncation, and one file is opened per frequency. -/
theorem sweep_file_names_distinct :
    (sweepFileNames perturbedStem).Nodup ∧ (sweepFileNames scatteredStem).Nodup ∧
    (sweepFileNames perturbedStem).length = 7 ∧ (sweepFileNames scatteredStem).length = 7 ∧
    (∀ f, f ∈ freq → (fileNameText perturbedStem f).length < 200 ∧
      snprintf 200 (fileNameText perturbedStem f) = fileNameText perturbedStem f ∧
      (fileNameText scatteredStem f).length < 200 ∧
      snprintf 200 (fileNameText scatteredStem f) = fileNameText scatteredStem f) ∧
    sweepFileNames perturbedStem =
      ["beamPattern_70.dat".toList, "beamPattern_115.dat".toList,
       "beamPattern_150.dat".toList, "beamPattern_200.dat".toList,
       "beamPattern_240.dat".toList, "beamPattern_300.dat".toList,
       "beamPattern_450.dat".toList] := by
  refine ⟨by decide!, by decide!, by decide!, by decide!, ?_, by decide!⟩
  have h : ∀ f ∈ freq, decide ((fileNameText perturbedStem f).length < 200 ∧
      snprintf 200 (fileNameText perturbedStem f) = fileNameText perturbedStem f ∧
      (fileNameText scatteredStem f).length < 200 ∧
      snprintf 200 (fileNameText scatteredStem f) = fileNameText scatteredStem f) = true := by
    decide!
  intro f hf
  exact of_decide_eq_true (h f hf)

/-- The first `1 + strlen` characters of a C string are the characters before
the first NUL followed by that NUL. -/
theorem take_strlen_succ (s : List Char) (h : NUL ∈ s) :
    s.take (1 + strlen s) = (s.takeWhile fun c => c != NUL) ++ [NUL] := by
  induction s with
  | nil => simp at h
  | cons c t ih =>
    by_cases hc : c = NUL
    · subst hc
      simp [strlen, List.takeWhile_cons]
    · have ht : NUL ∈ t := by
        rcases List.mem_cons.mp h with h1 | h1
        · exact absurd h1.symm hc
        · exact h1
      have hne : (c != NUL) = true := by simpa using hc
      have e : strlen (c :: t) = strlen t + 1 := by
        simp [strlen, List.takeWhile_cons, hne]
      rw [e, List.takeWhile_cons, if_pos hne, ← Nat.add_assoc, List.take_succ_cons, ih ht]
      rfl

/-- The calls made by `oskar_settings_load` when the path is saved. -/
theorem settings_load_append_trace {σ : Type} (OSKAR_SUCCESS : Int)
    (call : LoadCall → σ → Int × σ) (w : σ)
    (filename : List Char) (src : List Char) (n : Nat) (code : Int)
    (h : (LoadCall.mem_append_raw src n, code) ∈ (oskar_settings_load OSKAR_SUCCESS call w filename).2.2) :
    src = filename ∧ n = 1 + strlen filename ∧
    (oskar_settings_load OSKAR_SUCCESS call w filename).2.2 =
      [(LoadCall.settings_init, 0), (LoadCall.load_observation filename, 0),
       (LoadCall.load_simulator filename, 0), (LoadCall.load_sky filename, 0),
       (LoadCall.load_telescope filename, 0), (LoadCall.load_image filename, 0),
       (LoadCall.load_beam_pattern filename, 0),
       (LoadCall.mem_append_raw filename (1 + strlen filename), code)] := by
  revert h
  unfold oskar_settings_load
  simp only []
  generalize call LoadCall.settings_init w = r1
  by_cases h1 : r1.1 ≠ 0
  · simp_all
  simp only [h1, if_false]
  rw [ne_eq, not_not] at h1
  generalize call (LoadCall.load_observation filename) r1.2 = r2
  by_cases h2 : r2.1 ≠ 0
  · simp_all
  simp only [h2, if_false]
  rw [ne_eq, not_not] at h2
  generalize call (LoadCall.load_simulator filename) r2.2 = r3
  by_cases h3 : r3.1 ≠ 0
  · simp_all
  simp only [h3, if_false]
  rw [ne_eq, not_not] at h3
  generalize call (LoadCall.load_sky filename) r3.2 = r4
  by_cases h4 : r4.1 ≠ 0
  · simp_all
  simp only [h4, if_false]
  rw [ne_eq, not_not] at h4
  generalize call (LoadCall.load_telescope filename) r4.2 = r5
  by_cases h5 : r5.1 ≠ 0
  · simp_all
  simp only [h5, if_false]
  rw [ne_eq, not_not] at h5
  generalize call (LoadCall.load_image filename) r5.2 = r6
  by_cases h6 : r6.1 ≠ 0
  · simp_all
  simp only [h6, if_false]
  rw [ne_eq, not_not] at h6
  generalize call (LoadCall.load_beam_pattern filename) r6.2 = r7
  by_cases h7 : r7.1 ≠ 0
  · simp_all
  simp only [h7, if_false]
  rw [ne_eq, not_not] at h7
  generalize call (LoadCall.mem_append_raw filename (1 + strlen filename)) r7.2 = r8
  by_cases h8 : r8.1 ≠ 0
  · simp_all
  simp only [h8, if_false]
  rw [ne_eq, not_not] at h8
  simp_all

/-- The path is saved whenever the last group, the beam pattern settings, was
loaded without error. -/
theorem settings_load_append_made {σ : Type} (OSKAR_SUCCESS : Int)
    (call : LoadCall → σ → Int × σ) (w : σ)
    (filename : List Char)
    (h : (LoadCall.load_beam_pattern filename, (0 : Int)) ∈
      (oskar_settings_load OSKAR_SUCCESS call w filename).2.2) :
    ∃ code, (LoadCall.mem_append_raw filename (1 + strlen filename), code) ∈
      (oskar_settings_load OSKAR_SUCCESS call w filename).2.2 := by
  revert h
  unfold oskar_settings_load
  simp only []
  generalize call LoadCall.settings_init w = r1
  by_cases h1 : r1.1 ≠ 0
  · simp_all [eq_comm]
  simp only [h1, if_false]
  rw [ne_eq, not_not] at h1
  generalize call (LoadCall.load_observation filename) r1.2 = r2
  by_cases h2 : r2.1 ≠ 0
  · simp_all [eq_comm]
  simp only [h2, if_false]
  rw [ne_eq, not_not] at h2
  generalize call (LoadCall.load_simulator filename) r2.2 = r3
  by_cases h3 : r3.1 ≠ 0
  · simp_all [eq_comm]
  simp only [h3, if_false]
  rw [ne_eq, not_not] at h3
  generalize call (LoadCall.load_sky filename) r3.2 = r4
  by_cases h4 : r4.1 ≠ 0
  · simp_all [eq_comm]
  simp only [h4, if_false]
  rw [ne_eq, not_not] at h4
  generalize call (LoadCall.load_telescope filename) r4.2 = r5
  by_cases h5 : r5.1 ≠ 0
  · simp_all [eq_comm]
  simp only [h5, if_false]
  rw [ne_eq, not_not] at h5
  generalize call (LoadCall.load_image filename) r5.2 = r6
  by_cases h6 : r6.1 ≠ 0
  · simp_all [eq_comm]
  simp only [h6, if_false]
  rw [ne_eq, not_not] at h6
  generalize call (LoadCall.load_beam_pattern filename) r6.2 = r7
  by_cases h7 : r7.1 ≠ 0
  · simp_all [eq_comm]
  simp only [h7, if_false]
  rw [ne_eq, not_not] at h7
  generalize call (LoadCall.mem_append_raw filename (1 + strlen filename)) r7.2 = r8
  by_cases h8 : r8.1 ≠ 0
  · simp_all [eq_comm]
  simp only [h8, if_false]
  rw [ne_eq, not_not] at h8
  simp_all

/-- C18: for a file name that is a C string (it contains its terminating NUL),
`oskar_settings_load` saves the path only after the initialisation and all six
settings groups returned zero (the save call is the eighth and last call, made
after the seven others returned zero), it is made whenever the last group
loaded without error, and it appends `1 + strlen(filename)` characters, which
are the file name followed by its terminating NUL. -/
theorem settings_load_saves_path {σ : Type} (OSKAR_SUCCESS : Int)
    (call : LoadCall → σ → Int × σ) (w : σ)
    (filename : List Char) (hstr : NUL ∈ filename) :
    (∀ src n code,
      (LoadCall.mem_append_raw src n, code) ∈ (oskar_settings_load OSKAR_SUCCESS call w filename).2.2 →
      src = filename ∧ n = 1 + strlen filename ∧
      src.take n = (filename.takeWhile fun c => c != NUL) ++ [NUL] ∧
      (src.take n).length = 1 + strlen filename ∧
      (oskar_settings_load OSKAR_SUCCESS call w filename).2.2 =
        [(LoadCall.settings_init, 0), (LoadCall.load_observation filename, 0),
         (LoadCall.load_simulator filename, 0), (LoadCall.load_sky filename, 0),
         (LoadCall.load_telescope filename, 0), (LoadCall.load_image filename, 0),
         (LoadCall.load_beam_pattern filename, 0),
         (LoadCall.mem_append_raw filename (1 + strlen filename), code)]) ∧
    ((LoadCall.load_beam_pattern filename, (0 : Int)) ∈
        (oskar_settings_load OSKAR_SUCCESS call w filename).2.2 →
      ∃ code, (LoadCall.mem_append_raw filename (1 + strlen filename), code) ∈
        (oskar_settings_load OSKAR_SUCCESS call w filename).2.2) := by
  refine ⟨?_, settings_load_append_made OSKAR_SUCCESS call w filename⟩
  intro src n code h
  obtain ⟨h1, h2, h3⟩ := settings_load_append_trace OSKAR_SUCCESS call w filename src n code h
  subst h1 h2
  refine ⟨rfl, rfl, take_strlen_succ src hstr, ?_, h3⟩
  rw [take_strlen_succ src hstr]
  simp [strlen]
  omega

/-- An instance of C18: the file name `a.ini` and callees that all succeed. -/
theorem settings_load_saves_path_witness :
    (oskar_settings_load 0 (fun _ (u : Unit) => ((0 : Int), u)) ()
        ("a.ini".toList ++ [NUL])).2.2.getLast? =
      some (LoadCall.mem_append_raw ("a.ini".toList ++ [NUL]) 6, 0) ∧
    (∀ src n code, (LoadCall.mem_append_raw src n, code) ∈
        (oskar_settings_load 0 (fun _ (u : Unit) => ((0 : Int), u)) ()
          ("a.ini".toList ++ [NUL])).2.2 →
      src.take n = "a.ini".toList ++ [NUL]) := by
  refine ⟨by decide, ?_⟩
  intro src n code h
  have hw := (settings_load_saves_path 0 (fun _ (u : Unit) => ((0 : Int), u)) ()
    ("a.ini".toList ++ [NUL]) (by decide)).1 src n code h
  rw [hw.2.2.1]
  decide

/-- The block guarded by `if (log->file)`, in closed form: the value stored to
`*size` is the size of the flushed file, and a buffer is returned exactly when
that size is non-zero, the allocation succeeds and the read is not short; the
buffer then holds the whole file. -/
theorem readLogFile_eq (malloc : Nat → Bool) (f : LogStream) :
    (readLogFile malloc f).2.1 = ((f.contents ++ f.pending).length : Int) ∧
    (readLogFile malloc f).1 =
      if (f.contents ++ f.pending).length ≠ 0 ∧ malloc (f.contents ++ f.pending).length = true ∧
          (f.fflush.fseekEnd.rewind.fread (f.contents ++ f.pending).length).1.length =
            (f.contents ++ f.pending).length
      then some (f.contents ++ f.pending) else none := by
  have hsz : f.fflush.fseekEnd.ftell = ((f.contents ++ f.pending).length : Int) := rfl
  have hrd : (f.fflush.fseekEnd.rewind.fread (f.contents ++ f.pending).length).1 =
      (f.contents ++ f.pending).take f.readLimit := by
    simp only [LogStream.fread, LogStream.rewind, LogStream.fseekEnd, LogStream.fflush,
      List.drop_zero, List.take_length]
  unfold readLogFile
  simp only [hsz, Int.toNat_ofNat, hrd]
  by_cases h0 : (f.contents ++ f.pending).length = 0
  · simp [h0]
  · have h0i : ((f.contents ++ f.pending).length : Int) ≠ 0 := by exact_mod_cast h0
    rw [if_pos h0i]
    by_cases hm : malloc (f.contents ++ f.pending).length = true
    · rw [if_pos hm]
      by_cases hr : ((f.contents ++ f.pending).take f.readLimit).length =
          (f.contents ++ f.pending).length
      · have hfull : (f.contents ++ f.pending).take f.readLimit = f.contents ++ f.pending := by
          apply List.take_of_length_le
          rw [List.length_take] at hr
          omega
        rw [if_neg (not_not.mpr hr), if_pos ⟨h0, hm, hr⟩]
        exact ⟨rfl, congrArg some hfull⟩
      · rw [if_pos hr, if_neg (fun h => hr h.2.2)]
        exact ⟨rfl, rfl⟩
    · rw [if_neg hm, if_neg (fun h => hm h.2.1)]
      exact ⟨rfl, rfl⟩

/-- C17: `oskar_log_file_data` returns a non-null buffer if and only if `size`
is non-null, the log exists and has an open file, the size of the (flushed)
file is non-zero, the allocation of that many bytes succeeds and the read
returns exactly that many bytes; whenever it returns a buffer, `*size` is the
file size and the buffer holds the file's first `*size` bytes, read from the
start of the file. -/
theorem log_file_data_nonnull_iff (openmp : Bool) (malloc : Nat → Bool) (log : Option Log)
    (size : Option Int) :
    ((oskar_log_file_data openmp malloc log size).data ≠ none ↔
      size ≠ none ∧ ∃ lg f, log = some lg ∧ lg.file = some f ∧
        (f.contents ++ f.pending).length ≠ 0 ∧
        malloc (f.contents ++ f.pending).length = true ∧
        (f.fflush.fseekEnd.rewind.fread (f.contents ++ f.pending).length).1.length =
          (f.contents ++ f.pending).length) ∧
    (∀ buf, (oskar_log_file_data openmp malloc log size).data = some buf →
      ∃ lg f, log = some lg ∧ lg.file = some f ∧
        (oskar_log_file_data openmp malloc log size).size =
          some ((f.contents ++ f.pending).length : Int) ∧
        buf.length = (f.contents ++ f.pending).length ∧
        buf = (f.contents ++ f.pending).take (f.contents ++ f.pending).length) := by
  cases size with
  | none => simp [oskar_log_file_data]
  | some size0 =>
    cases log with
    | none => simp [oskar_log_file_data]
    | some lg =>
      obtain ⟨file⟩ := lg
      cases file with
      | none => simp [oskar_log_file_data]
      | some f =>
        obtain ⟨hs, hd⟩ := readLogFile_eq malloc f
        simp only [oskar_log_file_data, hs, hd]
        constructor
        · constructor
          · intro h
            refine ⟨by simp, ⟨some f⟩, f, rfl, rfl, ?_⟩
            by_contra hc
            exact h (if_neg hc)
          · rintro ⟨_, lg, g, hlg, hg, hc⟩
            injection hlg with hlg
            subst hlg
            injection hg with hg
            subst hg
            rw [if_pos hc]
            simp
        · intro buf hbuf
          refine ⟨⟨some f⟩, f, rfl, rfl, rfl, ?_⟩
          split at hbuf
          · injection hbuf with hbuf
            subst hbuf
            exact ⟨rfl, (List.take_length _).symm⟩
          · cases hbuf

/-- C20: `oskar_log_file_data` never returns while holding the log mutex: the
mutex operations of a call are either none or one lock followed by one unlock,
so the mutex is free again at the return; when the code is built with OpenMP
and both `size` and `log` are non-null (the paths with no file, an empty file,
a failed allocation, a short read and a complete read), they are exactly one
lock followed by one unlock. -/
theorem log_file_data_mutex_released (openmp : Bool) (malloc : Nat → Bool)
    (log : Option Log) (size : Option Int) :
    heldAfter (oskar_log_file_data openmp malloc log size).mutex = 0 ∧
    ((oskar_log_file_data openmp malloc log size).mutex = [] ∨
      (oskar_log_file_data openmp malloc log size).mutex =
        [MutexOp.lock, MutexOp.unlock]) ∧
    (openmp = true → size ≠ none → log ≠ none →
      (oskar_log_file_data openmp malloc log size).mutex =
        [MutexOp.lock, MutexOp.unlock]) ∧
    ((oskar_log_file_data openmp malloc log size).mutex.count MutexOp.lock =
      (oskar_log_file_data openmp malloc log size).mutex.count MutexOp.unlock) := by
  cases size with
  | none => simp [oskar_log_file_data, heldAfter]
  | some size0 =>
    cases log with
    | none => simp [oskar_log_file_data, heldAfter]
    | some lg =>
      cases openmp <;> simp [oskar_log_file_data, heldAfter]

/-! ## Log file frame, device log, settings view and test arrays: properties -/

/-- C21: called with a non-null `size`, `oskar_log_file_data` returns null and
leaves `*size` unchanged when the log is null or has no open file; when the
file exists, `*size` holds the file size, and the function returns null when
the allocation fails or the read is short. -/
theorem log_file_data_size_frame (openmp : Bool) (malloc : Nat → Bool) (size0 : Int) :
    ((oskar_log_file_data openmp malloc none (some size0)).data = none ∧
      (oskar_log_file_data openmp malloc none (some size0)).size = some size0) ∧
    (∀ lg : Log, lg.file = none →
      (oskar_log_file_data openmp malloc (some lg) (some size0)).data = none ∧
      (oskar_log_file_data openmp malloc (some lg) (some size0)).size = some size0) ∧
    (∀ (lg : Log) (f : LogStream), lg.file = some f →
      (oskar_log_file_data openmp malloc (some lg) (some size0)).size =
        some ((f.contents ++ f.pending).length : Int) ∧
      ((f.contents ++ f.pending).length ≠ 0 →
        (malloc (f.contents ++ f.pending).length = false ∨
          (f.fflush.fseekEnd.rewind.fread (f.contents ++ f.pending).length).1.length ≠
            (f.contents ++ f.pending).length) →
        (oskar_log_file_data openmp malloc (some lg) (some size0)).data = none)) := by
  refine ⟨⟨rfl, rfl⟩, ?_, ?_⟩
  · intro lg h
    simp [oskar_log_file_data, h]
  · intro lg f h
    obtain ⟨hs, hd⟩ := readLogFile_eq malloc f
    simp only [oskar_log_file_data, h, hs, hd]
    refine ⟨trivial, ?_⟩
    intro _ hfail
    apply if_neg
    rintro ⟨_, hm, hr⟩
    rcases hfail with h1 | h1
    · rw [hm] at h1; cases h1
    · exact h1 hr

/-- C22: for a CUDA device whose runtime and driver version integers are
`1000 * major + 10 * minor` with `major ≥ 0` and `0 ≤ minor ≤ 9`,
`oskar_device_log_details` logs both versions with the arguments `major` and
`minor` of the format `%d.%d`. -/
theorem device_log_cuda_version (device : Device) (major1 minor1 major2 minor2 : Int)
    (hplat : device.platform_type = 'C')
    (hM1 : 0 ≤ major1) (hm1 : 0 ≤ minor1) (hm1u : minor1 ≤ 9)
    (hM2 : 0 ≤ major2) (hm2 : 0 ≤ minor2) (hm2u : minor2 ≤ 9)
    (hv1 : device.cuda_runtime_version = 1000 * major1 + 10 * minor1)
    (hv2 : device.cuda_driver_version = 1000 * major2 + 10 * minor2) :
    (device.cuda_runtime_version.tdiv 1000 = major1 ∧
      (device.cuda_runtime_version.tmod 100).tdiv 10 = minor1) ∧
    (device.cuda_driver_version.tdiv 1000 = major2 ∧
      (device.cuda_driver_version.tmod 100).tdiv 10 = minor2) ∧
    LogCall.value 'M' 1 "CUDA runtime version" "%d.%d" [LogArg.int major1, LogArg.int minor1] ∈
      oskar_device_log_details device ∧
    LogCall.value 'M' 1 "CUDA driver version" "%d.%d" [LogArg.int major2, LogArg.int minor2] ∈
      oskar_device_log_details device := by
  have key : ∀ v major minor : Int, 0 ≤ major → 0 ≤ minor → minor ≤ 9 →
      v = 1000 * major + 10 * minor →
      v.tdiv 1000 = major ∧ (v.tmod 100).tdiv 10 = minor := by
    intro v major minor h1 h2 h3 hv
    have hv0 : 0 ≤ v := by omega
    rw [Int.tdiv_eq_ediv hv0 (by norm_num), Int.tmod_eq_emod hv0 (by norm_num),
      Int.tdiv_eq_ediv (Int.emod_nonneg _ (by norm_num)) (by norm_num)]
    omega
  obtain ⟨a1, a2⟩ := key _ major1 minor1 hM1 hm1 hm1u hv1
  obtain ⟨b1, b2⟩ := key _ major2 minor2 hM2 hm2 hm2u hv2
  refine ⟨⟨a1, a2⟩, ⟨b1, b2⟩, ?_, ?_⟩
  · unfold oskar_device_log_details
    simp [hplat, a1, a2]
  · unfold oskar_device_log_details
    simp [hplat, b1, b2]

/-- An instance of C22: runtime version 11020 and driver version 11040 are
logged as 11.2 and 11.4. -/
theorem device_log_cuda_version_witness :
    LogCall.value 'M' 1 "CUDA runtime version" "%d.%d" [LogArg.int 11, LogArg.int 2] ∈
      oskar_device_log_details exampleCudaDevice ∧
    LogCall.value 'M' 1 "CUDA driver version" "%d.%d" [LogArg.int 11, LogArg.int 4] ∈
      oskar_device_log_details exampleCudaDevice :=
  (device_log_cuda_version exampleCudaDevice 11 2 11 4 rfl (by decide) (by decide) (by decide)
    (by decide) (by decide) (by decide) (by decide) (by decide)).2.2

/-- The labels of the value lines of `oskar_device_log_details`, in order. -/
theorem device_log_labels (device : Device) :
    (oskar_device_log_details device).map LogCall.label =
      [none, some "Vendor", some "Compute platform"] ++
      (if device.platform_type = 'C' then
        [some "CUDA runtime version", some "CUDA driver version"]
      else if device.platform_type = 'O' then
        [some "OpenCL version", some "OpenCL driver version"]
      else []) ++
      (if device.compute_capability.1 > 0 then [some "CUDA compute capability"] else []) ++
      [some "Supports double precision"] ++
      (if device.platform_type = 'O' then
        [some "Supports 32-bit atomics", some "Supports 64-bit atomics"]
      else []) ++
      (if device.global_mem_free_size > 0 then [some "Free global memory (MiB)"] else []) ++
      [some "Global memory size (MiB)"] ++
      (if device.max_mem_alloc_size > 0 then [some "Max allocation size (MiB)"] else []) ++
      (if device.global_mem_cache_size > 0 then [some "Global memory cache size (kiB)"]
        else []) ++
      [some "Local/shared memory size (kiB)", some "Number of compute units"] ++
      (if device.num_cores > 0 then [some "Number of cores"] else []) ++
      [some "Clock speed (MHz)"] ++
      (if device.memory_clock_freq_kHz > 0 then [some "Memory clock speed (MHz)"] else []) ++
      (if device.memory_bus_width > 0 then [some "Memory bus width"] else []) ++
      (if device.num_registers > 0 then [some "Registers per block"] else []) ++
      (if device.warp_size > 0 then [some "Warp size"] else []) ++
      [some "Max work group size", some "Max work item sizes"] := by
  unfold oskar_device_log_details
  simp only [List.map_append, apply_ite (List.map LogCall.label), List.map_cons, List.map_nil,
    LogCall.label]

/-- A conditional line with another label does not count. -/
theorem count_ite_other (c : Prop) [Decidable c] (a b : Option String) (h : b ≠ a) :
    (if c then [b] else []).count a = 0 := by
  split
  · exact List.count_eq_zero.mpr (by simpa using h.symm)
  · rfl

/-- C24: `oskar_device_log_details` labels the compute platform `CUDA` exactly
when `platform_type` is `'C'` and `OpenCL` for every other value; each of the
two CUDA version lines is logged once when `platform_type` is `'C'` and not at
all otherwise; each of the two OpenCL version lines and of the two
atomics-support lines is logged once when `platform_type` is `'O'` and not at
all otherwise, so any other platform gets the label `OpenCL` and none of
these lines. -/
theorem device_log_platform_lines (device : Device) :
    (LogCall.value 'M' 1 "Compute platform" "%s" [LogArg.str "CUDA"] ∈
      oskar_device_log_details device ↔ device.platform_type = 'C') ∧
    (LogCall.value 'M' 1 "Compute platform" "%s" [LogArg.str "OpenCL"] ∈
      oskar_device_log_details device ↔ device.platform_type ≠ 'C') ∧
    (∀ L, L ∈ ["CUDA runtime version", "CUDA driver version"] →
      ((oskar_device_log_details device).map LogCall.label).count (some L) =
        if device.platform_type = 'C' then 1 else 0) ∧
    (∀ L, L ∈ ["OpenCL version", "OpenCL driver version", "Supports 32-bit atomics",
        "Supports 64-bit atomics"] →
      ((oskar_device_log_details device).map LogCall.label).count (some L) =
        if device.platform_type = 'O' then 1 else 0) := by
  refine ⟨?_, ?_, ?_, ?_⟩
  · unfold oskar_device_log_details
    by_cases h : device.platform_type = 'C'
    · simp [h]
    · by_cases h2 : device.platform_type = 'O' <;> simp [h, h2]
  · unfold oskar_device_log_details
    by_cases h : device.platform_type = 'C'
    · simp [h]
    · by_cases h2 : device.platform_type = 'O' <;> simp [h, h2]
  · intro L hL
    rw [device_log_labels]
    simp only [List.mem_cons, List.mem_singleton, List.not_mem_nil, or_false] at hL
    by_cases h : device.platform_type = 'C'
    · have h2 : device.platform_type ≠ 'O' := by rw [h]; decide
      rcases hL with rfl | rfl <;>
        simp [h, List.count_append, List.count_cons, count_ite_other]
    · by_cases h2 : device.platform_type = 'O' <;> rcases hL with rfl | rfl <;>
        simp [h, h2, List.count_append, List.count_cons, count_ite_other]
  · intro L hL
    rw [device_log_labels]
    simp only [List.mem_cons, List.mem_singleton, List.not_mem_nil, or_false] at hL
    by_cases h : device.platform_type = 'C'
    · have h2 : device.platform_type ≠ 'O' := by rw [h]; decide
      rcases hL with rfl | rfl | rfl | rfl <;>
        simp [h, List.count_append, List.count_cons, count_ite_other]
    · by_cases h2 : device.platform_type = 'O' <;> rcases hL with rfl | rfl | rfl | rfl <;>
        simp [h, h2, List.count_append, List.count_cons, count_ite_other]

/-- The guard `rowCount(idx) > 0` makes no difference: a pass over no rows does
nothing. -/
theorem saveRestore_guard (restore : Bool) (children : List SettingsItem) (l : List String) :
    (if children.length > 0 then saveRestoreExpanded restore children l
      else (⟨children, l, []⟩ : ExpandedPass)) = saveRestoreExpanded restore children l := by
  cases children with
  | nil => simp [saveRestoreExpanded]
  | cons a t => simp

/-- A save pass leaves the tree as it is, appends the keys of the expanded items
in pre-order and visits the items in pre-order. -/
theorem save_pass_eq (tree : List SettingsItem) (l : List String) :
    saveRestoreExpanded false tree l =
      ⟨tree, l ++ ((allItems tree).filter fun p => p.2).map Prod.fst,
        (allItems tree).map Prod.fst⟩ := by
  refine saveRestoreExpanded.induct false
    (fun tree l => saveRestoreExpanded false tree l =
      ⟨tree, l ++ ((allItems tree).filter fun p => p.2).map Prod.fst,
        (allItems tree).map Prod.fst⟩) ?_ ?_ tree l
  · intro l
    simp [saveRestoreExpanded, allItems]
  · intro key expanded children rest l list1 sub ih1 _ ih2
    have hsub : sub = saveRestoreExpanded false children list1 :=
      saveRestore_guard false children list1
    rw [hsub, ih1] at ih2
    rw [saveRestoreExpanded]
    simp only [saveRestore_guard]
    have hl : list1 = if expanded = true then l ++ [key] else l := by
      simp [list1]
    simp only [Bool.false_eq_true, if_false]
    rw [← hl, ih1]
    simp only []
    rw [ih2]
    cases expanded <;> simp [allItems, hl, List.filter_cons]

/-- A restore pass expands the items whose key is in the list, leaves the list
as it is and visits the items in pre-order. -/
theorem restore_pass_eq (tree : List SettingsItem) (l : List String) :
    saveRestoreExpanded true tree l =
      ⟨expandListed l tree, l, (allItems tree).map Prod.fst⟩ := by
  refine saveRestoreExpanded.induct true
    (fun tree l => saveRestoreExpanded true tree l =
      ⟨expandListed l tree, l, (allItems tree).map Prod.fst⟩) ?_ ?_ tree l
  · intro l
    simp [saveRestoreExpanded, allItems, expandListed]
  · intro key expanded children rest l list1 sub ih1 _ ih2
    have hl : list1 = l := by simp [list1]
    have hsub : sub = saveRestoreExpanded true children list1 :=
      saveRestore_guard true children list1
    rw [hsub, ih1] at ih2
    rw [hl] at ih1 ih2
    rw [saveRestoreExpanded]
    simp only [saveRestore_guard, if_true]
    rw [ih1]
    simp only []
    rw [ih2]
    by_cases hm : key ∈ l <;> cases expanded <;> simp [allItems, expandListed, hm]

/-- When keys are pairwise distinct, two entries with the same key agree. -/
theorem flag_unique (items : List (String × Bool)) (h : (items.map Prod.fst).Nodup)
    (k : String) (e1 e2 : Bool) (h1 : (k, e1) ∈ items) (h2 : (k, e2) ∈ items) : e1 = e2 := by
  induction items with
  | nil => simp at h1
  | cons a t ih =>
    rw [List.map_cons, List.nodup_cons] at h
    rcases List.mem_cons.mp h1 with r1 | r1 <;> rcases List.mem_cons.mp h2 with r2 | r2
    · exact (Prod.mk.inj (r1.trans r2.symm)).2
    · exfalso
      apply h.1
      rw [← r1]
      exact List.mem_map.mpr ⟨(k, e2), r2, rfl⟩
    · exfalso
      apply h.1
      rw [← r2]
      exact List.mem_map.mpr ⟨(k, e1), r1, rfl⟩
    · exact ih h.2 r1 r2

/-- Expanding the listed items changes nothing when every item whose key is
listed is expanded already. -/
theorem expandListed_fixed (l : List String) (tree : List SettingsItem) :
    (∀ k e, (k, e) ∈ allItems tree → k ∈ l → e = true) → expandListed l tree = tree := by
  refine expandListed.induct l
    (fun tree => (∀ k e, (k, e) ∈ allItems tree → k ∈ l → e = true) →
      expandListed l tree = tree) ?_ ?_ tree
  · intro _
    simp [expandListed]
  · intro key expanded children rest ih1 ih2 h
    rw [expandListed]
    have hc : expandListed l children = children := by
      apply ih1
      intro k e hk
      exact h k e (by simp [allItems, hk])
    have hr : expandListed l rest = rest := by
      apply ih2
      intro k e hk
      exact h k e (by simp [allItems, hk])
    rw [hc, hr]
    by_cases hm : key ∈ l
    · have := h key expanded (by simp [allItems]) hm
      simp [this]
    · simp [hm]

/-- The flags after expanding the listed items, in pre-order. -/
theorem allItems_expandListed (l : List String) (tree : List SettingsItem) :
    allItems (expandListed l tree) =
      (allItems tree).map fun p => (p.1, p.2 || l.contains p.1) := by
  refine expandListed.induct l
    (fun tree => allItems (expandListed l tree) =
      (allItems tree).map fun p => (p.1, p.2 || l.contains p.1)) ?_ ?_ tree
  · simp [expandListed, allItems]
  · intro key expanded children rest ih1 ih2
    rw [expandListed]
    simp only [allItems, ih1, ih2, List.map_cons, List.map_append]

/-- C26: for every finite settings tree, `saveRestoreExpanded` in save mode
returns (the model function is total), visits every item exactly once, in
depth-first pre-order and whether or not its parent is expanded, leaves the
expansion state as it is, and appends to the list exactly the keys of the
expanded items in depth-first pre-order. -/
theorem save_pass_preorder (tree : List SettingsItem) (l : List String) :
    (saveRestoreExpanded false tree l).visited = (allItems tree).map Prod.fst ∧
    (saveRestoreExpanded false tree l).visited.length = (allItems tree).length ∧
    (saveRestoreExpanded false tree l).list =
      l ++ ((allItems tree).filter fun p => p.2).map Prod.fst ∧
    (saveRestoreExpanded false tree l).items = tree ∧
    (saveExpanded tree).2 = ((allItems tree).filter fun p => p.2).map Prod.fst := by
  unfold saveExpanded
  rw [save_pass_eq, save_pass_eq]
  simp

/-- C25: on a tree whose item keys are pairwise distinct, `saveExpanded`
followed by `restoreExpanded` leaves the expansion state of every item
unchanged; for any list, restore mode expands exactly the items whose key is in
the list (an item is expanded afterwards when it was expanded before or its key
is listed, so no item is collapsed) and does not modify the list. -/
theorem save_then_restore (tree : List SettingsItem)
    (hkeys : ((allItems tree).map Prod.fst).Nodup) :
    restoreExpanded (saveExpanded tree).1 (saveExpanded tree).2 = tree ∧
    (∀ l, (saveRestoreExpanded true tree l).list = l) ∧
    (∀ l, allItems (restoreExpanded tree l) =
      (allItems tree).map fun p => (p.1, p.2 || l.contains p.1)) ∧
    (∀ l, (allItems (restoreExpanded tree l)).map Prod.fst = (allItems tree).map Prod.fst) := by
  refine ⟨?_, ?_, ?_, ?_⟩
  · unfold restoreExpanded saveExpanded
    rw [save_pass_eq, restore_pass_eq]
    simp only [List.nil_append]
    apply expandListed_fixed
    intro k e hk hmem
    obtain ⟨p, hp, hpk⟩ := List.mem_map.mp hmem
    obtain ⟨hp1, hp2⟩ := List.mem_filter.mp hp
    have hp' : (k, true) ∈ allItems tree := by
      have : p = (k, true) := Prod.ext hpk (by simpa using hp2)
      rw [← this]; exact hp1
    exact flag_unique (allItems tree) hkeys k e true hk hp'
  · intro l
    rw [restore_pass_eq]
  · intro l
    unfold restoreExpanded
    rw [restore_pass_eq]
    exact allItems_expandListed l tree
  · intro l
    unfold restoreExpanded
    rw [restore_pass_eq]
    simp only [allItems_expandListed, List.map_map]
    rfl

/-- An instance of C25: a tree of four items with distinct keys, two of them
expanded, one of these under a collapsed parent. -/
theorem save_then_restore_witness :
    restoreExpanded
      (saveExpanded [SettingsItem.mk "sky" true [SettingsItem.mk "sky/file" false
        [SettingsItem.mk "sky/file/path" true []]], SettingsItem.mk "image" false []]).1
      (saveExpanded [SettingsItem.mk "sky" true [SettingsItem.mk "sky/file" false
        [SettingsItem.mk "sky/file/path" true []]], SettingsItem.mk "image" false []]).2 =
      [SettingsItem.mk "sky" true [SettingsItem.mk "sky/file" false
        [SettingsItem.mk "sky/file/path" true []]], SettingsItem.mk "image" false []] :=
  (save_then_restore [SettingsItem.mk "sky" true [SettingsItem.mk "sky/file" false
    [SettingsItem.mk "sky/file/path" true []]], SettingsItem.mk "image" false []]
    (by simp [allItems])).1

set_option maxRecDepth 100000 in
/-- The initialiser of `ax` has 1000 literals. -/
theorem test_random_ax_length : test_random.ax.length = 1000 := by
  rw [test_random.ax, List.length_map]
  rfl

set_option maxRecDepth 100000 in
/-- The initialiser of `ay` has 1000 literals. -/
theorem test_random_ay_length : test_random.ay.length = 1000 := by
  rw [test_random.ay, List.length_map]
  rfl

/-- C27: the hard-coded arrays have the lengths the kernel calls assume: in
`test_random` the arrays `ax` and `ay` hold exactly `na = 1000` values each,
and in `test_scattered` the arrays `slon` and `slat` hold `ns = 13` values
each, so every index below `na` (below `ns`) lies inside both arrays, and the
image buffer of `2 * ns` entries holds 26. -/
theorem test_array_lengths :
    test_random.na = 1000 ∧ test_random.ax.length = test_random.na ∧
    test_random.ay.length = test_random.na ∧
    test_scattered.ns = 13 ∧ test_scattered.slon.length = test_scattered.ns ∧
    test_scattered.slat.length = test_scattered.ns ∧
    imageLength test_scattered.ns = 26 ∧
    (∀ a, a < test_random.na → a < test_random.ax.length ∧ a < test_random.ay.length) ∧
    (∀ s, s < test_scattered.ns →
      s < test_scattered.slon.length ∧ s < test_scattered.slat.length) := by
  have h1 : test_random.ax.length = 1000 := test_random_ax_length
  have h2 : test_random.ay.length = 1000 := test_random_ay_length
  have h3 : test_scattered.slon.length = 13 := by rfl
  have h4 : test_scattered.slat.length = 13 := by rfl
  refine ⟨rfl, h1, h2, h3, rfl, h4.trans h3.symm, ?_, ?_, ?_⟩
  · unfold imageLength test_scattered.ns
    rw [h3]
    rfl
  · intro a ha
    rw [h1, h2]
    exact ⟨ha, ha⟩
  · intro s hs
    unfold test_scattered.ns at hs
    rw [h4, ← h3]
    exact ⟨hs, hs⟩

end OSKAR
